import Mathlib

/-!
# DXVAHD video processor (`CProcessorHD`): a shallow embedding

Source: `xbmc/cores/VideoPlayer/VideoRenderers/HwDecRender/DXVAHD.cpp`.

The development follows the source file:

* colour-space resolution (`GetDXGIColorSpaceSource`, `GetDXGIColorSpaceTarget`),
* the search for the best rate-conversion processor inside `InitProcessor`,
* the assembly of the reference window inside `Render`,
* the filter mapping (`ApplyFilter`, embedded as `ApplyFilter32`) and the suitability test
  for super resolution,
* the session: its members, `Close`, `InitProcessor`, `CheckFormats`, `ReInit`,
  `OpenProcessor`, `Open`, `Render` and the super-resolution negotiation.

Definitions come first, theorems afterwards.
-/

set_option autoImplicit false

namespace DXVA

/-! ## Colour metadata (the FFmpeg enumerations the source compares against) -/

/-- The matrix coefficients of a decoded picture (FFmpeg `AVColorSpace`). -/
inductive AVColorSpace where
  | AVCOL_SPC_RGB
  | AVCOL_SPC_BT709
  | AVCOL_SPC_UNSPECIFIED
  | AVCOL_SPC_RESERVED
  | AVCOL_SPC_FCC
  | AVCOL_SPC_BT470BG
  | AVCOL_SPC_SMPTE170M
  | AVCOL_SPC_SMPTE240M
  | AVCOL_SPC_YCGCO
  | AVCOL_SPC_BT2020_NCL
  | AVCOL_SPC_BT2020_CL
  | AVCOL_SPC_SMPTE2085
  | AVCOL_SPC_CHROMA_DERIVED_NCL
  | AVCOL_SPC_CHROMA_DERIVED_CL
  | AVCOL_SPC_ICTCP
  deriving DecidableEq, Repr

/-- The colour primaries of a decoded picture (FFmpeg `AVColorPrimaries`). -/
inductive AVColorPrimaries where
  | AVCOL_PRI_RESERVED0
  | AVCOL_PRI_BT709
  | AVCOL_PRI_UNSPECIFIED
  | AVCOL_PRI_RESERVED
  | AVCOL_PRI_BT470M
  | AVCOL_PRI_BT470BG
  | AVCOL_PRI_SMPTE170M
  | AVCOL_PRI_SMPTE240M
  | AVCOL_PRI_FILM
  | AVCOL_PRI_BT2020
  | AVCOL_PRI_SMPTE428
  | AVCOL_PRI_SMPTE431
  | AVCOL_PRI_SMPTE432
  | AVCOL_PRI_EBU3213
  deriving DecidableEq, Repr

/-- The transfer characteristic of a decoded picture (FFmpeg
`AVColorTransferCharacteristic`). -/
inductive AVColorTransferCharacteristic where
  | AVCOL_TRC_RESERVED0
  | AVCOL_TRC_BT709
  | AVCOL_TRC_UNSPECIFIED
  | AVCOL_TRC_RESERVED
  | AVCOL_TRC_GAMMA22
  | AVCOL_TRC_GAMMA28
  | AVCOL_TRC_SMPTE170M
  | AVCOL_TRC_SMPTE240M
  | AVCOL_TRC_LINEAR
  | AVCOL_TRC_LOG
  | AVCOL_TRC_LOG_SQRT
  | AVCOL_TRC_IEC61966_2_4
  | AVCOL_TRC_BT1361_ECG
  | AVCOL_TRC_IEC61966_2_1
  | AVCOL_TRC_BT2020_10
  | AVCOL_TRC_BT2020_12
  | AVCOL_TRC_SMPTE2084
  | AVCOL_TRC_SMPTE428
  | AVCOL_TRC_ARIB_STD_B67
  deriving DecidableEq, Repr

open AVColorSpace AVColorPrimaries AVColorTransferCharacteristic

/-- FFmpeg spells the PQ transfer in two ways; both names denote one enumerator. The
source uses this spelling in `GetDXGIColorSpaceSource` and the other one in
`GetDXGIColorSpaceTarget`. -/
abbrev AVCOL_TRC_SMPTEST2084 : AVColorTransferCharacteristic := AVCOL_TRC_SMPTE2084

/-- The DXGI colour-space tags that occur in the source file. -/
inductive DXGI_COLOR_SPACE_TYPE where
  | DXGI_COLOR_SPACE_RGB_FULL_G22_NONE_P709
  | DXGI_COLOR_SPACE_RGB_FULL_G10_NONE_P709
  | DXGI_COLOR_SPACE_RGB_STUDIO_G22_NONE_P709
  | DXGI_COLOR_SPACE_RGB_STUDIO_G22_NONE_P2020
  | DXGI_COLOR_SPACE_YCBCR_FULL_G22_NONE_P709_X601
  | DXGI_COLOR_SPACE_YCBCR_STUDIO_G22_LEFT_P601
  | DXGI_COLOR_SPACE_YCBCR_FULL_G22_LEFT_P601
  | DXGI_COLOR_SPACE_YCBCR_STUDIO_G22_LEFT_P709
  | DXGI_COLOR_SPACE_YCBCR_FULL_G22_LEFT_P709
  | DXGI_COLOR_SPACE_YCBCR_STUDIO_G22_LEFT_P2020
  | DXGI_COLOR_SPACE_YCBCR_FULL_G22_LEFT_P2020
  | DXGI_COLOR_SPACE_RGB_FULL_G2084_NONE_P2020
  | DXGI_COLOR_SPACE_YCBCR_STUDIO_G2084_LEFT_P2020
  | DXGI_COLOR_SPACE_RGB_STUDIO_G2084_NONE_P2020
  | DXGI_COLOR_SPACE_YCBCR_STUDIO_G22_TOPLEFT_P2020
  | DXGI_COLOR_SPACE_RGB_FULL_G22_NONE_P2020
  | DXGI_COLOR_SPACE_YCBCR_STUDIO_GHLG_TOPLEFT_P2020
  | DXGI_COLOR_SPACE_YCBCR_FULL_GHLG_TOPLEFT_P2020
  | DXGI_COLOR_SPACE_YCBCR_STUDIO_G24_TOPLEFT_P2020
  deriving DecidableEq, Repr

open DXGI_COLOR_SPACE_TYPE

/-- The colour metadata `GetDXGIColorSpaceSource` and `GetDXGIColorSpaceTarget` read from
their `csArgs` argument. -/
structure DXGIColorSpaceArgs where
  color_space : AVColorSpace
  primaries : AVColorPrimaries
  color_transfer : AVColorTransferCharacteristic
  full_range : Bool
  deriving DecidableEq, Repr

/-- `CProcessorHD::GetDXGIColorSpaceSource`: the input colour space handed to the video
processor for a picture with metadata `csArgs`. -/
def GetDXGIColorSpaceSource (csArgs : DXGIColorSpaceArgs) (supportHDR supportHLG topleft : Bool) :
    DXGI_COLOR_SPACE_TYPE :=
  -- RGB
  if csArgs.color_space = AVCOL_SPC_RGB then
    if !csArgs.full_range then
      if csArgs.primaries = AVCOL_PRI_BT2020 then
        if csArgs.color_transfer = AVCOL_TRC_SMPTEST2084 ∧ supportHDR = true then
          DXGI_COLOR_SPACE_RGB_STUDIO_G2084_NONE_P2020
        else
          DXGI_COLOR_SPACE_RGB_STUDIO_G22_NONE_P2020
      else
        DXGI_COLOR_SPACE_RGB_STUDIO_G22_NONE_P709
    else if csArgs.primaries = AVCOL_PRI_BT2020 then
      if csArgs.color_transfer = AVCOL_TRC_SMPTEST2084 then
        DXGI_COLOR_SPACE_RGB_FULL_G2084_NONE_P2020
      else
        DXGI_COLOR_SPACE_RGB_FULL_G22_NONE_P2020
    else if csArgs.color_transfer = AVCOL_TRC_LINEAR ∨ csArgs.color_transfer = AVCOL_TRC_LOG then
      DXGI_COLOR_SPACE_RGB_FULL_G10_NONE_P709
    else
      DXGI_COLOR_SPACE_RGB_FULL_G22_NONE_P709
  -- UHDTV
  else if csArgs.primaries = AVCOL_PRI_BT2020 then
    -- always is used PQ for HDR passthrough
    if (csArgs.color_transfer = AVCOL_TRC_SMPTEST2084 ∨
        csArgs.color_transfer = AVCOL_TRC_ARIB_STD_B67) ∧ supportHDR = true then
      DXGI_COLOR_SPACE_YCBCR_STUDIO_G2084_LEFT_P2020
    -- HLG transfer can be used for HLG source in SDR display if is supported
    else if csArgs.color_transfer = AVCOL_TRC_ARIB_STD_B67 ∧ supportHLG = true then
      DXGI_COLOR_SPACE_YCBCR_STUDIO_GHLG_TOPLEFT_P2020
    else if csArgs.full_range then
      DXGI_COLOR_SPACE_YCBCR_FULL_G22_LEFT_P2020
    else if topleft then
      DXGI_COLOR_SPACE_YCBCR_STUDIO_G22_TOPLEFT_P2020
    else
      DXGI_COLOR_SPACE_YCBCR_STUDIO_G22_LEFT_P2020
  -- SDTV
  else if csArgs.primaries = AVCOL_PRI_BT470BG ∨ csArgs.primaries = AVCOL_PRI_SMPTE170M then
    if csArgs.full_range then
      DXGI_COLOR_SPACE_YCBCR_FULL_G22_LEFT_P601
    else
      DXGI_COLOR_SPACE_YCBCR_STUDIO_G22_LEFT_P601
  -- HDTV
  else if csArgs.full_range then
    if csArgs.color_transfer = AVCOL_TRC_SMPTE170M then
      DXGI_COLOR_SPACE_YCBCR_FULL_G22_NONE_P709_X601
    else
      DXGI_COLOR_SPACE_YCBCR_FULL_G22_LEFT_P709
  else
    DXGI_COLOR_SPACE_YCBCR_STUDIO_G22_LEFT_P709

/-- `CProcessorHD::GetDXGIColorSpaceTarget`: the output colour space. The argument
`isHDROutput` is the value of `DX::Windowing()->IsHDROutput()` read by the function. -/
def GetDXGIColorSpaceTarget (isHDROutput : Bool) (csArgs : DXGIColorSpaceArgs)
    (supportHDR limitedRange : Bool) : DXGI_COLOR_SPACE_TYPE :=
  let color := if limitedRange then DXGI_COLOR_SPACE_RGB_STUDIO_G22_NONE_P709
               else DXGI_COLOR_SPACE_RGB_FULL_G22_NONE_P709
  if !isHDROutput then
    color
  -- HDR10 or HLG
  else if csArgs.primaries = AVCOL_PRI_BT2020 ∧
      (csArgs.color_transfer = AVCOL_TRC_SMPTE2084 ∨
       csArgs.color_transfer = AVCOL_TRC_ARIB_STD_B67) then
    if supportHDR then
      if limitedRange then DXGI_COLOR_SPACE_RGB_STUDIO_G2084_NONE_P2020
      else DXGI_COLOR_SPACE_RGB_FULL_G2084_NONE_P2020
    else
      if limitedRange then DXGI_COLOR_SPACE_RGB_STUDIO_G22_NONE_P2020
      else DXGI_COLOR_SPACE_RGB_FULL_G22_NONE_P2020
  else
    color

/-- The seven RGB tags that appear in a `return` of `GetDXGIColorSpaceSource`. -/
def rgbSourceTags : List DXGI_COLOR_SPACE_TYPE :=
  [ DXGI_COLOR_SPACE_RGB_STUDIO_G2084_NONE_P2020,
    DXGI_COLOR_SPACE_RGB_STUDIO_G22_NONE_P2020,
    DXGI_COLOR_SPACE_RGB_STUDIO_G22_NONE_P709,
    DXGI_COLOR_SPACE_RGB_FULL_G2084_NONE_P2020,
    DXGI_COLOR_SPACE_RGB_FULL_G22_NONE_P2020,
    DXGI_COLOR_SPACE_RGB_FULL_G10_NONE_P709,
    DXGI_COLOR_SPACE_RGB_FULL_G22_NONE_P709 ]

/-- The ten YCbCr tags that appear in a `return` of `GetDXGIColorSpaceSource`. -/
def ycbcrSourceTags : List DXGI_COLOR_SPACE_TYPE :=
  [ DXGI_COLOR_SPACE_YCBCR_STUDIO_G2084_LEFT_P2020,
    DXGI_COLOR_SPACE_YCBCR_STUDIO_GHLG_TOPLEFT_P2020,
    DXGI_COLOR_SPACE_YCBCR_FULL_G22_LEFT_P2020,
    DXGI_COLOR_SPACE_YCBCR_STUDIO_G22_TOPLEFT_P2020,
    DXGI_COLOR_SPACE_YCBCR_STUDIO_G22_LEFT_P2020,
    DXGI_COLOR_SPACE_YCBCR_FULL_G22_LEFT_P601,
    DXGI_COLOR_SPACE_YCBCR_STUDIO_G22_LEFT_P601,
    DXGI_COLOR_SPACE_YCBCR_FULL_G22_NONE_P709_X601,
    DXGI_COLOR_SPACE_YCBCR_FULL_G22_LEFT_P709,
    DXGI_COLOR_SPACE_YCBCR_STUDIO_G22_LEFT_P709 ]

/-- The tags of the `return` statements of `GetDXGIColorSpaceSource`, in source order. -/
def sourceTags : List DXGI_COLOR_SPACE_TYPE := rgbSourceTags ++ ycbcrSourceTags

/-- One input per `return` statement of `GetDXGIColorSpaceSource`, in source order: the
metadata together with `supportHDR`, `supportHLG` and `topleft`. -/
def sourceSamples : List (DXGIColorSpaceArgs × Bool × Bool × Bool) :=
  [ (⟨AVCOL_SPC_RGB, AVCOL_PRI_BT2020, AVCOL_TRC_SMPTE2084, false⟩, true, false, false),
    (⟨AVCOL_SPC_RGB, AVCOL_PRI_BT2020, AVCOL_TRC_BT709, false⟩, false, false, false),
    (⟨AVCOL_SPC_RGB, AVCOL_PRI_BT709, AVCOL_TRC_BT709, false⟩, false, false, false),
    (⟨AVCOL_SPC_RGB, AVCOL_PRI_BT2020, AVCOL_TRC_SMPTE2084, true⟩, false, false, false),
    (⟨AVCOL_SPC_RGB, AVCOL_PRI_BT2020, AVCOL_TRC_BT709, true⟩, false, false, false),
    (⟨AVCOL_SPC_RGB, AVCOL_PRI_BT709, AVCOL_TRC_LINEAR, true⟩, false, false, false),
    (⟨AVCOL_SPC_RGB, AVCOL_PRI_BT709, AVCOL_TRC_IEC61966_2_1, true⟩, false, false, false),
    (⟨AVCOL_SPC_BT2020_NCL, AVCOL_PRI_BT2020, AVCOL_TRC_SMPTE2084, false⟩, true, false, false),
    (⟨AVCOL_SPC_BT2020_NCL, AVCOL_PRI_BT2020, AVCOL_TRC_ARIB_STD_B67, false⟩, false, true, false),
    (⟨AVCOL_SPC_BT2020_NCL, AVCOL_PRI_BT2020, AVCOL_TRC_BT2020_10, true⟩, false, false, false),
    (⟨AVCOL_SPC_BT2020_NCL, AVCOL_PRI_BT2020, AVCOL_TRC_BT2020_10, false⟩, false, false, true),
    (⟨AVCOL_SPC_BT2020_NCL, AVCOL_PRI_BT2020, AVCOL_TRC_BT2020_10, false⟩, false, false, false),
    (⟨AVCOL_SPC_BT470BG, AVCOL_PRI_BT470BG, AVCOL_TRC_GAMMA28, true⟩, false, false, false),
    (⟨AVCOL_SPC_SMPTE170M, AVCOL_PRI_SMPTE170M, AVCOL_TRC_SMPTE170M, false⟩, false, false, false),
    (⟨AVCOL_SPC_BT709, AVCOL_PRI_BT709, AVCOL_TRC_SMPTE170M, true⟩, false, false, false),
    (⟨AVCOL_SPC_BT709, AVCOL_PRI_BT709, AVCOL_TRC_BT709, true⟩, false, false, false),
    (⟨AVCOL_SPC_UNSPECIFIED, AVCOL_PRI_UNSPECIFIED, AVCOL_TRC_UNSPECIFIED, false⟩,
      false, false, false) ]

/-! ## Search for the best processor (`InitProcessor`) -/

/-- Deinterlacing bits of `ProcessorCaps`; the values are those the source itself tests
when it logs the supported methods (`& 0x1` blend, `& 0x2` bob, `& 0x4` adaptive, `& 0x8`
motion compensation). -/
def D3D11_VIDEO_PROCESSOR_PROCESSOR_CAPS_DEINTERLACE_BLEND : Nat := 0x1

/-- See `D3D11_VIDEO_PROCESSOR_PROCESSOR_CAPS_DEINTERLACE_BLEND`. -/
def D3D11_VIDEO_PROCESSOR_PROCESSOR_CAPS_DEINTERLACE_BOB : Nat := 0x2

/-- See `D3D11_VIDEO_PROCESSOR_PROCESSOR_CAPS_DEINTERLACE_BLEND`. -/
def D3D11_VIDEO_PROCESSOR_PROCESSOR_CAPS_DEINTERLACE_ADAPTIVE : Nat := 0x4

/-- See `D3D11_VIDEO_PROCESSOR_PROCESSOR_CAPS_DEINTERLACE_BLEND`. -/
def D3D11_VIDEO_PROCESSOR_PROCESSOR_CAPS_DEINTERLACE_MOTION_COMPENSATION : Nat := 0x8

/-- The fields of `D3D11_VIDEO_PROCESSOR_RATE_CONVERSION_CAPS` read by the source (all
`UINT`). -/
structure D3D11_VIDEO_PROCESSOR_RATE_CONVERSION_CAPS where
  PastFrames : Nat
  FutureFrames : Nat
  ProcessorCaps : Nat
  deriving DecidableEq, Repr

/-- The local constant `deinterlacingCaps` of `InitProcessor`. -/
def deinterlacingCaps : Nat :=
  D3D11_VIDEO_PROCESSOR_PROCESSOR_CAPS_DEINTERLACE_BLEND |||
  D3D11_VIDEO_PROCESSOR_PROCESSOR_CAPS_DEINTERLACE_BOB |||
  D3D11_VIDEO_PROCESSOR_PROCESSOR_CAPS_DEINTERLACE_ADAPTIVE |||
  D3D11_VIDEO_PROCESSOR_PROCESSOR_CAPS_DEINTERLACE_MOTION_COMPENSATION

/-- The loop "try to find best processor" of `InitProcessor`. The list holds, for
`i = 0, 1, ..`, the content of the local `convCaps` after the call
`GetVideoProcessorRateConversionCaps(i, &convCaps)` (a failing call is only logged by
`LOGIFERROR`, the loop goes on with what the structure holds). `i` is the loop counter,
the pair is `(m_procIndex, maxProcCaps)`. -/
def findBestProcessor :
    List D3D11_VIDEO_PROCESSOR_RATE_CONVERSION_CAPS → Nat → Nat × Nat → Nat × Nat
  | [], _, st => st
  | convCaps :: rest, i, (m_procIndex, maxProcCaps) =>
    -- check only deinterlace caps
    if (convCaps.ProcessorCaps &&& deinterlacingCaps) > maxProcCaps then
      findBestProcessor rest (i + 1) (i, convCaps.ProcessorCaps &&& deinterlacingCaps)
    else
      findBestProcessor rest (i + 1) (m_procIndex, maxProcCaps)

/-- The value of `m_procIndex` after the search of `InitProcessor`. The first argument is
the value the member held on entry; the function overwrites it (`m_procIndex = 0`) and
starts the loop with `maxProcCaps = 0`. -/
def selectProcessor (_m_procIndex : Nat)
    (rateConversionCaps : List D3D11_VIDEO_PROCESSOR_RATE_CONVERSION_CAPS) : Nat :=
  (findBestProcessor rateConversionCaps 0 (0, 0)).1

/-- The masked deinterlacing capability value of each candidate processor. -/
def maskedCaps (rateConversionCaps : List D3D11_VIDEO_PROCESSOR_RATE_CONVERSION_CAPS) :
    List Nat :=
  rateConversionCaps.map fun convCaps => convCaps.ProcessorCaps &&& deinterlacingCaps

/-- Number of set bits of a 32-bit value: the score the specification names ("masked
bit count"). The source does not compute it. -/
def bitCount (n : Nat) : Nat :=
  ((List.range 32).filter fun k => n.testBit k).length

/-! ## `Render`: the reference window -/

/-- The eight-entry array `views` passed to `Render`: index 2 is the current frame,
3..7 are past frames, 1..0 are future frames; `none` is a null pointer. -/
abbrev ViewSet (Buf : Type) := Fin 8 → Option Buf

/-- The read `views[i]` with an `int` index: `none` when the index is outside the array. -/
def viewAt {Buf : Type} (views : ViewSet Buf) (i : Int) : Option (Option Buf) :=
  if h : 0 ≤ i ∧ i < 8 then some (views ⟨i.toNat, by omega⟩) else none

/-- The write `v[idx] = x` on a `std::vector` with an `int` index: `none` when the index is
outside the vector. -/
def vectorWrite {α : Type} (v : List α) (idx : Int) (x : α) : Option (List α) :=
  if 0 ≤ idx ∧ idx < v.length then some (v.set idx.toNat x) else none

/-- First counting loop of `Render`: `for (int i = 3; i < 8; i++) if (views[i]) providedPast++`. -/
def providedPast {Buf : Type} (views : ViewSet Buf) : Nat :=
  ([3, 4, 5, 6, 7] : List (Fin 8)).foldl
    (fun providedPast i => if (views i).isSome then providedPast + 1 else providedPast) 0

/-- Second counting loop of `Render`:
`for (int i = 1; i >= 0; i--) if (views[i]) providedFuture++`. -/
def providedFuture {Buf : Type} (views : ViewSet Buf) : Nat :=
  ([1, 0] : List (Fin 8)).foldl
    (fun providedFuture i => if (views i).isSome then providedFuture + 1 else providedFuture) 0

/-- The locals written by the assembly loop of `Render`: the two vectors behind
`stream_data.ppPastSurfaces` and `stream_data.ppFutureSurfaces`, `stream_data.pInputSurface`,
`count` and `all_views`. A null input view is `none`. -/
structure WindowState (View : Type) where
  pastViews : List (Option View)
  futureViews : List (Option View)
  pInputSurface : Option View
  count : Int
  all_views : List View
  deriving DecidableEq, Repr

/-- One iteration of the assembly loop of `Render` at index `i`. `GetInputView` gives the
result of `CProcessorHD::GetInputView` on a buffer (`none` when no view could be created).
The result is `none` when the iteration reads or writes outside an array. -/
def assembleStep {Buf View : Type} (GetInputView : Buf → Option View) (views : ViewSet Buf)
    (pastFrames : Int) (i : Int) (st : WindowState View) : Option (WindowState View) :=
  match viewAt views i with
  | none => none
  | some none => some st -- continue
  | some (some buffer) =>
    let view := GetInputView buffer
    let stored : Option (WindowState View) :=
      if i > 2 then
        -- frames order should be { ?, T-3, T-2, T-1 }
        (vectorWrite st.pastViews (2 + pastFrames - i) view).map
          fun v => { st with pastViews := v }
      else if i = 2 then
        some { st with pInputSurface := view }
      else
        -- frames order should be { T+1, T+2, T+3, .. }
        (vectorWrite st.futureViews (1 - i) view).map
          fun v => { st with futureViews := v }
    stored.map fun st1 =>
      match view with
      | some v => { st1 with count := st1.count + 1, all_views := st1.all_views ++ [v] }
      | none => st1

/-- The assembly loop `for (int i = start; i <= end; i++)` of `Render`, with the number of
remaining iterations as first argument. -/
def assembleLoop {Buf View : Type} (GetInputView : Buf → Option View) (views : ViewSet Buf)
    (pastFrames : Int) : Nat → Int → WindowState View → Option (WindowState View)
  | 0, _, st => some st
  | n + 1, i, st =>
    (assembleStep GetInputView views pastFrames i st).bind
      (assembleLoop GetInputView views pastFrames n (i + 1))

/-- The local `futureFrames` of `Render`. -/
def futureFrames {Buf : Type} (m_rateCaps : D3D11_VIDEO_PROCESSOR_RATE_CONVERSION_CAPS)
    (views : ViewSet Buf) : Nat :=
  min (providedFuture views) m_rateCaps.FutureFrames

/-- The local `pastFrames` of `Render`. -/
def pastFrames {Buf : Type} (m_rateCaps : D3D11_VIDEO_PROCESSOR_RATE_CONVERSION_CAPS)
    (views : ViewSet Buf) : Nat :=
  min (providedPast views) m_rateCaps.PastFrames

/-- The part of `Render` from the two counting loops to the end of the assembly loop:
the vectors are created with `pastFrames` and `futureFrames` null entries, and the loop
runs from `start = 2 - futureFrames` to `end = 2 + pastFrames`. -/
def assembleWindow {Buf View : Type} (GetInputView : Buf → Option View)
    (m_rateCaps : D3D11_VIDEO_PROCESSOR_RATE_CONVERSION_CAPS) (views : ViewSet Buf) :
    Option (WindowState View) :=
  let futureFrames : Int := (futureFrames m_rateCaps views : Nat)
  let pastFrames : Int := (pastFrames m_rateCaps views : Nat)
  let start : Int := 2 - futureFrames
  let end_ : Int := 2 + pastFrames
  assembleLoop GetInputView views pastFrames (end_ + 1 - start).toNat start
    { pastViews := List.replicate pastFrames.toNat none
      futureViews := List.replicate futureFrames.toNat none
      pInputSurface := none
      count := 0
      all_views := [] }

/-- The fields of `D3D11_VIDEO_PROCESSOR_STREAM` that describe the reference window. -/
structure D3D11_VIDEO_PROCESSOR_STREAM (View : Type) where
  PastFrames : Nat
  FutureFrames : Nat
  pInputSurface : Option View
  ppPastSurfaces : List (Option View)
  ppFutureSurfaces : List (Option View)
  deriving DecidableEq, Repr

/-- `FAILED(hr)` on an `HRESULT`. -/
def FAILED (hr : Int) : Bool := decide (hr < 0)

/-- `SUCCEEDED(hr)` on an `HRESULT`. -/
def SUCCEEDED (hr : Int) : Bool := decide (0 ≤ hr)

/-- The backend calls of `Render` that return a value: the input-view creation behind
`GetInputView`, the `HRESULT` of `CreateVideoProcessorOutputView` and the `HRESULT` of
`VideoProcessorBlt` for the stream it is given. -/
structure RenderBackend (Buf View : Type) where
  GetInputView : Buf → Option View
  CreateVideoProcessorOutputView : Int
  VideoProcessorBlt : D3D11_VIDEO_PROCESSOR_STREAM View → Int

/-- What a call of `Render` does: the value it returns, and the stream handed to
`VideoProcessorBlt` when that call is issued (`none` when it is not). -/
structure RenderOutcome (View : Type) where
  result : Bool
  blt : Option (D3D11_VIDEO_PROCESSOR_STREAM View)
  deriving DecidableEq, Repr

/-- `CProcessorHD::Render`, control flow and reference window. `processor` is the value of
`m_pVideoProcessor || OpenProcessor()` in the first statement and `m_rateCaps` the member
after that statement. The calls between the window check and the output view (frame
format, rectangles, colour spaces, filters, rotation) return nothing and are left out.
The result is `none` when the assembly reads or writes outside an array. -/
def Render {Buf View : Type} (processor : Bool)
    (m_rateCaps : D3D11_VIDEO_PROCESSOR_RATE_CONVERSION_CAPS)
    (backend : RenderBackend Buf View) (views : ViewSet Buf) : Option (RenderOutcome View) :=
  -- restore processor if it was lost
  if !processor then
    some { result := false, blt := none }
  else if (views 2).isNone then
    some { result := false, blt := none }
  else
    match assembleWindow backend.GetInputView m_rateCaps views with
    | none => none
    | some st =>
      if st.count ≠ (pastFrames m_rateCaps views : Nat) + (futureFrames m_rateCaps views : Nat) + 1
      then
        -- incomplete views set
        some { result := false, blt := none }
      else
        let stream_data : D3D11_VIDEO_PROCESSOR_STREAM View :=
          { PastFrames := pastFrames m_rateCaps views
            FutureFrames := futureFrames m_rateCaps views
            pInputSurface := st.pInputSurface
            ppPastSurfaces := st.pastViews
            ppFutureSurfaces := st.futureViews }
        let hr := backend.CreateVideoProcessorOutputView
        if SUCCEEDED hr then
          let hr := backend.VideoProcessorBlt stream_data
          some { result := !FAILED hr, blt := some stream_data }
        else
          some { result := !FAILED hr, blt := none }

/-- The input view the assembly loop obtains for slot `k` of `views`: `none` when the index
is outside the array, the slot is null, or no input view could be created for its
buffer. -/
def resolveAt {Buf View : Type} (GetInputView : Buf → Option View) (views : ViewSet Buf)
    (k : Int) : Option View :=
  match viewAt views k with
  | some (some buffer) => GetInputView buffer
  | _ => none

/-- The place where the assembly loop stores the view of slot `k`: `pastViews[2 +
pastFrames - k]` for `k > 2`, `pInputSurface` for `k = 2` and `futureViews[1 - k]` below. -/
def WindowState.cell {View : Type} (st : WindowState View) (pastFrames : Int) (k : Int) :
    Option (Option View) :=
  if k > 2 then st.pastViews[(2 + pastFrames - k).toNat]?
  else if k = 2 then some st.pInputSurface
  else st.futureViews[(1 - k).toNat]?

/-! ## Sample inputs -/

/-- A view set with all eight slots present; the buffer in slot `i` is `i`. -/
def fullViews : ViewSet Nat := fun i => some i.val

/-- A view set in which `views[3]` is absent and every other slot is present. -/
def gapViews : ViewSet Nat := fun i => if i.val = 3 then none else some i.val

/-- A backend that creates the input view `100 + b` for buffer `b`, creates the output
view (`S_OK`) and executes the blit (`S_OK`). -/
def okBackend : RenderBackend Nat Nat :=
  { GetInputView := fun b => some (100 + b)
    CreateVideoProcessorOutputView := 0
    VideoProcessorBlt := fun _ => 0 }

/-- A backend like `okBackend` whose `CreateVideoProcessorOutputView` fails with `E_FAIL`
(`0x80004005` as a signed 32-bit `HRESULT`). -/
def noOutputViewBackend : RenderBackend Nat Nat :=
  { GetInputView := fun b => some (100 + b)
    CreateVideoProcessorOutputView := -2147467259
    VideoProcessorBlt := fun _ => 0 }

/-! ## Filters and super-resolution suitability -/

/-- The integer fields of `D3D11_VIDEO_PROCESSOR_FILTER_RANGE` (all `int`). -/
structure D3D11_VIDEO_PROCESSOR_FILTER_RANGE where
  Minimum : Int
  Maximum : Int
  Default : Int
  deriving DecidableEq, Repr

/-- An element of the member array `m_Filters`. -/
structure FilterState where
  bSupported : Bool
  Range : D3D11_VIDEO_PROCESSOR_FILTER_RANGE
  deriving DecidableEq, Repr

/-- An entry of the table `PROCAMP_FILTERS`: the filter identifier and its capability
bit. -/
structure ProcAmpInfo where
  filter : Nat
  cap : Nat
  deriving DecidableEq, Repr

/-- Modelled from the spec: the table `PROCAMP_FILTERS` of the known filter kinds
(brightness, contrast, hue, saturation), declared outside the source file. Filter `i` has
identifier `i` and capability bit `2 ^ i`. -/
def PROCAMP_FILTERS : List ProcAmpInfo :=
  [⟨0, 0x1⟩, ⟨1, 0x2⟩, ⟨2, 0x4⟩, ⟨3, 0x8⟩]

/-- Modelled from the spec: `NUM_FILTERS`, the number of entries of `PROCAMP_FILTERS`,
declared outside the source file. -/
def NUM_FILTERS : Nat := PROCAMP_FILTERS.length

/-- The arguments of the call `VideoProcessorSetStreamFilter` issued by `ApplyFilter`. -/
structure StreamFilterCall where
  filter : Nat
  Enable : Bool
  Level : Int
  deriving DecidableEq, Repr

/-- The fields of `VideoPicture` read by `IsSuperResolutionSuitable`. -/
structure VideoPicture where
  iWidth : Nat
  iFlags : Nat
  color_primaries : AVColorPrimaries
  color_transfer : AVColorTransferCharacteristic
  deriving DecidableEq, Repr

/-- `CProcessorHD::IsSuperResolutionSuitable`. `DVP_FLAG_INTERLACED` is the flag mask
(declared outside the source file) and `outputWidth` the value of
`DX::Windowing()->GetBackBuffer().GetWidth()`. -/
def IsSuperResolutionSuitable (DVP_FLAG_INTERLACED : Nat) (outputWidth : Nat)
    (picture : VideoPicture) : Bool :=
  if picture.iWidth > 1920 then
    false
  else if outputWidth ≤ picture.iWidth then
    false
  else if picture.iFlags &&& DVP_FLAG_INTERLACED ≠ 0 then
    false
  else if picture.color_primaries = AVCOL_PRI_BT2020 ∨
      picture.color_transfer = AVCOL_TRC_SMPTE2084 ∨
      picture.color_transfer = AVCOL_TRC_ARIB_STD_B67 then
    false
  else
    true

/-! ## The session: members, environment and lifecycle -/

/-- The pixel formats named in the source file, and the usual 8-bit back-buffer
formats. -/
inductive DXGI_FORMAT where
  | DXGI_FORMAT_UNKNOWN
  | DXGI_FORMAT_R10G10B10A2_UNORM
  | DXGI_FORMAT_R8G8B8A8_UNORM
  | DXGI_FORMAT_B8G8R8A8_UNORM
  | DXGI_FORMAT_NV12
  | DXGI_FORMAT_P010
  | DXGI_FORMAT_V408
  deriving DecidableEq, Repr

open DXGI_FORMAT

/-- The two vendor interfaces of the unnamed namespace of the source file. -/
inductive ExtensionGuid where
  | GUID_INTEL_VPE_INTERFACE
  | GUID_NVIDIA_PPE_INTERFACE
  deriving DecidableEq, Repr

open ExtensionGuid

/-- Constant of the unnamed namespace of the source file. -/
def kIntelVpeFnVersion : Nat := 0x01

/-- Constant of the unnamed namespace of the source file. -/
def kIntelVpeFnMode : Nat := 0x20

/-- Constant of the unnamed namespace of the source file. -/
def kIntelVpeFnScaling : Nat := 0x37

/-- Constant of the unnamed namespace of the source file. -/
def kIntelVpeVersion3 : Nat := 0x0003

/-- Constant of the unnamed namespace of the source file. -/
def kIntelVpeModePreproc : Nat := 0x01

/-- Constant of the unnamed namespace of the source file. -/
def kIntelVpeScalingSuperResolution : Nat := 0x2

/-- Constant of the unnamed namespace of the source file. -/
def kStreamExtensionVersionV1 : Nat := 0x1

/-- Constant of the unnamed namespace of the source file. -/
def kStreamExtensionMethodSuperResolution : Nat := 0x2

/-- Modelled from the spec: the vendor tag of Intel adapters, declared outside the source
file; the value is the PCI vendor identifier. -/
def PCIV_Intel : Nat := 0x8086

/-- Modelled from the spec: the vendor tag of NVIDIA adapters, declared outside the
source file; the value is the PCI vendor identifier. -/
def PCIV_NVIDIA : Nat := 0x10DE

/-- Modelled from the spec: the vendor tag of AMD adapters, declared outside the source
file; the value is the PCI vendor identifier. No branch of the source file tests it. -/
def PCIV_AMD : Nat := 0x1002

/-- `D3D11_VIDEO_PROCESSOR_FORMAT_SUPPORT_OUTPUT`, the flag `CheckFormats` asks for. -/
def D3D11_VIDEO_PROCESSOR_FORMAT_SUPPORT_OUTPUT : Nat := 0x2

/-- An extension write: the interface and the words of the extension structure
(`{function, *param}` for Intel, `{version, method, enable}` for NVIDIA). -/
inductive ExtensionCall where
  | VideoProcessorSetOutputExtension (guid : ExtensionGuid) (ext : List Nat)
  | VideoProcessorSetStreamExtension (guid : ExtensionGuid) (ext : List Nat)
  deriving DecidableEq, Repr

open ExtensionCall

/-- The calls of the session that change its environment. -/
inductive BackendCall where
  | ApplyDisplaySettings (forced8bit : Bool)
  | VideoProcessorSetOutputBackgroundColor
  | extension (call : ExtensionCall)
  deriving DecidableEq, Repr

/-- The fields of `D3D11_VIDEO_PROCESSOR_CAPS` that steer the probe (the others are only
logged). -/
structure D3D11_VIDEO_PROCESSOR_CAPS where
  RateConversionCapsCount : Nat
  FilterCaps : Nat
  deriving DecidableEq, Repr

/-- What the environment answers during one operation of the session. An `Int` is an
`HRESULT`; a pair holds the `HRESULT` and the content of the output argument after the
call. -/
structure Backend where
  /-- `pD3DDeviceContext.As(&m_pVideoContext)`. -/
  videoContext : Int
  /-- `pD3DDevice.As(&m_pVideoDevice)`. -/
  videoDevice : Int
  /-- `CreateVideoProcessorEnumerator` for the given input width and height. -/
  CreateVideoProcessorEnumerator : Nat → Nat → Int
  /-- `m_pEnumerator.As(&m_pEnumerator1)`. -/
  enumerator1 : Int
  GetVideoProcessorCaps : Int × D3D11_VIDEO_PROCESSOR_CAPS
  GetVideoProcessorRateConversionCaps : Nat → Int × D3D11_VIDEO_PROCESSOR_RATE_CONVERSION_CAPS
  GetVideoProcessorFilterRange : Nat → Int × D3D11_VIDEO_PROCESSOR_FILTER_RANGE
  CheckVideoProcessorFormatConversion :
    DXGI_FORMAT → DXGI_COLOR_SPACE_TYPE → DXGI_FORMAT → DXGI_COLOR_SPACE_TYPE → Int × Bool
  CheckVideoProcessorFormat : DXGI_FORMAT → Int × Nat
  CreateVideoProcessor : Nat → Int
  /-- `DX::Windowing()->GetBackBuffer().GetFormat()`. -/
  backBufferFormat : DXGI_FORMAT
  /-- `VendorId` of the adapter description. -/
  VendorId : Nat
  /-- The `HRESULT` of an extension write. -/
  SetExtension : ExtensionCall → Int

/-- The members of `CProcessorHD` the source file reads and writes. A COM pointer is
`true` when it is not null. `trace` is not a member: it records, oldest first, the calls
that change the environment. -/
structure CProcessorHD where
  m_pVideoDevice : Bool
  m_pVideoContext : Bool
  m_pEnumerator : Bool
  m_pEnumerator1 : Bool
  m_pVideoProcessor : Bool
  m_width : Nat
  m_height : Nat
  m_vcaps : D3D11_VIDEO_PROCESSOR_CAPS
  m_rateCaps : D3D11_VIDEO_PROCESSOR_RATE_CONVERSION_CAPS
  m_procIndex : Nat
  m_max_back_refs : Nat
  m_max_fwd_refs : Nat
  m_Filters : List FilterState
  m_bSupportHLG : Bool
  m_bSupportHDR10Limited : Bool
  m_BT2020TopLeft : Bool
  m_forced8bit : Bool
  m_superResolutionEnabled : Bool
  trace : List BackendCall
  deriving DecidableEq, Repr

namespace CProcessorHD

/-- `CProcessorHD::Close`. -/
def Close (s : CProcessorHD) : CProcessorHD :=
  { s with
    m_pEnumerator1 := false
    m_pEnumerator := false
    m_pVideoProcessor := false
    m_pVideoContext := false
    m_pVideoDevice := false
    -- restores 10 bit swap chain if previously forced to 8 bit
    trace := if s.m_forced8bit then s.trace ++ [BackendCall.ApplyDisplaySettings false]
             else s.trace
    m_superResolutionEnabled := false }

/-- The loop "Get the image filtering capabilities" of `InitProcessor`. -/
def probeFilters (backend : Backend) (m_vcaps : D3D11_VIDEO_PROCESSOR_CAPS)
    (m_Filters : List FilterState) : List FilterState :=
  (List.range NUM_FILTERS).map fun i =>
    if m_vcaps.FilterCaps &&& (PROCAMP_FILTERS.getD i ⟨0, 0⟩).cap ≠ 0 then
      { bSupported :=
          SUCCEEDED (backend.GetVideoProcessorFilterRange (PROCAMP_FILTERS.getD i ⟨0, 0⟩).filter).1
        Range := (backend.GetVideoProcessorFilterRange (PROCAMP_FILTERS.getD i ⟨0, 0⟩).filter).2 }
    else
      { bSupported := false
        Range := (m_Filters.getD i ⟨false, ⟨0, 0, 0⟩⟩).Range }

/-- A conversion check of `InitProcessor` with `DXGI_FORMAT_P010` input and the
back-buffer format as output: `SUCCEEDED(hr) && supported`. -/
def conversionSupported (backend : Backend) (inputColorSpace outputColorSpace :
    DXGI_COLOR_SPACE_TYPE) : Bool :=
  SUCCEEDED (backend.CheckVideoProcessorFormatConversion DXGI_FORMAT_P010 inputColorSpace
      backend.backBufferFormat outputColorSpace).1 &&
    (backend.CheckVideoProcessorFormatConversion DXGI_FORMAT_P010 inputColorSpace
      backend.backBufferFormat outputColorSpace).2

/-- `CProcessorHD::InitProcessor`: the returned value and the members afterwards. The
logging of the supported formats and capabilities is left out. -/
def InitProcessor (backend : Backend) (s : CProcessorHD) : Bool × CProcessorHD :=
  let s : CProcessorHD :=
    { s with m_pVideoDevice := false, m_pVideoContext := false, m_pEnumerator := false,
             m_pEnumerator1 := false }
  if FAILED backend.videoContext then
    (false, s)
  else
    let s : CProcessorHD := { s with m_pVideoContext := true }
    if FAILED backend.videoDevice then
      (false, s)
    else
      let s : CProcessorHD := { s with m_pVideoDevice := true }
      if FAILED (backend.CreateVideoProcessorEnumerator s.m_width s.m_height) then
        (false, s)
      else
        let s : CProcessorHD :=
          { s with m_pEnumerator := true, m_pEnumerator1 := SUCCEEDED backend.enumerator1 }
        if FAILED backend.GetVideoProcessorCaps.1 then
          (false, s)
        else
          let m_vcaps := backend.GetVideoProcessorCaps.2
          -- try to find best processor
          let m_procIndex := selectProcessor s.m_procIndex
            ((List.range m_vcaps.RateConversionCapsCount).map fun i =>
              (backend.GetVideoProcessorRateConversionCaps i).2)
          let m_rateCaps :=
            if FAILED (backend.GetVideoProcessorRateConversionCaps m_procIndex).1 then s.m_rateCaps
            else (backend.GetVideoProcessorRateConversionCaps m_procIndex).2
          let s : CProcessorHD :=
            { s with
              m_vcaps := m_vcaps
              m_procIndex := m_procIndex
              m_rateCaps := m_rateCaps
              m_max_fwd_refs := min m_rateCaps.FutureFrames 2
              m_max_back_refs := min m_rateCaps.PastFrames 4
              m_Filters := probeFilters backend m_vcaps s.m_Filters }
          let s : CProcessorHD :=
            if s.m_pEnumerator1 then
              { s with
                -- Check if HLG color space conversion is supported by driver
                m_bSupportHLG := conversionSupported backend
                  DXGI_COLOR_SPACE_YCBCR_STUDIO_GHLG_TOPLEFT_P2020
                  DXGI_COLOR_SPACE_RGB_FULL_G22_NONE_P709
                -- Check if HDR10 RGB limited range output is supported by driver
                m_bSupportHDR10Limited := conversionSupported backend
                  DXGI_COLOR_SPACE_YCBCR_STUDIO_G2084_LEFT_P2020
                  DXGI_COLOR_SPACE_RGB_STUDIO_G2084_NONE_P2020
                -- Check if driver prefers YCbCr TOP LEFT for 10 bit BT.2020
                m_BT2020TopLeft :=
                  !(conversionSupported backend DXGI_COLOR_SPACE_YCBCR_STUDIO_G22_LEFT_P2020
                      DXGI_COLOR_SPACE_RGB_FULL_G22_NONE_P709) &&
                  conversionSupported backend DXGI_COLOR_SPACE_YCBCR_STUDIO_G22_TOPLEFT_P2020
                      DXGI_COLOR_SPACE_RGB_FULL_G22_NONE_P709 }
            else s
          (true, s)

/-- `CProcessorHD::IsFormatSupported`. -/
def IsFormatSupported (backend : Backend) (format : DXGI_FORMAT) (support : Nat) : Bool :=
  decide ((backend.CheckVideoProcessorFormat format).1 = 0) &&
    decide ((backend.CheckVideoProcessorFormat format).2 &&& support ≠ 0)

/-- `CProcessorHD::CheckFormats`: check default output format (as render target). -/
def CheckFormats (backend : Backend) : Bool :=
  IsFormatSupported backend backend.backBufferFormat D3D11_VIDEO_PROCESSOR_FORMAT_SUPPORT_OUTPUT

/-- `CProcessorHD::ReInit`. -/
def ReInit (backend : Backend) (s : CProcessorHD) : Bool × CProcessorHD :=
  let r := InitProcessor backend (Close s)
  if !r.1 then
    (false, r.2)
  else if !CheckFormats backend then
    (false, r.2)
  else
    (true, r.2)

/-- `CProcessorHD::OpenProcessor`. A failing `CreateVideoProcessor` leaves
`m_pVideoProcessor` null (`ReleaseAndGetAddressOf`). -/
def OpenProcessor (backend : Backend) (s : CProcessorHD) : Bool × CProcessorHD :=
  -- restore the device if it was lost
  let r := if !s.m_pEnumerator then ReInit backend s else (true, s)
  if !r.1 then
    (false, r.2)
  else
    -- create processor
    if FAILED (backend.CreateVideoProcessor r.2.m_procIndex) then
      (false, { r.2 with m_pVideoProcessor := false })
    else
      -- Output background color (black)
      (true, { r.2 with
        m_pVideoProcessor := true
        trace := r.2.trace ++ [BackendCall.VideoProcessorSetOutputBackgroundColor] })

/-- The assignments `m_width = width; m_height = height` of `Open`. -/
def setSize (s : CProcessorHD) (width height : Nat) : CProcessorHD :=
  { s with m_width := width, m_height := height }

/-- `CProcessorHD::Open`. -/
def Open (backend : Backend) (s : CProcessorHD) (width height : Nat) : Bool × CProcessorHD :=
  let s : CProcessorHD := setSize (Close s) width height
  let r := InitProcessor backend s
  if !r.1 then
    (false, r.2)
  else if !CheckFormats backend then
    (false, r.2)
  else
    OpenProcessor backend r.2

/-- `CProcessorHD::Render` on the session: the first statement restores the processor if
it was lost, the rest is `DXVA.Render` with the members as they are after that
statement. -/
def Render {Buf View : Type} (backend : Backend) (renderBackend : RenderBackend Buf View)
    (s : CProcessorHD) (views : ViewSet Buf) : CProcessorHD × Option (RenderOutcome View) :=
  let r := if !s.m_pVideoProcessor then OpenProcessor backend s else (true, s)
  (r.2, DXVA.Render r.1 r.2.m_rateCaps renderBackend views)

/-- The three writes of `EnableIntelVideoSuperResolution`, in program order. -/
def intelWrites : List ExtensionCall :=
  [ VideoProcessorSetOutputExtension GUID_INTEL_VPE_INTERFACE
      [kIntelVpeFnVersion, kIntelVpeVersion3],
    VideoProcessorSetOutputExtension GUID_INTEL_VPE_INTERFACE
      [kIntelVpeFnMode, kIntelVpeModePreproc],
    VideoProcessorSetStreamExtension GUID_INTEL_VPE_INTERFACE
      [kIntelVpeFnScaling, kIntelVpeScalingSuperResolution] ]

/-- The write of `EnableNvidiaRTXVideoSuperResolution`. -/
def nvidiaWrites : List ExtensionCall :=
  [ VideoProcessorSetStreamExtension GUID_NVIDIA_PPE_INTERFACE
      [kStreamExtensionVersionV1, kStreamExtensionMethodSuperResolution, 1] ]

/-- `CProcessorHD::EnableIntelVideoSuperResolution`. -/
def EnableIntelVideoSuperResolution (backend : Backend) (s : CProcessorHD) : CProcessorHD :=
  let version := VideoProcessorSetOutputExtension GUID_INTEL_VPE_INTERFACE
    [kIntelVpeFnVersion, kIntelVpeVersion3]
  let s : CProcessorHD := { s with trace := s.trace ++ [BackendCall.extension version] }
  if FAILED (backend.SetExtension version) then
    s
  else
    let mode := VideoProcessorSetOutputExtension GUID_INTEL_VPE_INTERFACE
      [kIntelVpeFnMode, kIntelVpeModePreproc]
    let s : CProcessorHD := { s with trace := s.trace ++ [BackendCall.extension mode] }
    if FAILED (backend.SetExtension mode) then
      s
    else
      let scaling := VideoProcessorSetStreamExtension GUID_INTEL_VPE_INTERFACE
        [kIntelVpeFnScaling, kIntelVpeScalingSuperResolution]
      let s : CProcessorHD := { s with trace := s.trace ++ [BackendCall.extension scaling] }
      if FAILED (backend.SetExtension scaling) then
        s
      else
        { s with m_superResolutionEnabled := true }

/-- `CProcessorHD::EnableNvidiaRTXVideoSuperResolution`. -/
def EnableNvidiaRTXVideoSuperResolution (backend : Backend) (s : CProcessorHD) :
    CProcessorHD :=
  let ext := VideoProcessorSetStreamExtension GUID_NVIDIA_PPE_INTERFACE
    [kStreamExtensionVersionV1, kStreamExtensionMethodSuperResolution, 1]
  let s : CProcessorHD := { s with trace := s.trace ++ [BackendCall.extension ext] }
  if FAILED (backend.SetExtension ext) then
    s
  else
    { s with m_superResolutionEnabled := true }

/-- `CProcessorHD::TryEnableVideoSuperResolution`. -/
def TryEnableVideoSuperResolution (backend : Backend) (s : CProcessorHD) : CProcessorHD :=
  if !s.m_pVideoContext || !s.m_pVideoProcessor then
    s
  else
    let s : CProcessorHD :=
      if backend.backBufferFormat = DXGI_FORMAT_R10G10B10A2_UNORM then
        -- force 8 bit swap chain temporally as NVIDIA Super Resolution not supports 10 bit
        { s with
          trace := s.trace ++ [BackendCall.ApplyDisplaySettings true]
          m_forced8bit := true }
      else s
    if backend.VendorId = PCIV_Intel then
      EnableIntelVideoSuperResolution backend s
    else if backend.VendorId = PCIV_NVIDIA then
      EnableNvidiaRTXVideoSuperResolution backend s
    else
      s

end CProcessorHD

/-- A call of a public operation of the session, with the environment answering it. -/
inductive Call (Buf View : Type) where
  | Open (backend : Backend) (width height : Nat)
  | Close
  | ReInit (backend : Backend)
  | Render (backend : Backend) (renderBackend : RenderBackend Buf View) (views : ViewSet Buf)
  | TryEnableVideoSuperResolution (backend : Backend)

/-- The session after one call. -/
def CProcessorHD.call {Buf View : Type} (s : CProcessorHD) : Call Buf View → CProcessorHD
  | Call.Open backend width height => (CProcessorHD.Open backend s width height).2
  | Call.Close => CProcessorHD.Close s
  | Call.ReInit backend => (CProcessorHD.ReInit backend s).2
  | Call.Render backend renderBackend views =>
    (CProcessorHD.Render backend renderBackend s views).1
  | Call.TryEnableVideoSuperResolution backend =>
    CProcessorHD.TryEnableVideoSuperResolution backend s

/-- The session after a sequence of calls. -/
def CProcessorHD.run {Buf View : Type} (s : CProcessorHD) (calls : List (Call Buf View)) :
    CProcessorHD :=
  calls.foldl CProcessorHD.call s

/-- The capability snapshot of a session: selected processor index, reference limits,
filter support and ranges, and the three conversion flags. -/
structure ProcessingCapabilities where
  m_procIndex : Nat
  m_rateCaps : D3D11_VIDEO_PROCESSOR_RATE_CONVERSION_CAPS
  m_max_back_refs : Nat
  m_max_fwd_refs : Nat
  m_Filters : List FilterState
  m_bSupportHLG : Bool
  m_bSupportHDR10Limited : Bool
  m_BT2020TopLeft : Bool
  deriving DecidableEq, Repr

/-- The capability snapshot held by the members of a session. -/
def CProcessorHD.capabilities (s : CProcessorHD) : ProcessingCapabilities :=
  { m_procIndex := s.m_procIndex
    m_rateCaps := s.m_rateCaps
    m_max_back_refs := s.m_max_back_refs
    m_max_fwd_refs := s.m_max_fwd_refs
    m_Filters := s.m_Filters
    m_bSupportHLG := s.m_bSupportHLG
    m_bSupportHDR10Limited := s.m_bSupportHDR10Limited
    m_BT2020TopLeft := s.m_BT2020TopLeft }

/-! ## Sample sessions and environments -/

/-- A session with no handle and all members cleared. -/
def closedSession : CProcessorHD :=
  { m_pVideoDevice := false, m_pVideoContext := false, m_pEnumerator := false,
    m_pEnumerator1 := false, m_pVideoProcessor := false, m_width := 0, m_height := 0,
    m_vcaps := ⟨0, 0⟩, m_rateCaps := ⟨0, 0, 0⟩, m_procIndex := 0, m_max_back_refs := 0,
    m_max_fwd_refs := 0, m_Filters := [], m_bSupportHLG := false,
    m_bSupportHDR10Limited := false, m_BT2020TopLeft := false, m_forced8bit := false,
    m_superResolutionEnabled := false, trace := [] }

/-- An environment in which every call succeeds: an NVIDIA adapter with a 10-bit back
buffer and two rate-conversion processors, the second one with all four deinterlacing
methods, 2 past and 1 future frame. -/
def goodBackend : Backend :=
  { videoContext := 0
    videoDevice := 0
    CreateVideoProcessorEnumerator := fun _ _ => 0
    enumerator1 := 0
    GetVideoProcessorCaps := (0, ⟨2, 0x3⟩)
    GetVideoProcessorRateConversionCaps := fun i =>
      (0, if i = 0 then ⟨0, 0, 0x3⟩ else ⟨2, 1, 0xF⟩)
    GetVideoProcessorFilterRange := fun _ => (0, ⟨-100, 100, 0⟩)
    CheckVideoProcessorFormatConversion := fun _ _ _ _ => (0, true)
    CheckVideoProcessorFormat := fun _ => (0, 0x3)
    CreateVideoProcessor := fun _ => 0
    backBufferFormat := DXGI_FORMAT.DXGI_FORMAT_R10G10B10A2_UNORM
    VendorId := PCIV_NVIDIA
    SetExtension := fun _ => 0 }

/-- Like `goodBackend`, but every rate-conversion capability query fails with `E_FAIL`
and leaves a zeroed structure. -/
def rateQueryFailsBackend : Backend :=
  { goodBackend with
    GetVideoProcessorRateConversionCaps := fun _ => (-2147467259, ⟨0, 0, 0⟩) }

/-- Like `goodBackend`, but the video device interface is not available
(`E_NOINTERFACE`). -/
def noDeviceBackend : Backend :=
  { goodBackend with videoDevice := -2147467262 }

/-- Like `goodBackend`, but the processor capability query fails with `E_FAIL`. -/
def noCapsBackend : Backend :=
  { goodBackend with GetVideoProcessorCaps := (-2147467259, ⟨0, 0⟩) }

/-- Like `goodBackend`, on an AMD adapter. -/
def amdBackend : Backend :=
  { goodBackend with VendorId := PCIV_AMD }

/-- Like `goodBackend`, on an Intel adapter whose second extension write (the mode) is
rejected with `E_INVALIDARG`. -/
def intelModeFailsBackend : Backend :=
  { goodBackend with
    VendorId := PCIV_Intel
    SetExtension := fun w =>
      if w = ExtensionCall.VideoProcessorSetOutputExtension
          ExtensionGuid.GUID_INTEL_VPE_INTERFACE [kIntelVpeFnMode, kIntelVpeModePreproc]
      then -2147024809 else 0 }

/-- A 3840-wide interlaced BT.2020 PQ picture. -/
def uhdPicture : VideoPicture :=
  { iWidth := 3840, iFlags := 0x8, color_primaries := AVCOL_PRI_BT2020,
    color_transfer := AVCOL_TRC_SMPTE2084 }

/-- A view set whose eight slots all hold `uhdPicture`. -/
def uhdViews : ViewSet VideoPicture := fun _ => some uhdPicture

/-- A render backend for pictures: every input view is created (view `0`), the output
view is created and the blit succeeds. -/
def pictureBackend : RenderBackend VideoPicture Nat :=
  { GetInputView := fun _ => some 0
    CreateVideoProcessorOutputView := 0
    VideoProcessorBlt := fun _ => 0 }

/-- The extension writes issued from a list of writes when the sequence stops at the
first failing write: the writes up to and including that one. -/
def writesUntilFailure (backend : Backend) : List ExtensionCall → List ExtensionCall
  | [] => []
  | w :: ws =>
    if FAILED (backend.SetExtension w) then [w] else w :: writesUntilFailure backend ws

/-- The capability snapshot a successful probe leaves, from the answers of the environment
and the snapshot held before: the processor index, the filters with a capability bit and
(with `ID3D11VideoProcessorEnumerator1`) the three flags are recomputed; the rate
capabilities after a failing query, the ranges of filters without capability bit and
(without that interface) the three flags are kept. -/
def probedCapabilities (backend : Backend) (old : ProcessingCapabilities) :
    ProcessingCapabilities :=
  let m_procIndex := selectProcessor old.m_procIndex
    ((List.range backend.GetVideoProcessorCaps.2.RateConversionCapsCount).map fun i =>
      (backend.GetVideoProcessorRateConversionCaps i).2)
  let m_rateCaps :=
    if FAILED (backend.GetVideoProcessorRateConversionCaps m_procIndex).1 then old.m_rateCaps
    else (backend.GetVideoProcessorRateConversionCaps m_procIndex).2
  { m_procIndex := m_procIndex
    m_rateCaps := m_rateCaps
    m_max_back_refs := min m_rateCaps.PastFrames 4
    m_max_fwd_refs := min m_rateCaps.FutureFrames 2
    m_Filters := CProcessorHD.probeFilters backend backend.GetVideoProcessorCaps.2 old.m_Filters
    m_bSupportHLG :=
      if SUCCEEDED backend.enumerator1 then
        CProcessorHD.conversionSupported backend DXGI_COLOR_SPACE_YCBCR_STUDIO_GHLG_TOPLEFT_P2020
          DXGI_COLOR_SPACE_RGB_FULL_G22_NONE_P709
      else old.m_bSupportHLG
    m_bSupportHDR10Limited :=
      if SUCCEEDED backend.enumerator1 then
        CProcessorHD.conversionSupported backend DXGI_COLOR_SPACE_YCBCR_STUDIO_G2084_LEFT_P2020
          DXGI_COLOR_SPACE_RGB_STUDIO_G2084_NONE_P2020
      else old.m_bSupportHDR10Limited
    m_BT2020TopLeft :=
      if SUCCEEDED backend.enumerator1 then
        !(CProcessorHD.conversionSupported backend DXGI_COLOR_SPACE_YCBCR_STUDIO_G22_LEFT_P2020
            DXGI_COLOR_SPACE_RGB_FULL_G22_NONE_P709) &&
          CProcessorHD.conversionSupported backend
            DXGI_COLOR_SPACE_YCBCR_STUDIO_G22_TOPLEFT_P2020
            DXGI_COLOR_SPACE_RGB_FULL_G22_NONE_P709
      else old.m_BT2020TopLeft }

/-! ## The filter mapping (`ApplyFilter`) -/

/-- A value is representable as `int` (32-bit two's complement). -/
abbrev fitsInt (x : Int) : Prop := -2147483648 ≤ x ∧ x ≤ 2147483647

/-- The `int` that a 32-bit two's complement machine keeps of an exact result: the
value modulo `2 ^ 32` in `[-2 ^ 31, 2 ^ 31)`. Signed overflow is undefined in C++;
wrap-around is what the usual targets compute. -/
def wrapInt (x : Int) : Int := (x + 2147483648) % 4294967296 - 2147483648

/-- `CProcessorHD::ApplyFilter` with the arithmetic of `int` on a 32-bit machine: every
subtraction, multiplication, division and addition is reduced by `wrapInt`; `/`
truncates toward zero. The result is the call issued, `none` when the filter is
ignored. -/
def ApplyFilter32 (m_Filters : List FilterState) (filter : Nat) (value min max def_ : Int) :
    Option StreamFilterCall :=
  if filter ≥ NUM_FILTERS then
    none
  -- Unsupported filter. Ignore.
  else if !(m_Filters.getD filter ⟨false, ⟨0, 0, 0⟩⟩).bSupported then
    none
  else
    let range := (m_Filters.getD filter ⟨false, ⟨0, 0, 0⟩⟩).Range
    let val : Int :=
      if value > def_ then
        wrapInt (range.Default +
          wrapInt ((wrapInt (wrapInt (range.Maximum - range.Default) * wrapInt (value - def_))).tdiv
            (wrapInt (max - def_))))
      else if value < def_ then
        wrapInt (range.Default +
          wrapInt ((wrapInt (wrapInt (range.Minimum - range.Default) * wrapInt (value - def_))).tdiv
            (wrapInt (min - def_))))
      else
        range.Default
    some { filter := filter, Enable := val != range.Default, Level := val }

/-- The formula of `CProcessorHD::ApplyFilter` evaluated over the mathematical integers,
with `/` truncating toward zero and no wrap-around. This is not what the machine
computes: it is the reference value ("the arithmetic taken as exact integers") with
which `ApplyFilter32` is compared, and the two agree when no intermediate result leaves
the range of `int`. -/
def ApplyFilterExact (m_Filters : List FilterState) (filter : Nat) (value min max def_ : Int) :
    Option StreamFilterCall :=
  if filter ≥ NUM_FILTERS then
    none
  else if !(m_Filters.getD filter ⟨false, ⟨0, 0, 0⟩⟩).bSupported then
    none
  else
    let range := (m_Filters.getD filter ⟨false, ⟨0, 0, 0⟩⟩).Range
    let val : Int :=
      if value > def_ then
        range.Default + ((range.Maximum - range.Default) * (value - def_)).tdiv (max - def_)
      else if value < def_ then
        range.Default + ((range.Minimum - range.Default) * (value - def_)).tdiv (min - def_)
      else
        range.Default
    some { filter := filter, Enable := val != range.Default, Level := val }

/-! # Theorems -/

/-! ## Colour-space resolution -/

/-- RGB input always gets one of the seven RGB tags. -/
theorem GetDXGIColorSpaceSource_rgb (csArgs : DXGIColorSpaceArgs) (supportHDR supportHLG topleft : Bool)
    (h : csArgs.color_space = AVCOL_SPC_RGB) :
    GetDXGIColorSpaceSource csArgs supportHDR supportHLG topleft ∈ rgbSourceTags := by
  unfold GetDXGIColorSpaceSource
  rw [if_pos h]
  split_ifs <;> simp [rgbSourceTags]

/-- Non-RGB input always gets one of the ten YCbCr tags. -/
theorem GetDXGIColorSpaceSource_ycbcr (csArgs : DXGIColorSpaceArgs)
    (supportHDR supportHLG topleft : Bool) (h : csArgs.color_space ≠ AVCOL_SPC_RGB) :
    GetDXGIColorSpaceSource csArgs supportHDR supportHLG topleft ∈ ycbcrSourceTags := by
  unfold GetDXGIColorSpaceSource
  rw [if_neg h]
  split_ifs <;> simp [ycbcrSourceTags]

/-- The sample inputs reach the seventeen tags, in order. -/
theorem sourceSamples_map :
    sourceSamples.map (fun x => GetDXGIColorSpaceSource x.1 x.2.1 x.2.2.1 x.2.2.2) = sourceTags := by
  decide

/-- C4: `GetDXGIColorSpaceSource` is total and every case is reachable. For every metadata
and every triple of flags the result is one of the seventeen tags of its `return`
statements (an RGB tag for RGB input, a YCbCr tag otherwise); the list holds seven RGB and
ten YCbCr tags, all distinct; and every one of the seventeen is the result for some
input. -/
theorem GetDXGIColorSpaceSource_total_no_dead_case :
    (∀ (csArgs : DXGIColorSpaceArgs) (supportHDR supportHLG topleft : Bool),
        GetDXGIColorSpaceSource csArgs supportHDR supportHLG topleft ∈ sourceTags ∧
        (csArgs.color_space = AVCOL_SPC_RGB →
          GetDXGIColorSpaceSource csArgs supportHDR supportHLG topleft ∈ rgbSourceTags) ∧
        (csArgs.color_space ≠ AVCOL_SPC_RGB →
          GetDXGIColorSpaceSource csArgs supportHDR supportHLG topleft ∈ ycbcrSourceTags)) ∧
    rgbSourceTags.length = 7 ∧ ycbcrSourceTags.length = 10 ∧ sourceTags.length = 17 ∧
    sourceTags.Nodup ∧
    (∀ t : DXGI_COLOR_SPACE_TYPE, t ∈ sourceTags →
        ∃ (csArgs : DXGIColorSpaceArgs) (supportHDR supportHLG topleft : Bool),
          GetDXGIColorSpaceSource csArgs supportHDR supportHLG topleft = t) := by
  refine ⟨?_, rfl, rfl, rfl, by decide, ?_⟩
  · intro csArgs supportHDR supportHLG topleft
    refine ⟨?_, GetDXGIColorSpaceSource_rgb csArgs _ _ _,
      GetDXGIColorSpaceSource_ycbcr csArgs _ _ _⟩
    by_cases h : csArgs.color_space = AVCOL_SPC_RGB
    · exact List.mem_append_left _ (GetDXGIColorSpaceSource_rgb csArgs _ _ _ h)
    · exact List.mem_append_right _ (GetDXGIColorSpaceSource_ycbcr csArgs _ _ _ h)
  · intro t ht
    rw [← sourceSamples_map, List.mem_map] at ht
    obtain ⟨x, _, hx⟩ := ht
    exact ⟨x.1, x.2.1, x.2.2.1, x.2.2.2, hx⟩

/-- Witness for C4: the tag of an unspecified limited-range YCbCr picture is one of the
seventeen and is reached. -/
theorem GetDXGIColorSpaceSource_total_no_dead_case_witness :
    GetDXGIColorSpaceSource
        ⟨AVCOL_SPC_UNSPECIFIED, AVCOL_PRI_UNSPECIFIED, AVCOL_TRC_UNSPECIFIED, false⟩
        false false false ∈ ycbcrSourceTags ∧
    ∃ (csArgs : DXGIColorSpaceArgs) (supportHDR supportHLG topleft : Bool),
      GetDXGIColorSpaceSource csArgs supportHDR supportHLG topleft =
        DXGI_COLOR_SPACE_YCBCR_STUDIO_G22_LEFT_P709 :=
  ⟨(GetDXGIColorSpaceSource_total_no_dead_case.1
      ⟨AVCOL_SPC_UNSPECIFIED, AVCOL_PRI_UNSPECIFIED, AVCOL_TRC_UNSPECIFIED, false⟩
      false false false).2.2 (by decide),
   GetDXGIColorSpaceSource_total_no_dead_case.2.2.2.2.2
      DXGI_COLOR_SPACE_YCBCR_STUDIO_G22_LEFT_P709 (by decide)⟩

/-- C5: for a non-RGB picture with BT.2020 primaries, the PQ tag
`YCBCR_STUDIO_G2084_LEFT_P2020` is returned exactly when the transfer is PQ or HLG and
`supportHDR` is set; the native HLG tag `YCBCR_STUDIO_GHLG_TOPLEFT_P2020` is returned
exactly when the transfer is HLG, `supportHLG` is set and `supportHDR` is not; so with
`supportHDR` set an HLG picture never gets the native HLG tag (it gets the PQ tag). -/
theorem GetDXGIColorSpaceSource_bt2020_hdr (csArgs : DXGIColorSpaceArgs)
    (supportHDR supportHLG topleft : Bool)
    (hrgb : csArgs.color_space ≠ AVCOL_SPC_RGB) (hpri : csArgs.primaries = AVCOL_PRI_BT2020) :
    (GetDXGIColorSpaceSource csArgs supportHDR supportHLG topleft =
        DXGI_COLOR_SPACE_YCBCR_STUDIO_G2084_LEFT_P2020 ↔
      (csArgs.color_transfer = AVCOL_TRC_SMPTE2084 ∨
        csArgs.color_transfer = AVCOL_TRC_ARIB_STD_B67) ∧ supportHDR = true) ∧
    (GetDXGIColorSpaceSource csArgs supportHDR supportHLG topleft =
        DXGI_COLOR_SPACE_YCBCR_STUDIO_GHLG_TOPLEFT_P2020 ↔
      csArgs.color_transfer = AVCOL_TRC_ARIB_STD_B67 ∧ supportHLG = true ∧
        supportHDR = false) ∧
    (supportHDR = true → csArgs.color_transfer = AVCOL_TRC_ARIB_STD_B67 →
      GetDXGIColorSpaceSource csArgs supportHDR supportHLG topleft ≠
          DXGI_COLOR_SPACE_YCBCR_STUDIO_GHLG_TOPLEFT_P2020 ∧
      GetDXGIColorSpaceSource csArgs supportHDR supportHLG topleft =
          DXGI_COLOR_SPACE_YCBCR_STUDIO_G2084_LEFT_P2020) := by
  unfold GetDXGIColorSpaceSource
  rw [if_neg hrgb, if_pos hpri]
  cases supportHDR <;> cases supportHLG <;> split_ifs <;> simp_all

/-- Witness for C5: an HLG BT.2020 picture on an HDR display whose driver also supports
HLG. -/
theorem GetDXGIColorSpaceSource_bt2020_hdr_witness :
    GetDXGIColorSpaceSource
        ⟨AVCOL_SPC_BT2020_NCL, AVCOL_PRI_BT2020, AVCOL_TRC_ARIB_STD_B67, false⟩
        true true false ≠ DXGI_COLOR_SPACE_YCBCR_STUDIO_GHLG_TOPLEFT_P2020 ∧
    GetDXGIColorSpaceSource
        ⟨AVCOL_SPC_BT2020_NCL, AVCOL_PRI_BT2020, AVCOL_TRC_ARIB_STD_B67, false⟩
        true true false = DXGI_COLOR_SPACE_YCBCR_STUDIO_G2084_LEFT_P2020 :=
  (GetDXGIColorSpaceSource_bt2020_hdr
    ⟨AVCOL_SPC_BT2020_NCL, AVCOL_PRI_BT2020, AVCOL_TRC_ARIB_STD_B67, false⟩
    true true false (by decide) rfl).2.2 rfl rfl

/-- C6 as stated fails: a full-range BT.2020 YCbCr picture with an SDR transfer reaches
neither the PQ nor the HLG branch, yet the orientation flag does not choose its tag: with
`topleft` set the result is `YCBCR_FULL_G22_LEFT_P2020`, not
`YCBCR_STUDIO_G22_TOPLEFT_P2020`. -/
theorem GetDXGIColorSpaceSource_topleft_alone_fails :
    ¬ ∀ (csArgs : DXGIColorSpaceArgs) (supportHDR supportHLG topleft : Bool),
        csArgs.color_space ≠ AVCOL_SPC_RGB → csArgs.primaries = AVCOL_PRI_BT2020 →
        ¬ ((csArgs.color_transfer = AVCOL_TRC_SMPTE2084 ∨
            csArgs.color_transfer = AVCOL_TRC_ARIB_STD_B67) ∧ supportHDR = true) →
        ¬ (csArgs.color_transfer = AVCOL_TRC_ARIB_STD_B67 ∧ supportHLG = true) →
        GetDXGIColorSpaceSource csArgs supportHDR supportHLG topleft =
          (if topleft then DXGI_COLOR_SPACE_YCBCR_STUDIO_G22_TOPLEFT_P2020
           else DXGI_COLOR_SPACE_YCBCR_STUDIO_G22_LEFT_P2020) := by
  intro h
  have h1 := h ⟨AVCOL_SPC_BT2020_NCL, AVCOL_PRI_BT2020, AVCOL_TRC_BT2020_10, true⟩
    false false true (by decide) rfl (by decide) (by decide)
  revert h1
  decide

/-- C6, amended: for a non-RGB picture with BT.2020 primaries that reaches neither the PQ
nor the HLG branch, a full-range picture gets `YCBCR_FULL_G22_LEFT_P2020` whatever the
orientation flag, and a picture that is not full range gets
`YCBCR_STUDIO_G22_TOPLEFT_P2020` when `topleft` is set and `YCBCR_STUDIO_G22_LEFT_P2020`
when it is not. -/
theorem GetDXGIColorSpaceSource_bt2020_sdr (csArgs : DXGIColorSpaceArgs)
    (supportHDR supportHLG topleft : Bool)
    (hrgb : csArgs.color_space ≠ AVCOL_SPC_RGB) (hpri : csArgs.primaries = AVCOL_PRI_BT2020)
    (hpq : ¬ ((csArgs.color_transfer = AVCOL_TRC_SMPTE2084 ∨
        csArgs.color_transfer = AVCOL_TRC_ARIB_STD_B67) ∧ supportHDR = true))
    (hhlg : ¬ (csArgs.color_transfer = AVCOL_TRC_ARIB_STD_B67 ∧ supportHLG = true)) :
    (csArgs.full_range = false →
      GetDXGIColorSpaceSource csArgs supportHDR supportHLG topleft =
        (if topleft then DXGI_COLOR_SPACE_YCBCR_STUDIO_G22_TOPLEFT_P2020
         else DXGI_COLOR_SPACE_YCBCR_STUDIO_G22_LEFT_P2020)) ∧
    (csArgs.full_range = true →
      GetDXGIColorSpaceSource csArgs supportHDR supportHLG topleft =
        DXGI_COLOR_SPACE_YCBCR_FULL_G22_LEFT_P2020) := by
  unfold GetDXGIColorSpaceSource
  rw [if_neg hrgb, if_pos hpri, if_neg hpq, if_neg hhlg]
  constructor <;> intro hfull <;> simp [hfull]

/-- Witness for the amended C6: a limited-range SDR BT.2020 picture on a driver that
prefers the top-left variant. -/
theorem GetDXGIColorSpaceSource_bt2020_sdr_witness :
    GetDXGIColorSpaceSource
        ⟨AVCOL_SPC_BT2020_NCL, AVCOL_PRI_BT2020, AVCOL_TRC_BT2020_10, false⟩
        false false true = DXGI_COLOR_SPACE_YCBCR_STUDIO_G22_TOPLEFT_P2020 :=
  (GetDXGIColorSpaceSource_bt2020_sdr
    ⟨AVCOL_SPC_BT2020_NCL, AVCOL_PRI_BT2020, AVCOL_TRC_BT2020_10, false⟩
    false false true (by decide) rfl (by decide) (by decide)).1 rfl

/-- C7: for a non-RGB picture whose primaries are not BT.2020 the three flags are
ignored and the tag is fixed by the primaries class, the full-range flag and one transfer
test: BT.470BG or SMPTE170M primaries give the P601 tag of the range; any other primaries
give `YCBCR_FULL_G22_NONE_P709_X601` (full range, SMPTE170M transfer),
`YCBCR_FULL_G22_LEFT_P709` (full range otherwise) or the default
`YCBCR_STUDIO_G22_LEFT_P709`. -/
theorem GetDXGIColorSpaceSource_sdtv_hdtv (csArgs : DXGIColorSpaceArgs)
    (supportHDR supportHLG topleft : Bool)
    (hrgb : csArgs.color_space ≠ AVCOL_SPC_RGB) (hpri : csArgs.primaries ≠ AVCOL_PRI_BT2020) :
    (∀ supportHDR2 supportHLG2 topleft2 : Bool,
      GetDXGIColorSpaceSource csArgs supportHDR supportHLG topleft =
        GetDXGIColorSpaceSource csArgs supportHDR2 supportHLG2 topleft2) ∧
    GetDXGIColorSpaceSource csArgs supportHDR supportHLG topleft =
      (if csArgs.primaries = AVCOL_PRI_BT470BG ∨ csArgs.primaries = AVCOL_PRI_SMPTE170M then
        (if csArgs.full_range = true then DXGI_COLOR_SPACE_YCBCR_FULL_G22_LEFT_P601
         else DXGI_COLOR_SPACE_YCBCR_STUDIO_G22_LEFT_P601)
       else if csArgs.full_range = true then
        (if csArgs.color_transfer = AVCOL_TRC_SMPTE170M then
          DXGI_COLOR_SPACE_YCBCR_FULL_G22_NONE_P709_X601
         else DXGI_COLOR_SPACE_YCBCR_FULL_G22_LEFT_P709)
       else DXGI_COLOR_SPACE_YCBCR_STUDIO_G22_LEFT_P709) := by
  have key : ∀ a b c : Bool, GetDXGIColorSpaceSource csArgs a b c =
      (if csArgs.primaries = AVCOL_PRI_BT470BG ∨ csArgs.primaries = AVCOL_PRI_SMPTE170M then
        (if csArgs.full_range = true then DXGI_COLOR_SPACE_YCBCR_FULL_G22_LEFT_P601
         else DXGI_COLOR_SPACE_YCBCR_STUDIO_G22_LEFT_P601)
       else if csArgs.full_range = true then
        (if csArgs.color_transfer = AVCOL_TRC_SMPTE170M then
          DXGI_COLOR_SPACE_YCBCR_FULL_G22_NONE_P709_X601
         else DXGI_COLOR_SPACE_YCBCR_FULL_G22_LEFT_P709)
       else DXGI_COLOR_SPACE_YCBCR_STUDIO_G22_LEFT_P709) := by
    intro a b c
    unfold GetDXGIColorSpaceSource
    rw [if_neg hrgb, if_neg hpri]
  exact ⟨fun a b c => (key _ _ _).trans (key a b c).symm, key _ _ _⟩

/-- Witness for C7: unspecified metadata falls through to BT.709 studio range. -/
theorem GetDXGIColorSpaceSource_sdtv_hdtv_witness :
    GetDXGIColorSpaceSource
        ⟨AVCOL_SPC_UNSPECIFIED, AVCOL_PRI_UNSPECIFIED, AVCOL_TRC_UNSPECIFIED, false⟩
        true true true = DXGI_COLOR_SPACE_YCBCR_STUDIO_G22_LEFT_P709 :=
  (GetDXGIColorSpaceSource_sdtv_hdtv
    ⟨AVCOL_SPC_UNSPECIFIED, AVCOL_PRI_UNSPECIFIED, AVCOL_TRC_UNSPECIFIED, false⟩
    true true true (by decide) (by decide)).2

/-- C8: `GetDXGIColorSpaceTarget` returns the flat BT.709 RGB target of the requested
range unless HDR output is active and the picture has BT.2020 primaries with PQ or HLG
transfer; then it returns the G2084 BT.2020 target of the range when `supportHDR` is set
and the G22 BT.2020 target of the range when it is not. -/
theorem GetDXGIColorSpaceTarget_spec (isHDROutput : Bool) (csArgs : DXGIColorSpaceArgs)
    (supportHDR limitedRange : Bool) :
    GetDXGIColorSpaceTarget isHDROutput csArgs supportHDR limitedRange =
      (if isHDROutput = true ∧ csArgs.primaries = AVCOL_PRI_BT2020 ∧
          (csArgs.color_transfer = AVCOL_TRC_SMPTE2084 ∨
            csArgs.color_transfer = AVCOL_TRC_ARIB_STD_B67) then
        (if supportHDR = true then
          (if limitedRange = true then DXGI_COLOR_SPACE_RGB_STUDIO_G2084_NONE_P2020
           else DXGI_COLOR_SPACE_RGB_FULL_G2084_NONE_P2020)
         else
          (if limitedRange = true then DXGI_COLOR_SPACE_RGB_STUDIO_G22_NONE_P2020
           else DXGI_COLOR_SPACE_RGB_FULL_G22_NONE_P2020))
       else
        (if limitedRange = true then DXGI_COLOR_SPACE_RGB_STUDIO_G22_NONE_P709
         else DXGI_COLOR_SPACE_RGB_FULL_G22_NONE_P709)) := by
  unfold GetDXGIColorSpaceTarget
  cases isHDROutput <;> cases supportHDR <;> cases limitedRange <;> simp

/-! ## Search for the best processor -/

/-- Invariant of the search loop: the final maximum dominates the initial one and every
masked value of the list; either nothing was selected, or the selected position holds
the final maximum and every earlier position is strictly below it. -/
theorem findBestProcessor_spec (caps : List D3D11_VIDEO_PROCESSOR_RATE_CONVERSION_CAPS) :
    ∀ (i idx mx : Nat),
      mx ≤ (findBestProcessor caps i (idx, mx)).2 ∧
      (∀ j : Nat, (maskedCaps caps).getD j 0 ≤ (findBestProcessor caps i (idx, mx)).2) ∧
      (((findBestProcessor caps i (idx, mx)).1 = idx ∧
          (findBestProcessor caps i (idx, mx)).2 = mx) ∨
        ∃ k : Nat, k < caps.length ∧ (findBestProcessor caps i (idx, mx)).1 = i + k ∧
          (maskedCaps caps).getD k 0 = (findBestProcessor caps i (idx, mx)).2 ∧
          mx < (findBestProcessor caps i (idx, mx)).2 ∧
          ∀ j : Nat, j < k →
            (maskedCaps caps).getD j 0 < (findBestProcessor caps i (idx, mx)).2) := by
  induction caps with
  | nil =>
    intro i idx mx
    simp [findBestProcessor, maskedCaps]
  | cons c rest ih =>
    intro i idx mx
    by_cases hc : (c.ProcessorCaps &&& deinterlacingCaps) > mx
    · have hstep : findBestProcessor (c :: rest) i (idx, mx) =
          findBestProcessor rest (i + 1) (i, c.ProcessorCaps &&& deinterlacingCaps) := by
        simp [findBestProcessor, hc]
      rw [hstep]
      obtain ⟨h1, h2, h3⟩ := ih (i + 1) i (c.ProcessorCaps &&& deinterlacingCaps)
      refine ⟨by omega, ?_, Or.inr ?_⟩
      · intro j
        cases j with
        | zero => simpa [maskedCaps] using h1
        | succ j => simpa [maskedCaps] using h2 j
      · rcases h3 with ⟨_, h3b⟩ | ⟨k, hk, hk1, hk2, hk3, hk4⟩
        · refine ⟨0, by simp, ?_, ?_, by omega, ?_⟩
          · simp [*]
          · simp [maskedCaps, h3b]
          · intro j hj
            omega
        · refine ⟨k + 1, by simpa using hk, by omega, by simpa [maskedCaps] using hk2,
            by omega, ?_⟩
          intro j hj
          cases j with
          | zero =>
            have : (maskedCaps (c :: rest)).getD 0 0 = c.ProcessorCaps &&& deinterlacingCaps := by
              simp [maskedCaps]
            omega
          | succ j =>
            have := hk4 j (by omega)
            simpa [maskedCaps] using this
    · have hstep : findBestProcessor (c :: rest) i (idx, mx) =
          findBestProcessor rest (i + 1) (idx, mx) := by
        simp [findBestProcessor, hc]
      rw [hstep]
      obtain ⟨h1, h2, h3⟩ := ih (i + 1) idx mx
      refine ⟨h1, ?_, ?_⟩
      · intro j
        cases j with
        | zero =>
          have : (maskedCaps (c :: rest)).getD 0 0 = c.ProcessorCaps &&& deinterlacingCaps := by
            simp [maskedCaps]
          omega
        | succ j => simpa [maskedCaps] using h2 j
      · rcases h3 with h3 | ⟨k, hk, hk1, hk2, hk3, hk4⟩
        · exact Or.inl h3
        · refine Or.inr ⟨k + 1, by simpa using hk, by omega, by simpa [maskedCaps] using hk2,
            hk3, ?_⟩
          intro j hj
          cases j with
          | zero =>
            have : (maskedCaps (c :: rest)).getD 0 0 = c.ProcessorCaps &&& deinterlacingCaps := by
              simp [maskedCaps]
            omega
          | succ j =>
            have := hk4 j (by omega)
            simpa [maskedCaps] using this

/-- The search only looks at the masked capability values. -/
theorem findBestProcessor_congr (caps1 caps2 : List D3D11_VIDEO_PROCESSOR_RATE_CONVERSION_CAPS)
    (h : maskedCaps caps1 = maskedCaps caps2) (i : Nat) (st : Nat × Nat) :
    findBestProcessor caps1 i st = findBestProcessor caps2 i st := by
  induction caps1 generalizing caps2 i st with
  | nil =>
    cases caps2 with
    | nil => rfl
    | cons c2 r2 => simp [maskedCaps] at h
  | cons c1 r1 ih =>
    cases caps2 with
    | nil => simp [maskedCaps] at h
    | cons c2 r2 =>
      obtain ⟨idx, mx⟩ := st
      have h' : (c1.ProcessorCaps &&& deinterlacingCaps) = (c2.ProcessorCaps &&& deinterlacingCaps) ∧
          maskedCaps r1 = maskedCaps r2 := by
        simpa [maskedCaps] using h
      simp only [findBestProcessor, h'.1]
      split_ifs
      · exact ih r2 h'.2 _ _
      · exact ih r2 h'.2 _ _

/-- The selected index is a position of the list, or 0 for the empty list. -/
theorem selectProcessor_lt (prev : Nat)
    (caps : List D3D11_VIDEO_PROCESSOR_RATE_CONVERSION_CAPS) (h : caps ≠ []) :
    selectProcessor prev caps < caps.length := by
  have hlen : 0 < caps.length := List.length_pos.mpr h
  obtain ⟨_, _, h3⟩ := findBestProcessor_spec caps 0 0 0
  unfold selectProcessor
  rcases h3 with ⟨h3, _⟩ | ⟨k, hk, hk1, _⟩
  · omega
  · omega

/-- No position has a larger masked value than the selected one. -/
theorem selectProcessor_max (prev : Nat)
    (caps : List D3D11_VIDEO_PROCESSOR_RATE_CONVERSION_CAPS) (j : Nat) :
    (maskedCaps caps).getD j 0 ≤ (maskedCaps caps).getD (selectProcessor prev caps) 0 := by
  obtain ⟨_, h2, h3⟩ := findBestProcessor_spec caps 0 0 0
  unfold selectProcessor
  rcases h3 with ⟨_, h3b⟩ | ⟨k, _, hk1, hk2, _, _⟩
  · have := h2 j
    omega
  · have := h2 j
    rw [hk1, Nat.zero_add, hk2]
    exact this

/-- Every position before the selected one has a strictly smaller masked value. -/
theorem selectProcessor_earlier_lt (prev : Nat)
    (caps : List D3D11_VIDEO_PROCESSOR_RATE_CONVERSION_CAPS) (j : Nat)
    (hj : j < selectProcessor prev caps) :
    (maskedCaps caps).getD j 0 < (maskedCaps caps).getD (selectProcessor prev caps) 0 := by
  obtain ⟨_, _, h3⟩ := findBestProcessor_spec caps 0 0 0
  unfold selectProcessor at hj ⊢
  rcases h3 with ⟨h3a, _⟩ | ⟨k, _, hk1, hk2, _, hk4⟩
  · omega
  · rw [hk1, Nat.zero_add] at hj ⊢
    rw [hk2]
    exact hk4 j hj

/-- C9 as stated fails: with two processors reporting `0x7` (blend, bob, adaptive) and
`0x8` (motion compensation only) the search selects index 1, whose masked value has one
set bit, although index 0 has three. So the selected index is not always one with the
highest number of set bits. -/
theorem selectProcessor_not_max_bitCount :
    (selectProcessor 0 [⟨0, 0, 0x7⟩, ⟨0, 0, 0x8⟩] = 1 ∧
      bitCount (0x7 &&& deinterlacingCaps) = 3 ∧ bitCount (0x8 &&& deinterlacingCaps) = 1) ∧
    ¬ ∀ (prev : Nat) (caps : List D3D11_VIDEO_PROCESSOR_RATE_CONVERSION_CAPS) (j : Nat),
        bitCount ((maskedCaps caps).getD j 0) ≤
          bitCount ((maskedCaps caps).getD (selectProcessor prev caps) 0) := by
  refine ⟨by decide, fun h => ?_⟩
  have h1 := h 0 [⟨0, 0, 0x7⟩, ⟨0, 0, 0x8⟩] 0
  revert h1
  decide

/-- C9, amended: the index selected by `InitProcessor` is the first position whose
capability bitmask, intersected with the deinterlacing mask, has the highest numeric
value: it is a position of the list when the list is not empty (and 0 when it is), no
position has a larger masked value, and every earlier position has a strictly smaller
one. -/
theorem selectProcessor_first_max_value (prev : Nat)
    (caps : List D3D11_VIDEO_PROCESSOR_RATE_CONVERSION_CAPS) :
    (caps ≠ [] → selectProcessor prev caps < caps.length) ∧
    (caps = [] → selectProcessor prev caps = 0) ∧
    (∀ j : Nat, (maskedCaps caps).getD j 0 ≤
        (maskedCaps caps).getD (selectProcessor prev caps) 0) ∧
    (∀ j : Nat, j < selectProcessor prev caps →
        (maskedCaps caps).getD j 0 < (maskedCaps caps).getD (selectProcessor prev caps) 0) := by
  refine ⟨selectProcessor_lt prev caps, ?_, selectProcessor_max prev caps,
    selectProcessor_earlier_lt prev caps⟩
  intro h
  subst h
  rfl

/-- Witness for the amended C9: three processors reporting `0x7`, `0x8`, `0x8`; index 1
is selected, it holds the largest masked value and index 0 is strictly below it. -/
theorem selectProcessor_first_max_value_witness :
    selectProcessor 0 [⟨0, 0, 0x7⟩, ⟨0, 0, 0x8⟩, ⟨0, 0, 0x8⟩] <
        ([⟨0, 0, 0x7⟩, ⟨0, 0, 0x8⟩, ⟨0, 0, 0x8⟩] :
          List D3D11_VIDEO_PROCESSOR_RATE_CONVERSION_CAPS).length ∧
    (maskedCaps [⟨0, 0, 0x7⟩, ⟨0, 0, 0x8⟩, ⟨0, 0, 0x8⟩]).getD 0 0 <
      (maskedCaps [⟨0, 0, 0x7⟩, ⟨0, 0, 0x8⟩, ⟨0, 0, 0x8⟩]).getD
        (selectProcessor 0 [⟨0, 0, 0x7⟩, ⟨0, 0, 0x8⟩, ⟨0, 0, 0x8⟩]) 0 :=
  ⟨(selectProcessor_first_max_value 0 [⟨0, 0, 0x7⟩, ⟨0, 0, 0x8⟩, ⟨0, 0, 0x8⟩]).1 (by decide),
   (selectProcessor_first_max_value 0 [⟨0, 0, 0x7⟩, ⟨0, 0, 0x8⟩, ⟨0, 0, 0x8⟩]).2.2.2 0
      (by decide)⟩

/-- C10: the selection is deterministic with a stable first-seen tie-break. Two probes
that see the same sequence of capability bitmasks select the same index, whatever index
was selected before and whatever the other fields of the query results are; and no
position earlier than the selected one has the masked deinterlacing value of the selected
one. -/
theorem selectProcessor_deterministic_stable (prev1 prev2 : Nat)
    (caps1 caps2 : List D3D11_VIDEO_PROCESSOR_RATE_CONVERSION_CAPS)
    (h : caps1.map (fun c => c.ProcessorCaps) = caps2.map (fun c => c.ProcessorCaps)) :
    selectProcessor prev1 caps1 = selectProcessor prev2 caps2 ∧
    ∀ j : Nat, j < selectProcessor prev1 caps1 →
      (maskedCaps caps1).getD j 0 ≠ (maskedCaps caps1).getD (selectProcessor prev1 caps1) 0 := by
  have hm : ∀ caps : List D3D11_VIDEO_PROCESSOR_RATE_CONVERSION_CAPS,
      maskedCaps caps =
        (caps.map (fun c => c.ProcessorCaps)).map (fun m => m &&& deinterlacingCaps) := by
    intro caps
    simp [maskedCaps, List.map_map, Function.comp_def]
  constructor
  · unfold selectProcessor
    rw [findBestProcessor_congr caps1 caps2 (by rw [hm caps1, hm caps2, h])]
  · intro j hj
    have := selectProcessor_earlier_lt prev1 caps1 j hj
    omega

/-- Witness for C10: two probes with the same bitmasks `0x3`, `0x3`, different reference
limits and different previously selected indices select the same index. -/
theorem selectProcessor_deterministic_stable_witness :
    selectProcessor 0 [⟨4, 2, 0x3⟩, ⟨1, 0, 0x3⟩] =
      selectProcessor 7 [⟨0, 0, 0x3⟩, ⟨0, 0, 0x3⟩] :=
  (selectProcessor_deterministic_stable 0 7 [⟨4, 2, 0x3⟩, ⟨1, 0, 0x3⟩]
    [⟨0, 0, 0x3⟩, ⟨0, 0, 0x3⟩] (by decide)).1

/-! ## The reference window of `Render` -/

/-- A read of `views` at an index in `0..7` stays inside the array. -/
theorem viewAt_of_bounds {Buf : Type} (views : ViewSet Buf) (i : Int) (h0 : 0 ≤ i) (h8 : i < 8) :
    ∃ s, viewAt views i = some s := by
  unfold viewAt
  rw [dif_pos ⟨h0, h8⟩]
  exact ⟨_, rfl⟩

/-- One iteration at an index of the window stays inside the arrays, keeps the vector
lengths, counts the slot when its view was created, stores that view in the cell of the
slot (or leaves the cell alone when the slot is null) and touches no other cell. -/
theorem assembleStep_spec {Buf View : Type} (G : Buf → Option View) (views : ViewSet Buf)
    (p f : Nat) (i : Int) (st : WindowState View)
    (hp : st.pastViews.length = p) (hf : st.futureViews.length = f)
    (hlo : 2 - (f : Int) ≤ i) (hhi : i ≤ 2 + (p : Int)) (h0 : 0 ≤ i) (h8 : i < 8) :
    ∃ st1, assembleStep G views (p : Int) i st = some st1 ∧
      st1.pastViews.length = p ∧ st1.futureViews.length = f ∧
      st1.count = st.count + (if (resolveAt G views i).isSome then 1 else 0) ∧
      (st1.cell p i = some (resolveAt G views i) ∨
        (resolveAt G views i = none ∧ st1.cell p i = st.cell p i)) ∧
      ∀ k : Int, k ≠ i → 2 - (f : Int) ≤ k → k ≤ 2 + (p : Int) → st1.cell p k = st.cell p k := by
  obtain ⟨s, hs⟩ := viewAt_of_bounds views i h0 h8
  cases s with
  | none =>
    refine ⟨st, ?_, hp, hf, ?_, Or.inr ⟨?_, rfl⟩, fun _ _ _ _ => rfl⟩
    · simp [assembleStep, hs]
    · simp [resolveAt, hs]
    · simp [resolveAt, hs]
  | some b =>
    have hr : resolveAt G views i = G b := by simp [resolveAt, hs]
    rw [hr]
    rcases lt_trichotomy i 2 with hi | hi | hi
    · -- a future frame
      have hw : vectorWrite st.futureViews (1 - i) (G b) =
          some (st.futureViews.set (1 - i).toNat (G b)) := by
        unfold vectorWrite
        rw [if_pos]
        omega
      have h1 : ¬ i > 2 := by omega
      have h2 : ¬ i = 2 := by omega
      have hlt : (1 - i).toNat < st.futureViews.length := by omega
      cases hg : G b with
      | none =>
        rw [hg] at hw
        refine ⟨{ st with futureViews := st.futureViews.set (1 - i).toNat none },
          ?_, ?_, ?_, ?_, Or.inl ?_, ?_⟩
        · simp [assembleStep, hs, hg, hw, h1, h2]
        · simpa using hp
        · simpa using hf
        · simp
        · simp [WindowState.cell, h1, h2, List.getElem?_set_self hlt]
        · intro k hk hk1 hk2
          simp only [WindowState.cell]
          split_ifs
          · rfl
          · rfl
          · apply List.getElem?_set_ne
            omega
      | some v =>
        rw [hg] at hw
        refine ⟨{ st with futureViews := st.futureViews.set (1 - i).toNat (some v),
                          count := st.count + 1, all_views := st.all_views ++ [v] },
          ?_, ?_, ?_, ?_, Or.inl ?_, ?_⟩
        · simp [assembleStep, hs, hg, hw, h1, h2]
        · simpa using hp
        · simpa using hf
        · simp
        · simp [WindowState.cell, h1, h2, List.getElem?_set_self hlt]
        · intro k hk hk1 hk2
          simp only [WindowState.cell]
          split_ifs
          · rfl
          · rfl
          · apply List.getElem?_set_ne
            omega
    · -- the current frame
      subst hi
      cases hg : G b with
      | none =>
        refine ⟨{ st with pInputSurface := none }, ?_, hp, hf, ?_, Or.inl ?_, ?_⟩
        · simp [assembleStep, hs, hg]
        · simp
        · simp [WindowState.cell]
        · intro k hk hk1 hk2
          have hk3 : ¬ k = 2 := by omega
          simp [WindowState.cell, hk3]
      | some v =>
        refine ⟨{ st with pInputSurface := some v, count := st.count + 1,
                          all_views := st.all_views ++ [v] }, ?_, hp, hf, ?_, Or.inl ?_, ?_⟩
        · simp [assembleStep, hs, hg]
        · simp
        · simp [WindowState.cell]
        · intro k hk hk1 hk2
          have hk3 : ¬ k = 2 := by omega
          simp [WindowState.cell, hk3]
    · -- a past frame
      have hw : vectorWrite st.pastViews (2 + (p : Int) - i) (G b) =
          some (st.pastViews.set (2 + (p : Int) - i).toNat (G b)) := by
        unfold vectorWrite
        rw [if_pos]
        omega
      have hlt : (2 + (p : Int) - i).toNat < st.pastViews.length := by omega
      cases hg : G b with
      | none =>
        rw [hg] at hw
        refine ⟨{ st with pastViews := st.pastViews.set (2 + (p : Int) - i).toNat none },
          ?_, ?_, ?_, ?_, Or.inl ?_, ?_⟩
        · simp [assembleStep, hs, hg, hw, hi]
        · simpa using hp
        · simpa using hf
        · simp
        · simp [WindowState.cell, hi, List.getElem?_set_self hlt]
        · intro k hk hk1 hk2
          simp only [WindowState.cell]
          split_ifs
          · apply List.getElem?_set_ne
            omega
          · rfl
          · rfl
      | some v =>
        rw [hg] at hw
        refine ⟨{ st with pastViews := st.pastViews.set (2 + (p : Int) - i).toNat (some v),
                          count := st.count + 1, all_views := st.all_views ++ [v] },
          ?_, ?_, ?_, ?_, Or.inl ?_, ?_⟩
        · simp [assembleStep, hs, hg, hw, hi]
        · simpa using hp
        · simpa using hf
        · simp
        · simp [WindowState.cell, hi, List.getElem?_set_self hlt]
        · intro k hk hk1 hk2
          simp only [WindowState.cell]
          split_ifs
          · apply List.getElem?_set_ne
            omega
          · rfl
          · rfl

/-- Invariant of the assembly loop over `n` iterations from index `i`: it stays inside
the arrays, `count` grows by at most `n` and by exactly `n` when every visited slot got a
view, every visited cell holds the view of its slot (or is untouched when the slot is
null), and the cells of the other slots are untouched. -/
theorem assembleLoop_spec {Buf View : Type} (G : Buf → Option View) (views : ViewSet Buf)
    (p f : Nat) (hp5 : p ≤ 5) (hf2 : f ≤ 2) :
    ∀ (n : Nat) (i : Int) (st : WindowState View),
      st.pastViews.length = p → st.futureViews.length = f →
      2 - (f : Int) ≤ i → i + (n : Int) ≤ 3 + (p : Int) →
      ∃ st2, assembleLoop G views (p : Int) n i st = some st2 ∧
        st2.pastViews.length = p ∧ st2.futureViews.length = f ∧
        st.count ≤ st2.count ∧ st2.count ≤ st.count + (n : Int) ∧
        (st2.count = st.count + (n : Int) ↔
          ∀ k : Int, i ≤ k → k < i + (n : Int) → (resolveAt G views k).isSome = true) ∧
        (∀ k : Int, i ≤ k → k < i + (n : Int) →
          st2.cell p k = some (resolveAt G views k) ∨
            (resolveAt G views k = none ∧ st2.cell p k = st.cell p k)) ∧
        ∀ k : Int, (k < i ∨ i + (n : Int) ≤ k) → 2 - (f : Int) ≤ k → k ≤ 2 + (p : Int) →
          st2.cell p k = st.cell p k := by
  intro n
  induction n with
  | zero =>
    intro i st hp hf hlo hhi
    refine ⟨st, rfl, hp, hf, le_refl _, by simp, ?_, ?_, fun _ _ _ _ => rfl⟩
    · simp only [Nat.cast_zero, add_zero, true_iff]
      intro k h1 h2
      omega
    · intro k h1 h2
      simp only [Nat.cast_zero, add_zero] at h2
      omega
  | succ n ih =>
    intro i st hp hf hlo hhi
    push_cast at hhi ⊢
    obtain ⟨st1, hst1, hp1, hf1, hc1, hcell1, hframe1⟩ :=
      assembleStep_spec G views p f i st hp hf hlo (by omega) (by omega) (by omega)
    obtain ⟨st2, hst2, hp2, hf2', hlo2, hhi2, hiff2, hcell2, hframe2⟩ :=
      ih (i + 1) st1 hp1 hf1 (by omega) (by omega)
    refine ⟨st2, ?_, hp2, hf2', ?_, ?_, ?_, ?_, ?_⟩
    · simp [assembleLoop, hst1, hst2]
    · rw [hc1] at hlo2
      split_ifs at hlo2 <;> omega
    · rw [hc1] at hhi2
      split_ifs at hhi2 <;> omega
    · rw [hc1] at hiff2 hlo2 hhi2
      constructor
      · intro hcount k hk1 hk2
        by_cases hki : k = i
        · subst hki
          by_contra hnot
          rw [if_neg hnot] at hhi2
          omega
        · have hsome : (resolveAt G views i).isSome = true := by
            by_contra hnot
            rw [if_neg hnot] at hhi2
            omega
          rw [if_pos hsome] at hiff2
          exact hiff2.mp (by omega) k (by omega) (by omega)
      · intro hall
        have hsome : (resolveAt G views i).isSome = true := hall i (le_refl _) (by omega)
        rw [if_pos hsome] at hiff2
        have := hiff2.mpr (fun k hk1 hk2 => hall k (by omega) (by omega))
        omega
    · intro k hk1 hk2
      by_cases hki : k = i
      · subst hki
        rw [hframe2 k (Or.inl (by omega)) hlo (by omega)]
        exact hcell1
      · rcases hcell2 k (by omega) (by omega) with h | ⟨h, h'⟩
        · exact Or.inl h
        · exact Or.inr ⟨h, by rw [h', hframe1 k hki (by omega) (by omega)]⟩
    · intro k hk hk1 hk2
      rw [hframe2 k (by omega) hk1 hk2, hframe1 k (by omega) hk1 hk2]

/-- A counting loop computes the number of elements that pass the test. -/
theorem foldl_count_eq {α : Type} (P : α → Bool) (l : List α) (a : Nat) :
    l.foldl (fun n i => if P i then n + 1 else n) a = a + l.countP P := by
  induction l generalizing a with
  | nil => simp
  | cons x xs ih =>
    simp only [List.foldl_cons, List.countP_cons, ih]
    split_ifs <;> omega

/-- `providedPast` is the number of present entries among `views[3..7]`. -/
theorem providedPast_eq {Buf : Type} (views : ViewSet Buf) :
    providedPast views = ([3, 4, 5, 6, 7] : List (Fin 8)).countP (fun i => (views i).isSome) := by
  unfold providedPast
  rw [foldl_count_eq (fun i => (views i).isSome)]
  omega

/-- `providedFuture` is the number of present entries among `views[0..1]`. -/
theorem providedFuture_eq {Buf : Type} (views : ViewSet Buf) :
    providedFuture views = ([1, 0] : List (Fin 8)).countP (fun i => (views i).isSome) := by
  unfold providedFuture
  rw [foldl_count_eq (fun i => (views i).isSome)]
  omega

/-- At most five past frames are requested, whatever the driver reports. -/
theorem pastFrames_le {Buf : Type} (m_rateCaps : D3D11_VIDEO_PROCESSOR_RATE_CONVERSION_CAPS)
    (views : ViewSet Buf) : pastFrames m_rateCaps views ≤ 5 := by
  have h := List.countP_le_length (fun i : Fin 8 => (views i).isSome) (l := [3, 4, 5, 6, 7])
  have h2 := providedPast_eq views
  unfold pastFrames
  simp only [List.length_cons, List.length_nil] at h
  omega

/-- At most two future frames are requested, whatever the driver reports. -/
theorem futureFrames_le {Buf : Type} (m_rateCaps : D3D11_VIDEO_PROCESSOR_RATE_CONVERSION_CAPS)
    (views : ViewSet Buf) : futureFrames m_rateCaps views ≤ 2 := by
  have h := List.countP_le_length (fun i : Fin 8 => (views i).isSome) (l := [1, 0])
  have h2 := providedFuture_eq views
  unfold futureFrames
  simp only [List.length_cons, List.length_nil] at h
  omega

/-- The assembly of `Render` always runs to its end inside the arrays; the vectors have
the lengths `pastFrames` and `futureFrames`, `count` is `pastFrames + futureFrames + 1`
exactly when every slot of the window got a view, and the cell of every slot of the
window holds the view of that slot. -/
theorem assembleWindow_spec {Buf View : Type} (G : Buf → Option View)
    (m_rateCaps : D3D11_VIDEO_PROCESSOR_RATE_CONVERSION_CAPS) (views : ViewSet Buf) :
    ∃ st, assembleWindow G m_rateCaps views = some st ∧
      st.pastViews.length = pastFrames m_rateCaps views ∧
      st.futureViews.length = futureFrames m_rateCaps views ∧
      0 ≤ st.count ∧
      st.count ≤ (pastFrames m_rateCaps views : Nat) + (futureFrames m_rateCaps views : Nat) + 1 ∧
      (st.count = (pastFrames m_rateCaps views : Nat) + (futureFrames m_rateCaps views : Nat) + 1 ↔
        ∀ k : Int, 2 - (futureFrames m_rateCaps views : Int) ≤ k →
          k ≤ 2 + (pastFrames m_rateCaps views : Int) → (resolveAt G views k).isSome = true) ∧
      ∀ k : Int, 2 - (futureFrames m_rateCaps views : Int) ≤ k →
        k ≤ 2 + (pastFrames m_rateCaps views : Int) →
        st.cell (pastFrames m_rateCaps views : Nat) k = some (resolveAt G views k) := by
  have hp5 := pastFrames_le m_rateCaps views
  have hf2 := futureFrames_le m_rateCaps views
  generalize hp : pastFrames m_rateCaps views = p at *
  generalize hf : futureFrames m_rateCaps views = f at *
  have hn : (2 + (p : Int) + 1 - (2 - (f : Int))).toNat = p + f + 1 := by omega
  obtain ⟨st, hst, h1, h2, h3, h4, h5, h6, _⟩ :=
    assembleLoop_spec G views p f hp5 hf2 (p + f + 1) (2 - (f : Int))
      { pastViews := List.replicate p none, futureViews := List.replicate f none,
        pInputSurface := none, count := 0, all_views := [] }
      (by simp) (by simp) (le_refl _) (by push_cast; omega)
  refine ⟨st, ?_, h1, h2, by simpa using h3, by push_cast at h4; omega, ?_, ?_⟩
  · simp only [assembleWindow, hp, hf, hn, Int.toNat_ofNat]
    exact hst
  · push_cast at h5
    constructor
    · intro hc k hk1 hk2
      exact h5.mp (by simp only [zero_add]; omega) k hk1 (by omega)
    · intro hall
      have := h5.mpr (fun k hk1 hk2 => hall k hk1 (by omega))
      simp only [zero_add] at this
      omega
  · intro k hk1 hk2
    rcases h6 k hk1 (by push_cast; omega) with h | ⟨hnone, h⟩
    · exact h
    · rw [h, hnone]
      simp only [WindowState.cell]
      split_ifs with ha hb
      · rw [List.getElem?_replicate_of_lt (by omega)]
      · rfl
      · rw [List.getElem?_replicate_of_lt (by omega)]

/-- The view of a slot is `v` exactly when the slot holds a buffer whose input view is `v`. -/
theorem resolveAt_eq_some {Buf View : Type} (G : Buf → Option View) (views : ViewSet Buf)
    (k : Int) (v : View) :
    resolveAt G views k = some v ↔
      ∃ b, viewAt views k = some (some b) ∧ G b = some v := by
  unfold resolveAt
  split
  · rename_i b hb
    simp [hb]
  · rename_i hne
    constructor
    · intro h
      cases h
    · rintro ⟨b, hb, _⟩
      exact absurd hb (hne b)

/-- A slot has a view exactly when it holds a buffer for which a view was created. -/
theorem resolveAt_isSome {Buf View : Type} (G : Buf → Option View) (views : ViewSet Buf)
    (k : Int) :
    (resolveAt G views k).isSome = true ↔
      ∃ b v, viewAt views k = some (some b) ∧ G b = some v := by
  rw [Option.isSome_iff_exists]
  constructor
  · rintro ⟨v, hv⟩
    obtain ⟨b, hb, hg⟩ := (resolveAt_eq_some G views k v).mp hv
    exact ⟨b, v, hb, hg⟩
  · rintro ⟨b, v, hb, hg⟩
    exact ⟨v, (resolveAt_eq_some G views k v).mpr ⟨b, hb, hg⟩⟩

/-- A slot of the array has no view exactly when it is null or the view creation failed. -/
theorem resolveAt_not_isSome {Buf View : Type} (G : Buf → Option View) (views : ViewSet Buf)
    (k : Int) (h0 : 0 ≤ k) (h8 : k < 8) :
    ¬ (resolveAt G views k).isSome = true ↔
      (viewAt views k = some none ∨ ∃ b, viewAt views k = some (some b) ∧ G b = none) := by
  obtain ⟨s, hs⟩ := viewAt_of_bounds views k h0 h8
  cases s with
  | none => simp [resolveAt, hs]
  | some b =>
    cases hg : G b with
    | none => simp [resolveAt, hs, hg]
    | some v => simp [resolveAt, hs, hg]

/-- `Render` once the window has been assembled. -/
theorem Render_of_assembleWindow {Buf View : Type} (processor : Bool)
    (m_rateCaps : D3D11_VIDEO_PROCESSOR_RATE_CONVERSION_CAPS)
    (backend : RenderBackend Buf View) (views : ViewSet Buf) (st : WindowState View)
    (hst : assembleWindow backend.GetInputView m_rateCaps views = some st) :
    Render processor m_rateCaps backend views =
      some
        (if processor = false then { result := false, blt := none }
         else if (views 2).isNone = true then { result := false, blt := none }
         else if st.count ≠
            (pastFrames m_rateCaps views : Nat) + (futureFrames m_rateCaps views : Nat) + 1 then
          { result := false, blt := none }
         else if SUCCEEDED backend.CreateVideoProcessorOutputView = true then
          { result := !FAILED (backend.VideoProcessorBlt
                { PastFrames := pastFrames m_rateCaps views
                  FutureFrames := futureFrames m_rateCaps views
                  pInputSurface := st.pInputSurface
                  ppPastSurfaces := st.pastViews
                  ppFutureSurfaces := st.futureViews })
            blt := some
                { PastFrames := pastFrames m_rateCaps views
                  FutureFrames := futureFrames m_rateCaps views
                  pInputSurface := st.pInputSurface
                  ppPastSurfaces := st.pastViews
                  ppFutureSurfaces := st.futureViews } }
         else { result := !FAILED backend.CreateVideoProcessorOutputView, blt := none }) := by
  unfold Render
  rw [hst]
  cases processor <;> simp
  split_ifs <;> simp_all

/-- A stream reaches `VideoProcessorBlt` only with a complete window, and then it carries
the assembled vectors and counts. -/
theorem Render_blt {Buf View : Type} (processor : Bool)
    (m_rateCaps : D3D11_VIDEO_PROCESSOR_RATE_CONVERSION_CAPS)
    (backend : RenderBackend Buf View) (views : ViewSet Buf) (st : WindowState View)
    (hst : assembleWindow backend.GetInputView m_rateCaps views = some st)
    (out : RenderOutcome View) (hout : Render processor m_rateCaps backend views = some out)
    (stream_data : D3D11_VIDEO_PROCESSOR_STREAM View) (hblt : out.blt = some stream_data) :
    st.count = (pastFrames m_rateCaps views : Nat) + (futureFrames m_rateCaps views : Nat) + 1 ∧
    stream_data =
      { PastFrames := pastFrames m_rateCaps views
        FutureFrames := futureFrames m_rateCaps views
        pInputSurface := st.pInputSurface
        ppPastSurfaces := st.pastViews
        ppFutureSurfaces := st.futureViews } := by
  rw [Render_of_assembleWindow processor m_rateCaps backend views st hst] at hout
  simp only [Option.some.injEq] at hout
  subst hout
  split_ifs at hblt with h1 h2 h3 h4
  simp only [Option.some.injEq] at hblt
  exact ⟨not_not.mp h3, hblt.symm⟩

/-- With a complete window every entry of the two vectors and the input surface hold the
view created for their slot. -/
theorem assembleWindow_complete {Buf View : Type} (G : Buf → Option View)
    (m_rateCaps : D3D11_VIDEO_PROCESSOR_RATE_CONVERSION_CAPS) (views : ViewSet Buf)
    (st : WindowState View) (hst : assembleWindow G m_rateCaps views = some st)
    (hcount : st.count =
      (pastFrames m_rateCaps views : Nat) + (futureFrames m_rateCaps views : Nat) + 1) :
    (∀ j : Nat, j < pastFrames m_rateCaps views →
      ∃ b v, viewAt views (2 + (pastFrames m_rateCaps views : Int) - (j : Int)) = some (some b) ∧
        G b = some v ∧ st.pastViews[j]? = some (some v)) ∧
    (∀ j : Nat, j < futureFrames m_rateCaps views →
      ∃ b v, viewAt views (1 - (j : Int)) = some (some b) ∧
        G b = some v ∧ st.futureViews[j]? = some (some v)) ∧
    ∃ b v, viewAt views 2 = some (some b) ∧ G b = some v ∧ st.pInputSurface = some v := by
  obtain ⟨st', hst', _, _, _, _, hiff, hcell⟩ := assembleWindow_spec G m_rateCaps views
  rw [hst] at hst'
  cases hst'
  have hall := hiff.mp hcount
  have hf2 := futureFrames_le m_rateCaps views
  refine ⟨?_, ?_, ?_⟩
  · intro j hj
    have hk1 : 2 - (futureFrames m_rateCaps views : Int) ≤
        2 + (pastFrames m_rateCaps views : Int) - (j : Int) := by omega
    have hk2 : 2 + (pastFrames m_rateCaps views : Int) - (j : Int) ≤
        2 + (pastFrames m_rateCaps views : Int) := by omega
    obtain ⟨b, v, hb, hv⟩ := (resolveAt_isSome G views _).mp (hall _ hk1 hk2)
    refine ⟨b, v, hb, hv, ?_⟩
    have hc := hcell _ hk1 hk2
    rw [(resolveAt_eq_some G views _ v).mpr ⟨b, hb, hv⟩] at hc
    simp only [WindowState.cell] at hc
    rw [if_pos (by omega)] at hc
    have hidx : (2 + (pastFrames m_rateCaps views : Int) -
        (2 + (pastFrames m_rateCaps views : Int) - (j : Int))).toNat = j := by omega
    rw [hidx] at hc
    exact hc
  · intro j hj
    have hk1 : 2 - (futureFrames m_rateCaps views : Int) ≤ 1 - (j : Int) := by omega
    have hk2 : 1 - (j : Int) ≤ 2 + (pastFrames m_rateCaps views : Int) := by omega
    obtain ⟨b, v, hb, hv⟩ := (resolveAt_isSome G views _).mp (hall _ hk1 hk2)
    refine ⟨b, v, hb, hv, ?_⟩
    have hc := hcell _ hk1 hk2
    rw [(resolveAt_eq_some G views _ v).mpr ⟨b, hb, hv⟩] at hc
    simp only [WindowState.cell] at hc
    rw [if_neg (by omega), if_neg (by omega)] at hc
    have hidx : (1 - (1 - (j : Int))).toNat = j := by omega
    rw [hidx] at hc
    exact hc
  · have hk1 : 2 - (futureFrames m_rateCaps views : Int) ≤ 2 := by omega
    have hk2 : (2 : Int) ≤ 2 + (pastFrames m_rateCaps views : Int) := by omega
    obtain ⟨b, v, hb, hv⟩ := (resolveAt_isSome G views _).mp (hall _ hk1 hk2)
    refine ⟨b, v, hb, hv, ?_⟩
    have hc := hcell _ hk1 hk2
    rw [(resolveAt_eq_some G views _ v).mpr ⟨b, hb, hv⟩] at hc
    simpa [WindowState.cell] using hc

/-- `Render` always produces an outcome: the assembly never leaves its arrays. -/
theorem Render_total {Buf View : Type} (processor : Bool)
    (m_rateCaps : D3D11_VIDEO_PROCESSOR_RATE_CONVERSION_CAPS)
    (backend : RenderBackend Buf View) (views : ViewSet Buf) :
    ∃ out, Render processor m_rateCaps backend views = some out := by
  obtain ⟨st, hst, _⟩ := assembleWindow_spec backend.GetInputView m_rateCaps views
  exact ⟨_, Render_of_assembleWindow processor m_rateCaps backend views st hst⟩

/-- C1: whenever the assembly of `Render` succeeds (the count check passes), the past
vector is ordered furthest-past first: the view built from `views[2 + k]` sits at position
`pastFrames - k` for every `1 ≤ k ≤ pastFrames`; and the future vector is ordered
nearest-future first: the view built from `views[2 - k]` sits at position `k - 1` for
every `1 ≤ k ≤ futureFrames`. A stream is handed to `VideoProcessorBlt` only after a
successful assembly and carries exactly these two vectors. -/
theorem Render_window_order {Buf View : Type}
    (m_rateCaps : D3D11_VIDEO_PROCESSOR_RATE_CONVERSION_CAPS)
    (backend : RenderBackend Buf View) (views : ViewSet Buf) :
    ∃ st, assembleWindow backend.GetInputView m_rateCaps views = some st ∧
      (st.count =
          (pastFrames m_rateCaps views : Nat) + (futureFrames m_rateCaps views : Nat) + 1 →
        (∀ k : Nat, 1 ≤ k → k ≤ pastFrames m_rateCaps views →
          ∃ b v, viewAt views (2 + (k : Int)) = some (some b) ∧
            backend.GetInputView b = some v ∧
            st.pastViews[pastFrames m_rateCaps views - k]? = some (some v)) ∧
        (∀ k : Nat, 1 ≤ k → k ≤ futureFrames m_rateCaps views →
          ∃ b v, viewAt views (2 - (k : Int)) = some (some b) ∧
            backend.GetInputView b = some v ∧
            st.futureViews[k - 1]? = some (some v))) ∧
      ∀ processor : Bool, ∃ out, Render processor m_rateCaps backend views = some out ∧
        ∀ stream_data, out.blt = some stream_data →
          st.count =
            (pastFrames m_rateCaps views : Nat) + (futureFrames m_rateCaps views : Nat) + 1 ∧
          stream_data.ppPastSurfaces = st.pastViews ∧
          stream_data.ppFutureSurfaces = st.futureViews := by
  obtain ⟨st, hst, _⟩ := assembleWindow_spec backend.GetInputView m_rateCaps views
  refine ⟨st, hst, ?_, ?_⟩
  · intro hcount
    obtain ⟨hpast, hfut, _⟩ :=
      assembleWindow_complete backend.GetInputView m_rateCaps views st hst hcount
    constructor
    · intro k hk1 hk2
      obtain ⟨b, v, hb, hv, hpos⟩ := hpast (pastFrames m_rateCaps views - k) (by omega)
      have hidx : 2 + (pastFrames m_rateCaps views : Int) -
          ((pastFrames m_rateCaps views - k : Nat) : Int) = 2 + (k : Int) := by omega
      rw [hidx] at hb
      exact ⟨b, v, hb, hv, hpos⟩
    · intro k hk1 hk2
      obtain ⟨b, v, hb, hv, hpos⟩ := hfut (k - 1) (by omega)
      have hidx : 1 - ((k - 1 : Nat) : Int) = 2 - (k : Int) := by omega
      rw [hidx] at hb
      exact ⟨b, v, hb, hv, hpos⟩
  · intro processor
    obtain ⟨out, hout⟩ := Render_total processor m_rateCaps backend views
    refine ⟨out, hout, ?_⟩
    intro stream_data hblt
    obtain ⟨hc, hsd⟩ := Render_blt processor m_rateCaps backend views st hst out hout
      stream_data hblt
    subst hsd
    exact ⟨hc, rfl, rfl⟩

/-- Witness for C1: all slots present, limits 2 past and 1 future. The assembly succeeds;
the view of `views[3]` (T-1) is last in the past vector, the view of `views[4]` (T-2) is
first, and the view of `views[1]` (T+1) is first in the future vector. -/
theorem Render_window_order_witness :
    ∃ st, assembleWindow okBackend.GetInputView ⟨2, 1, 0⟩ fullViews = some st ∧
      (∃ b v, viewAt fullViews (2 + ((1 : Nat) : Int)) = some (some b) ∧
        okBackend.GetInputView b = some v ∧ st.pastViews[2 - 1]? = some (some v)) ∧
      (∃ b v, viewAt fullViews (2 + ((2 : Nat) : Int)) = some (some b) ∧
        okBackend.GetInputView b = some v ∧ st.pastViews[2 - 2]? = some (some v)) ∧
      (∃ b v, viewAt fullViews (2 - ((1 : Nat) : Int)) = some (some b) ∧
        okBackend.GetInputView b = some v ∧ st.futureViews[1 - 1]? = some (some v)) := by
  obtain ⟨st, hst, hord, _⟩ := Render_window_order ⟨2, 1, 0⟩ okBackend fullViews
  have heval : assembleWindow okBackend.GetInputView ⟨2, 1, 0⟩ fullViews =
      some ⟨[some 104, some 103], [some 101], some 102, 4, [101, 102, 103, 104]⟩ := by decide
  have hst2 := hst
  rw [heval] at hst2
  cases hst2
  obtain ⟨hpast, hfut⟩ := hord (by decide)
  exact ⟨_, hst, hpast 1 (by decide) (by decide), hpast 2 (by decide) (by decide),
    hfut 1 (by decide) (by decide)⟩

/-- C2: with `p` the number of present entries among `views[3..7]`, `f` the number among
`views[0..1]` and `P`, `F` the limits of `m_rateCaps`, the locals `pastFrames` and
`futureFrames` are `min p P` and `min f F`; the assembly creates vectors of exactly these
lengths and, when it succeeds, every entry of both is a created (non-null) view; and every
stream handed to `VideoProcessorBlt` carries these counts with vectors of these lengths
without a null entry. -/
theorem Render_window_counts {Buf View : Type}
    (m_rateCaps : D3D11_VIDEO_PROCESSOR_RATE_CONVERSION_CAPS)
    (backend : RenderBackend Buf View) (views : ViewSet Buf) :
    pastFrames m_rateCaps views =
      min (([3, 4, 5, 6, 7] : List (Fin 8)).countP fun i => (views i).isSome)
        m_rateCaps.PastFrames ∧
    futureFrames m_rateCaps views =
      min (([1, 0] : List (Fin 8)).countP fun i => (views i).isSome)
        m_rateCaps.FutureFrames ∧
    ∃ st, assembleWindow backend.GetInputView m_rateCaps views = some st ∧
      st.pastViews.length = pastFrames m_rateCaps views ∧
      st.futureViews.length = futureFrames m_rateCaps views ∧
      (st.count =
          (pastFrames m_rateCaps views : Nat) + (futureFrames m_rateCaps views : Nat) + 1 →
        (∀ x, x ∈ st.pastViews → x.isSome = true) ∧
        (∀ x, x ∈ st.futureViews → x.isSome = true)) ∧
      ∀ processor : Bool, ∃ out, Render processor m_rateCaps backend views = some out ∧
        ∀ stream_data, out.blt = some stream_data →
          stream_data.PastFrames = pastFrames m_rateCaps views ∧
          stream_data.FutureFrames = futureFrames m_rateCaps views ∧
          stream_data.ppPastSurfaces.length = pastFrames m_rateCaps views ∧
          stream_data.ppFutureSurfaces.length = futureFrames m_rateCaps views ∧
          (∀ x, x ∈ stream_data.ppPastSurfaces → x.isSome = true) ∧
          (∀ x, x ∈ stream_data.ppFutureSurfaces → x.isSome = true) := by
  obtain ⟨st, hst, hlp, hlf, _⟩ := assembleWindow_spec backend.GetInputView m_rateCaps views
  have hnonnull : st.count =
      (pastFrames m_rateCaps views : Nat) + (futureFrames m_rateCaps views : Nat) + 1 →
      (∀ x, x ∈ st.pastViews → x.isSome = true) ∧
      (∀ x, x ∈ st.futureViews → x.isSome = true) := by
    intro hcount
    obtain ⟨hpast, hfut, _⟩ :=
      assembleWindow_complete backend.GetInputView m_rateCaps views st hst hcount
    constructor
    · intro x hx
      obtain ⟨j, hj⟩ := List.mem_iff_getElem?.mp hx
      have hjlt : j < pastFrames m_rateCaps views := by
        rw [← hlp]
        exact (List.getElem?_eq_some.mp hj).1
      obtain ⟨b, v, _, _, hpos⟩ := hpast j hjlt
      rw [hj] at hpos
      cases hpos
      rfl
    · intro x hx
      obtain ⟨j, hj⟩ := List.mem_iff_getElem?.mp hx
      have hjlt : j < futureFrames m_rateCaps views := by
        rw [← hlf]
        exact (List.getElem?_eq_some.mp hj).1
      obtain ⟨b, v, _, _, hpos⟩ := hfut j hjlt
      rw [hj] at hpos
      cases hpos
      rfl
  refine ⟨?_, ?_, st, hst, hlp, hlf, hnonnull, ?_⟩
  · unfold pastFrames
    rw [providedPast_eq]
  · unfold futureFrames
    rw [providedFuture_eq]
  · intro processor
    obtain ⟨out, hout⟩ := Render_total processor m_rateCaps backend views
    refine ⟨out, hout, ?_⟩
    intro stream_data hblt
    obtain ⟨hc, hsd⟩ := Render_blt processor m_rateCaps backend views st hst out hout
      stream_data hblt
    subst hsd
    exact ⟨rfl, rfl, hlp, hlf, (hnonnull hc).1, (hnonnull hc).2⟩

/-- Witness for C2: all eight slots present (`p = 5`, `f = 2`) and limits `P = 2`,
`F = 1`: the stream handed to `VideoProcessorBlt` has 2 past and 1 future view, none of
them null. -/
theorem Render_window_counts_witness :
    pastFrames ⟨2, 1, 0⟩ fullViews = min 5 2 ∧ futureFrames ⟨2, 1, 0⟩ fullViews = min 2 1 ∧
    ∃ out stream_data, Render true ⟨2, 1, 0⟩ okBackend fullViews = some out ∧
      out.blt = some stream_data ∧
      stream_data.PastFrames = 2 ∧ stream_data.FutureFrames = 1 ∧
      stream_data.ppPastSurfaces.length = 2 ∧ stream_data.ppFutureSurfaces.length = 1 ∧
      (∀ x, x ∈ stream_data.ppPastSurfaces → x.isSome = true) ∧
      (∀ x, x ∈ stream_data.ppFutureSurfaces → x.isSome = true) := by
  obtain ⟨hp, hf, st, _, _, _, _, hrender⟩ := Render_window_counts ⟨2, 1, 0⟩ okBackend fullViews
  obtain ⟨out, hout, hblt⟩ := hrender true
  have heval : Render true ⟨2, 1, 0⟩ okBackend fullViews =
      some ⟨true, some ⟨2, 1, some 102, [some 104, some 103], [some 101]⟩⟩ := by decide
  have hout2 := hout
  rw [heval] at hout2
  cases hout2
  have h := hblt _ rfl
  exact ⟨hp, hf, _, _, hout, rfl, h⟩

/-- C3 as stated fails: with all slots present, limits 2 past and 1 future, and a
backend whose `CreateVideoProcessorOutputView` fails, the four references are all
resolved (`count = 1 + 2 + 1`), yet `Render` returns `false` and issues no
`VideoProcessorBlt`. So "returns false without an execute call" does not happen only when
the count differs. -/
theorem Render_abort_not_only_incomplete_window :
    (Render true ⟨2, 1, 0⟩ noOutputViewBackend fullViews = some ⟨false, none⟩ ∧
      (assembleWindow noOutputViewBackend.GetInputView ⟨2, 1, 0⟩ fullViews).map
          (fun st => st.count) = some 4 ∧
      pastFrames ⟨2, 1, 0⟩ fullViews = 2 ∧ futureFrames ⟨2, 1, 0⟩ fullViews = 1) ∧
    ¬ ∀ (m_rateCaps : D3D11_VIDEO_PROCESSOR_RATE_CONVERSION_CAPS)
        (backend : RenderBackend Nat Nat) (views : ViewSet Nat)
        (st : WindowState Nat) (out : RenderOutcome Nat),
        (views 2).isSome = true →
        assembleWindow backend.GetInputView m_rateCaps views = some st →
        Render true m_rateCaps backend views = some out →
        ((out.result = false ∧ out.blt = none) ↔
          st.count ≠
            1 + (pastFrames m_rateCaps views : Nat) + (futureFrames m_rateCaps views : Nat)) := by
  refine ⟨by decide, fun h => ?_⟩
  have h1 := h ⟨2, 1, 0⟩ noOutputViewBackend fullViews
    ⟨[some 104, some 103], [some 101], some 102, 4, [101, 102, 103, 104]⟩ ⟨false, none⟩
    (by decide) (by decide) (by decide)
  revert h1
  decide

/-- C3, amended: with an available processor and a present current frame, an
incomplete count always makes `Render` return `false` without a `VideoProcessorBlt`; when
the output view can be created this is the only way: `Render` returns `false` without a
`VideoProcessorBlt` exactly when the count of resolved references differs from
`1 + pastFrames + futureFrames`. The count differs exactly when some slot of
`views[2 - futureFrames .. 2 + pastFrames]` is absent or has no input view. -/
theorem Render_abort_iff_incomplete_window {Buf View : Type}
    (m_rateCaps : D3D11_VIDEO_PROCESSOR_RATE_CONVERSION_CAPS)
    (backend : RenderBackend Buf View) (views : ViewSet Buf)
    (hcur : (views 2).isSome = true) :
    ∃ st out, assembleWindow backend.GetInputView m_rateCaps views = some st ∧
      Render true m_rateCaps backend views = some out ∧
      (st.count ≠
          1 + (pastFrames m_rateCaps views : Nat) + (futureFrames m_rateCaps views : Nat) →
        out.result = false ∧ out.blt = none) ∧
      (SUCCEEDED backend.CreateVideoProcessorOutputView = true →
        ((out.result = false ∧ out.blt = none) ↔
          st.count ≠
            1 + (pastFrames m_rateCaps views : Nat) + (futureFrames m_rateCaps views : Nat))) ∧
      (st.count ≠
          1 + (pastFrames m_rateCaps views : Nat) + (futureFrames m_rateCaps views : Nat) ↔
        ∃ i : Int, 2 - (futureFrames m_rateCaps views : Int) ≤ i ∧
          i ≤ 2 + (pastFrames m_rateCaps views : Int) ∧
          (viewAt views i = some none ∨
            ∃ b, viewAt views i = some (some b) ∧ backend.GetInputView b = none)) := by
  obtain ⟨st, hst, _, _, _, _, hiff, _⟩ :=
    assembleWindow_spec backend.GetInputView m_rateCaps views
  have hp5 := pastFrames_le m_rateCaps views
  have hf2 := futureFrames_le m_rateCaps views
  have hR := Render_of_assembleWindow true m_rateCaps backend views st hst
  have hnone : ¬ (views 2).isNone = true := by
    cases hv : views 2 with
    | none => simp [hv] at hcur
    | some b => simp
  have hN : (1 : Int) + (pastFrames m_rateCaps views : Nat) + (futureFrames m_rateCaps views : Nat) =
      (pastFrames m_rateCaps views : Nat) + (futureFrames m_rateCaps views : Nat) + 1 := by ring
  rw [hN]
  rw [if_neg (by simp), if_neg hnone] at hR
  refine ⟨st, _, hst, hR, ?_, ?_, ?_⟩
  · intro hne
    rw [if_pos hne]
    exact ⟨rfl, rfl⟩
  · intro hok
    constructor
    · intro hout
      by_cases hcount : st.count ≠
          (pastFrames m_rateCaps views : Nat) + (futureFrames m_rateCaps views : Nat) + 1
      · exact hcount
      · rw [if_neg hcount, if_pos hok] at hout
        exact absurd hout.2 (by simp)
    · intro hne
      rw [if_pos hne]
      exact ⟨rfl, rfl⟩
  · constructor
    · intro hne
      by_contra hno
      apply hne
      apply hiff.mpr
      intro k hk1 hk2
      by_contra hk
      exact hno ⟨k, hk1, hk2,
        (resolveAt_not_isSome backend.GetInputView views k (by omega) (by omega)).mp hk⟩
    · rintro ⟨i, hi1, hi2, hi⟩ hcount
      exact (resolveAt_not_isSome backend.GetInputView views i (by omega) (by omega)).mpr hi
        (hiff.mp hcount i hi1 hi2)

/-- Witness for the amended C3: `views[3]` absent while `views[4]` is present, past limit
2: the window is incomplete, `Render` returns `false` and issues no execute call. -/
theorem Render_abort_iff_incomplete_window_witness :
    ∃ st out, assembleWindow okBackend.GetInputView ⟨2, 1, 0⟩ gapViews = some st ∧
      Render true ⟨2, 1, 0⟩ okBackend gapViews = some out ∧
      st.count ≠ 1 + (pastFrames ⟨2, 1, 0⟩ gapViews : Nat) + (futureFrames ⟨2, 1, 0⟩ gapViews : Nat) ∧
      out.result = false ∧ out.blt = none ∧ viewAt gapViews 3 = some none := by
  obtain ⟨st, out, hst, hout, habort, _, hslot⟩ :=
    Render_abort_iff_incomplete_window ⟨2, 1, 0⟩ okBackend gapViews (by decide)
  have hne : st.count ≠
      1 + (pastFrames ⟨2, 1, 0⟩ gapViews : Nat) + (futureFrames ⟨2, 1, 0⟩ gapViews : Nat) :=
    hslot.mpr ⟨3, by decide, by decide, Or.inl (by decide)⟩
  exact ⟨st, out, hst, hout, hne, (habort hne).1, (habort hne).2, by decide⟩

/-! ## Super-resolution suitability -/

/-- C14: `IsSuperResolutionSuitable` returns `true` exactly when the picture is at most
1920 wide, the output is strictly wider than the picture, the interlaced flag is clear,
the primaries are not BT.2020 and the transfer is neither PQ nor HLG. So a 1920-wide SDR
progressive picture with a wider output is eligible, and a 2000-wide picture, an
interlaced picture and a BT.2020, PQ or HLG picture are eligible for no output width. -/
theorem IsSuperResolutionSuitable_iff (DVP_FLAG_INTERLACED outputWidth : Nat)
    (picture : VideoPicture) :
    (IsSuperResolutionSuitable DVP_FLAG_INTERLACED outputWidth picture = true ↔
      picture.iWidth ≤ 1920 ∧ picture.iWidth < outputWidth ∧
      picture.iFlags &&& DVP_FLAG_INTERLACED = 0 ∧
      picture.color_primaries ≠ AVCOL_PRI_BT2020 ∧
      picture.color_transfer ≠ AVCOL_TRC_SMPTE2084 ∧
      picture.color_transfer ≠ AVCOL_TRC_ARIB_STD_B67) ∧
    (picture.iWidth = 1920 → 1920 < outputWidth →
      picture.iFlags &&& DVP_FLAG_INTERLACED = 0 →
      picture.color_primaries ≠ AVCOL_PRI_BT2020 →
      picture.color_transfer ≠ AVCOL_TRC_SMPTE2084 →
      picture.color_transfer ≠ AVCOL_TRC_ARIB_STD_B67 →
      IsSuperResolutionSuitable DVP_FLAG_INTERLACED outputWidth picture = true) ∧
    (picture.iWidth = 2000 ∨ picture.iFlags &&& DVP_FLAG_INTERLACED ≠ 0 ∨
        picture.color_primaries = AVCOL_PRI_BT2020 ∨
        picture.color_transfer = AVCOL_TRC_SMPTE2084 ∨
        picture.color_transfer = AVCOL_TRC_ARIB_STD_B67 →
      ∀ w : Nat, IsSuperResolutionSuitable DVP_FLAG_INTERLACED w picture = false) := by
  have key : ∀ w : Nat, IsSuperResolutionSuitable DVP_FLAG_INTERLACED w picture = true ↔
      picture.iWidth ≤ 1920 ∧ picture.iWidth < w ∧
      picture.iFlags &&& DVP_FLAG_INTERLACED = 0 ∧
      picture.color_primaries ≠ AVCOL_PRI_BT2020 ∧
      picture.color_transfer ≠ AVCOL_TRC_SMPTE2084 ∧
      picture.color_transfer ≠ AVCOL_TRC_ARIB_STD_B67 := by
    intro w
    unfold IsSuperResolutionSuitable
    split_ifs with h1 h2 h3 h4
    · simp; omega
    · simp; omega
    · simp; intro _ _ h; exact absurd h h3
    · simp only [Bool.false_eq_true, false_iff, not_and]
      intro _ _ _ ha hb hc
      rcases h4 with h | h | h
      · exact ha h
      · exact hb h
      · exact hc h
    · simp only [true_iff]
      push_neg at h1 h2 h3 h4
      exact ⟨by omega, by omega, h3, h4.1, h4.2.1, h4.2.2⟩
  refine ⟨key outputWidth, ?_, ?_⟩
  · intro h0 h1 h2 h3 h4 h5
    exact (key outputWidth).mpr ⟨by omega, by omega, h2, h3, h4, h5⟩
  · intro h w
    cases hres : IsSuperResolutionSuitable DVP_FLAG_INTERLACED w picture with
    | false => rfl
    | true =>
      obtain ⟨h1, _, h3, h4, h5, h6⟩ := (key w).mp hres
      rcases h with h | h | h | h | h
      · omega
      · exact absurd h3 h
      · exact absurd h h4
      · exact absurd h h5
      · exact absurd h h6

/-- Witness for C14: a 1920-wide progressive BT.709 picture is eligible on a 3840-wide
output, and a 2000-wide one is not. -/
theorem IsSuperResolutionSuitable_iff_witness :
    IsSuperResolutionSuitable 0x8 3840 ⟨1920, 0, AVCOL_PRI_BT709, AVCOL_TRC_BT709⟩ = true ∧
    IsSuperResolutionSuitable 0x8 3840 ⟨2000, 0, AVCOL_PRI_BT709, AVCOL_TRC_BT709⟩ = false :=
  ⟨(IsSuperResolutionSuitable_iff 0x8 3840 ⟨1920, 0, AVCOL_PRI_BT709, AVCOL_TRC_BT709⟩).2.1
      rfl (by decide) (by decide) (by decide) (by decide) (by decide),
   (IsSuperResolutionSuitable_iff 0x8 3840 ⟨2000, 0, AVCOL_PRI_BT709, AVCOL_TRC_BT709⟩).2.2
      (Or.inl rfl) 3840⟩

/-! ## The probe -/

namespace CProcessorHD

/-- The value returned by `InitProcessor` and the members it does not recompute. -/
theorem InitProcessor_frame (backend : Backend) (s : CProcessorHD) :
    (InitProcessor backend s).1 =
      (!FAILED backend.videoContext && !FAILED backend.videoDevice &&
        !FAILED (backend.CreateVideoProcessorEnumerator s.m_width s.m_height) &&
        !FAILED backend.GetVideoProcessorCaps.1) ∧
    (InitProcessor backend s).2.m_pVideoContext = !FAILED backend.videoContext ∧
    (InitProcessor backend s).2.m_pVideoDevice =
      (!FAILED backend.videoContext && !FAILED backend.videoDevice) ∧
    (InitProcessor backend s).2.m_pEnumerator =
      (!FAILED backend.videoContext && !FAILED backend.videoDevice &&
        !FAILED (backend.CreateVideoProcessorEnumerator s.m_width s.m_height)) ∧
    (InitProcessor backend s).2.m_pVideoProcessor = s.m_pVideoProcessor ∧
    (InitProcessor backend s).2.m_superResolutionEnabled = s.m_superResolutionEnabled ∧
    (InitProcessor backend s).2.m_forced8bit = s.m_forced8bit ∧
    (InitProcessor backend s).2.trace = s.trace ∧
    (InitProcessor backend s).2.m_width = s.m_width ∧
    (InitProcessor backend s).2.m_height = s.m_height := by
  unfold InitProcessor
  simp only
  split_ifs <;> simp_all

/-- The probe inside `Open` and `ReInit`: when it fails, the operation returns `false`
with the members the probe left. -/
theorem Open_of_InitProcessor_false (backend : Backend) (s : CProcessorHD) (width height : Nat)
    (h : (InitProcessor backend (setSize (Close s) width height)).1 = false) :
    Open backend s width height =
      (false, (InitProcessor backend (setSize (Close s) width height)).2) := by
  simp [Open, h]

/-- See `Open_of_InitProcessor_false`. -/
theorem ReInit_of_InitProcessor_false (backend : Backend) (s : CProcessorHD)
    (h : (InitProcessor backend (Close s)).1 = false) :
    ReInit backend s = (false, (InitProcessor backend (Close s)).2) := by
  simp [ReInit, h]

/-- C11 as stated fails: every rate-conversion capability query of this environment
fails, for both candidate processors, and the probe still returns `true`. -/
theorem InitProcessor_rate_query_failure_not_fatal :
    ((InitProcessor rateQueryFailsBackend closedSession).1 = true ∧
      rateQueryFailsBackend.GetVideoProcessorCaps.2.RateConversionCapsCount = 2 ∧
      FAILED (rateQueryFailsBackend.GetVideoProcessorRateConversionCaps 0).1 = true ∧
      FAILED (rateQueryFailsBackend.GetVideoProcessorRateConversionCaps 1).1 = true) ∧
    ¬ ∀ (backend : Backend) (s : CProcessorHD),
        (FAILED backend.videoContext = true ∨ FAILED backend.videoDevice = true ∨
          FAILED (backend.CreateVideoProcessorEnumerator s.m_width s.m_height) = true ∨
          FAILED backend.GetVideoProcessorCaps.1 = true ∨
          ∃ i : Nat, i < backend.GetVideoProcessorCaps.2.RateConversionCapsCount ∧
            FAILED (backend.GetVideoProcessorRateConversionCaps i).1 = true) →
        (InitProcessor backend s).1 = false := by
  refine ⟨by decide, fun h => ?_⟩
  have h1 := h rateQueryFailsBackend closedSession
    (Or.inr (Or.inr (Or.inr (Or.inr ⟨0, by decide, by decide⟩))))
  revert h1
  decide

/-- C11, amended: `InitProcessor` returns `false` exactly when the video context or the
video device is unavailable, the enumerator cannot be created, or the processor
capability query `GetVideoProcessorCaps` fails; each of these also makes `Open` and
`ReInit` return `false`. The per-processor rate-conversion queries are only logged: the
returned value does not depend on them. -/
theorem InitProcessor_fails_iff (backend : Backend) (s : CProcessorHD) :
    ((InitProcessor backend s).1 = false ↔
      FAILED backend.videoContext = true ∨ FAILED backend.videoDevice = true ∨
      FAILED (backend.CreateVideoProcessorEnumerator s.m_width s.m_height) = true ∨
      FAILED backend.GetVideoProcessorCaps.1 = true) ∧
    (∀ width height : Nat,
      FAILED backend.videoContext = true ∨ FAILED backend.videoDevice = true ∨
        FAILED (backend.CreateVideoProcessorEnumerator width height) = true ∨
        FAILED backend.GetVideoProcessorCaps.1 = true →
      (Open backend s width height).1 = false) ∧
    ((InitProcessor backend s).1 = false → (ReInit backend s).1 = false) ∧
    (∀ rateQuery : Nat → Int × D3D11_VIDEO_PROCESSOR_RATE_CONVERSION_CAPS,
      (InitProcessor { backend with GetVideoProcessorRateConversionCaps := rateQuery } s).1 =
        (InitProcessor backend s).1) := by
  have hiff : ∀ (b : Backend) (t : CProcessorHD), (InitProcessor b t).1 = false ↔
      FAILED b.videoContext = true ∨ FAILED b.videoDevice = true ∨
      FAILED (b.CreateVideoProcessorEnumerator t.m_width t.m_height) = true ∨
      FAILED b.GetVideoProcessorCaps.1 = true := by
    intro b t
    rw [(InitProcessor_frame b t).1]
    cases FAILED b.videoContext <;> cases FAILED b.videoDevice <;>
      cases FAILED (b.CreateVideoProcessorEnumerator t.m_width t.m_height) <;>
      cases FAILED b.GetVideoProcessorCaps.1 <;> simp
  refine ⟨hiff backend s, ?_, ?_, ?_⟩
  · intro width height h
    have hfail : (InitProcessor backend
        (setSize (Close s) width height)).1 = false :=
      (hiff backend _).mpr h
    rw [Open_of_InitProcessor_false backend s width height hfail]
  · intro h
    have hfail : (InitProcessor backend (Close s)).1 = false := by
      rw [hiff] at h ⊢
      exact h
    rw [ReInit_of_InitProcessor_false backend s hfail]
  · intro rateQuery
    rw [(InitProcessor_frame backend s).1, (InitProcessor_frame _ s).1]

/-- Witness for the amended C11: without a video device the probe and `Open` fail. -/
theorem InitProcessor_fails_iff_witness :
    (InitProcessor noDeviceBackend closedSession).1 = false ∧
    (Open noDeviceBackend closedSession 1920 1080).1 = false :=
  ⟨(InitProcessor_fails_iff noDeviceBackend closedSession).1.mpr (Or.inr (Or.inl (by decide))),
   (InitProcessor_fails_iff noDeviceBackend closedSession).2.1 1920 1080
      (Or.inr (Or.inl (by decide)))⟩

/-- C12 as stated fails: when the processor capability query fails, `InitProcessor`
returns `false` while the video context, the video device and the enumerator acquired
during that probe are all still held; `Open` returns `false` with the same handles. -/
theorem InitProcessor_failure_keeps_handles :
    ((InitProcessor noCapsBackend closedSession).1 = false ∧
      (InitProcessor noCapsBackend closedSession).2.m_pVideoContext = true ∧
      (InitProcessor noCapsBackend closedSession).2.m_pVideoDevice = true ∧
      (InitProcessor noCapsBackend closedSession).2.m_pEnumerator = true ∧
      (Open noCapsBackend closedSession 1920 1080).1 = false ∧
      (Open noCapsBackend closedSession 1920 1080).2.m_pEnumerator = true) ∧
    ¬ ∀ (backend : Backend) (s : CProcessorHD), (InitProcessor backend s).1 = false →
        (InitProcessor backend s).2.m_pVideoContext = false ∧
        (InitProcessor backend s).2.m_pVideoDevice = false ∧
        (InitProcessor backend s).2.m_pEnumerator = false := by
  refine ⟨by decide, fun h => ?_⟩
  have h1 := h noCapsBackend closedSession (by decide)
  revert h1
  decide

/-- C12, amended: a failed probe keeps what it acquired before the failing step. When
`InitProcessor` returns `false`, the video context is held exactly when it was acquired,
the video device exactly when context and device were acquired, and the enumerator
exactly when all three steps succeeded (the failure is then the capability query); the
handles held before the probe do not matter. A failed probe inside `Open` or `ReInit`
leaves these members as they are, with no processor. -/
theorem InitProcessor_failure_handles (backend : Backend) (s : CProcessorHD)
    (hfail : (InitProcessor backend s).1 = false) :
    ((InitProcessor backend s).2.m_pVideoContext = true ↔ FAILED backend.videoContext = false) ∧
    ((InitProcessor backend s).2.m_pVideoDevice = true ↔
      FAILED backend.videoContext = false ∧ FAILED backend.videoDevice = false) ∧
    ((InitProcessor backend s).2.m_pEnumerator = true ↔
      FAILED backend.videoContext = false ∧ FAILED backend.videoDevice = false ∧
      FAILED (backend.CreateVideoProcessorEnumerator s.m_width s.m_height) = false ∧
      FAILED backend.GetVideoProcessorCaps.1 = true) ∧
    (FAILED backend.videoContext = true →
      (InitProcessor backend s).2.m_pVideoContext = false ∧
      (InitProcessor backend s).2.m_pVideoDevice = false ∧
      (InitProcessor backend s).2.m_pEnumerator = false) ∧
    (∀ width height : Nat,
      (InitProcessor backend (setSize (Close s) width height)).1 = false →
      Open backend s width height =
        (false, (InitProcessor backend (setSize (Close s) width height)).2) ∧
      (Open backend s width height).2.m_pVideoProcessor = false) ∧
    ((InitProcessor backend (Close s)).1 = false →
      ReInit backend s = (false, (InitProcessor backend (Close s)).2) ∧
      (ReInit backend s).2.m_pVideoProcessor = false) := by
  obtain ⟨h1, h2, h3, h4, _⟩ := InitProcessor_frame backend s
  rw [h1] at hfail
  rw [h2, h3, h4]
  refine ⟨?_, ?_, ?_, ?_, ?_, ?_⟩
  · cases FAILED backend.videoContext <;> simp
  · cases FAILED backend.videoContext <;> cases FAILED backend.videoDevice <;> simp
  · revert hfail
    cases FAILED backend.videoContext <;> cases FAILED backend.videoDevice <;>
      cases FAILED (backend.CreateVideoProcessorEnumerator s.m_width s.m_height) <;>
      cases FAILED backend.GetVideoProcessorCaps.1 <;> simp
  · intro h
    simp [h]
  · intro width height h
    rw [Open_of_InitProcessor_false backend s width height h]
    exact ⟨rfl, by rw [(InitProcessor_frame backend _).2.2.2.2.1]; rfl⟩
  · intro h
    rw [ReInit_of_InitProcessor_false backend s h]
    exact ⟨rfl, by rw [(InitProcessor_frame backend _).2.2.2.2.1]; rfl⟩

/-- Witness for the amended C12: without a video device the probe fails and the video
context it acquired is still held. -/
theorem InitProcessor_failure_handles_witness :
    (InitProcessor noDeviceBackend closedSession).1 = false ∧
    (InitProcessor noDeviceBackend closedSession).2.m_pVideoContext = true :=
  ⟨by decide,
   (InitProcessor_failure_handles noDeviceBackend closedSession (by decide)).1.mpr (by decide)⟩

end CProcessorHD

/-! ## Super-resolution negotiation -/

namespace CProcessorHD

/-- A sequence that stops at the first failing write issues the writes before it and that
write, and nothing after it. -/
theorem writesUntilFailure_append (backend : Backend) (pre post : List ExtensionCall)
    (w : ExtensionCall)
    (hpre : ∀ x, x ∈ pre → FAILED (backend.SetExtension x) = false)
    (hw : FAILED (backend.SetExtension w) = true) :
    writesUntilFailure backend (pre ++ w :: post) = pre ++ [w] := by
  induction pre with
  | nil => simp [writesUntilFailure, hw]
  | cons x xs ih =>
    have hx : FAILED (backend.SetExtension x) = false := hpre x (List.mem_cons_self _ _)
    have ih2 := ih (fun y hy => hpre y (List.mem_cons_of_mem _ hy))
    show writesUntilFailure backend (x :: (xs ++ w :: post)) = x :: (xs ++ [w])
    simp only [writesUntilFailure, hx, Bool.false_eq_true, if_false, ih2]

/-- The trace and the flag after `EnableIntelVideoSuperResolution`. -/
theorem EnableIntelVideoSuperResolution_spec (backend : Backend) (s : CProcessorHD) :
    (EnableIntelVideoSuperResolution backend s).trace =
      s.trace ++ (writesUntilFailure backend intelWrites).map BackendCall.extension ∧
    (EnableIntelVideoSuperResolution backend s).m_superResolutionEnabled =
      (s.m_superResolutionEnabled ||
        (intelWrites.all fun w => !FAILED (backend.SetExtension w))) ∧
    (EnableIntelVideoSuperResolution backend s).m_pVideoContext = s.m_pVideoContext ∧
    (EnableIntelVideoSuperResolution backend s).m_pVideoProcessor = s.m_pVideoProcessor := by
  unfold EnableIntelVideoSuperResolution intelWrites
  simp only [writesUntilFailure]
  split_ifs <;> simp_all

/-- The trace and the flag after `EnableNvidiaRTXVideoSuperResolution`. -/
theorem EnableNvidiaRTXVideoSuperResolution_spec (backend : Backend) (s : CProcessorHD) :
    (EnableNvidiaRTXVideoSuperResolution backend s).trace =
      s.trace ++ (writesUntilFailure backend nvidiaWrites).map BackendCall.extension ∧
    (EnableNvidiaRTXVideoSuperResolution backend s).m_superResolutionEnabled =
      (s.m_superResolutionEnabled ||
        (nvidiaWrites.all fun w => !FAILED (backend.SetExtension w))) ∧
    (EnableNvidiaRTXVideoSuperResolution backend s).m_pVideoContext = s.m_pVideoContext ∧
    (EnableNvidiaRTXVideoSuperResolution backend s).m_pVideoProcessor = s.m_pVideoProcessor := by
  unfold EnableNvidiaRTXVideoSuperResolution nvidiaWrites
  simp only [writesUntilFailure]
  split_ifs <;> simp_all

/-- C16: starting from a cleared flag, the Intel path issues the writes version, mode,
scaling method in that order and the NVIDIA path its single write, each sequence stopping
at the first failure: the writes issued are those up to and including the first failing
one, the flag ends `true` exactly when every write of the sequence succeeded, and after a
failing write no later write is issued and the flag stays `false`. -/
theorem EnableVideoSuperResolution_stops_at_first_failure (backend : Backend)
    (s : CProcessorHD) (hclear : s.m_superResolutionEnabled = false) :
    intelWrites =
      [ VideoProcessorSetOutputExtension GUID_INTEL_VPE_INTERFACE
          [kIntelVpeFnVersion, kIntelVpeVersion3],
        VideoProcessorSetOutputExtension GUID_INTEL_VPE_INTERFACE
          [kIntelVpeFnMode, kIntelVpeModePreproc],
        VideoProcessorSetStreamExtension GUID_INTEL_VPE_INTERFACE
          [kIntelVpeFnScaling, kIntelVpeScalingSuperResolution] ] ∧
    nvidiaWrites.length = 1 ∧
    (EnableIntelVideoSuperResolution backend s).trace =
      s.trace ++ (writesUntilFailure backend intelWrites).map BackendCall.extension ∧
    ((EnableIntelVideoSuperResolution backend s).m_superResolutionEnabled = true ↔
      ∀ w, w ∈ intelWrites → FAILED (backend.SetExtension w) = false) ∧
    (∀ (pre post : List ExtensionCall) (w : ExtensionCall), intelWrites = pre ++ w :: post →
      (∀ x, x ∈ pre → FAILED (backend.SetExtension x) = false) →
      FAILED (backend.SetExtension w) = true →
      (EnableIntelVideoSuperResolution backend s).trace =
        s.trace ++ (pre ++ [w]).map BackendCall.extension ∧
      (EnableIntelVideoSuperResolution backend s).m_superResolutionEnabled = false) ∧
    (EnableNvidiaRTXVideoSuperResolution backend s).trace =
      s.trace ++ (writesUntilFailure backend nvidiaWrites).map BackendCall.extension ∧
    ((EnableNvidiaRTXVideoSuperResolution backend s).m_superResolutionEnabled = true ↔
      ∀ w, w ∈ nvidiaWrites → FAILED (backend.SetExtension w) = false) ∧
    (∀ (pre post : List ExtensionCall) (w : ExtensionCall), nvidiaWrites = pre ++ w :: post →
      (∀ x, x ∈ pre → FAILED (backend.SetExtension x) = false) →
      FAILED (backend.SetExtension w) = true →
      (EnableNvidiaRTXVideoSuperResolution backend s).trace =
        s.trace ++ (pre ++ [w]).map BackendCall.extension ∧
      (EnableNvidiaRTXVideoSuperResolution backend s).m_superResolutionEnabled = false) := by
  obtain ⟨hi1, hi2, _⟩ := EnableIntelVideoSuperResolution_spec backend s
  obtain ⟨hn1, hn2, _⟩ := EnableNvidiaRTXVideoSuperResolution_spec backend s
  rw [hclear, Bool.false_or] at hi2 hn2
  have hall : ∀ ws : List ExtensionCall,
      (ws.all fun w => !FAILED (backend.SetExtension w)) = true ↔
        ∀ w, w ∈ ws → FAILED (backend.SetExtension w) = false := by
    intro ws
    simp [List.all_eq_true]
  refine ⟨rfl, rfl, hi1, ?_, ?_, hn1, ?_, ?_⟩
  · rw [hi2]
    exact hall _
  · intro pre post w hsplit hpre hw
    rw [hi1, hi2, hsplit, writesUntilFailure_append backend pre post w hpre hw]
    refine ⟨rfl, ?_⟩
    cases hres : ((pre ++ w :: post).all fun w => !FAILED (backend.SetExtension w)) with
    | false => rfl
    | true =>
      have := (hall _).mp hres w (by simp)
      rw [hw] at this
      cases this
  · rw [hn2]
    exact hall _
  · intro pre post w hsplit hpre hw
    rw [hn1, hn2, hsplit, writesUntilFailure_append backend pre post w hpre hw]
    refine ⟨rfl, ?_⟩
    cases hres : ((pre ++ w :: post).all fun w => !FAILED (backend.SetExtension w)) with
    | false => rfl
    | true =>
      have := (hall _).mp hres w (by simp)
      rw [hw] at this
      cases this

/-- Witness for C16: an Intel adapter that accepts the version write and rejects the mode
write; the scaling write is never issued and the flag stays `false`. -/
theorem EnableVideoSuperResolution_stops_at_first_failure_witness :
    (EnableIntelVideoSuperResolution intelModeFailsBackend closedSession).trace =
      [ BackendCall.extension (VideoProcessorSetOutputExtension GUID_INTEL_VPE_INTERFACE
          [kIntelVpeFnVersion, kIntelVpeVersion3]),
        BackendCall.extension (VideoProcessorSetOutputExtension GUID_INTEL_VPE_INTERFACE
          [kIntelVpeFnMode, kIntelVpeModePreproc]) ] ∧
    (EnableIntelVideoSuperResolution intelModeFailsBackend closedSession).m_superResolutionEnabled
      = false :=
  (EnableVideoSuperResolution_stops_at_first_failure intelModeFailsBackend closedSession
    rfl).2.2.2.2.1
    [VideoProcessorSetOutputExtension GUID_INTEL_VPE_INTERFACE
      [kIntelVpeFnVersion, kIntelVpeVersion3]]
    [VideoProcessorSetStreamExtension GUID_INTEL_VPE_INTERFACE
      [kIntelVpeFnScaling, kIntelVpeScalingSuperResolution]]
    (VideoProcessorSetOutputExtension GUID_INTEL_VPE_INTERFACE
      [kIntelVpeFnMode, kIntelVpeModePreproc])
    rfl (by decide) (by decide)

/-- C17, the code at the failing input: on an AMD adapter with a 10-bit back buffer and
a created processor, `TryEnableVideoSuperResolution` forces the 8-bit swap chain
(`ApplyDisplaySettings(true)`, `m_forced8bit` set) although no super-resolution path
exists for that vendor and no extension write is issued. The same happens on an Intel
adapter. -/
theorem TryEnableVideoSuperResolution_forces_8bit_for_any_vendor :
    (Open goodBackend closedSession 1920 1080).1 = true ∧
    amdBackend.VendorId ≠ PCIV_NVIDIA ∧ amdBackend.VendorId ≠ PCIV_Intel ∧
    (Open goodBackend closedSession 1920 1080).2.m_forced8bit = false ∧
    (TryEnableVideoSuperResolution amdBackend
        (Open goodBackend closedSession 1920 1080).2).m_forced8bit = true ∧
    (TryEnableVideoSuperResolution amdBackend (Open goodBackend closedSession 1920 1080).2).trace =
      (Open goodBackend closedSession 1920 1080).2.trace ++
        [BackendCall.ApplyDisplaySettings true] ∧
    (TryEnableVideoSuperResolution amdBackend
        (Open goodBackend closedSession 1920 1080).2).m_superResolutionEnabled = false ∧
    BackendCall.ApplyDisplaySettings true ∈
      (TryEnableVideoSuperResolution intelModeFailsBackend
        (Open goodBackend closedSession 1920 1080).2).trace := by
  decide

end CProcessorHD

/-! ## Lifecycle -/

namespace CProcessorHD

/-- `OpenProcessor` when the enumerator is present: no re-probe, only the processor is
created. -/
theorem OpenProcessor_of_enumerator (backend : Backend) (s : CProcessorHD)
    (h : s.m_pEnumerator = true) :
    OpenProcessor backend s =
      if FAILED (backend.CreateVideoProcessor s.m_procIndex) = true then
        (false, { s with m_pVideoProcessor := false })
      else
        (true, { s with
          m_pVideoProcessor := true
          trace := s.trace ++ [BackendCall.VideoProcessorSetOutputBackgroundColor] }) := by
  simp [OpenProcessor, h]

/-- `ReInit` is `Close`, the probe and the check of the output format. -/
theorem ReInit_eq (backend : Backend) (s : CProcessorHD) :
    (ReInit backend s).1 = ((InitProcessor backend (Close s)).1 && CheckFormats backend) ∧
    (ReInit backend s).2 = (InitProcessor backend (Close s)).2 := by
  unfold ReInit
  cases h1 : (InitProcessor backend (Close s)).1 <;> cases h2 : CheckFormats backend <;>
    simp [h1, h2]

/-- The members after `Close`. -/
theorem Close_members (s : CProcessorHD) :
    (Close s).m_pVideoDevice = false ∧ (Close s).m_pVideoContext = false ∧
    (Close s).m_pEnumerator = false ∧ (Close s).m_pEnumerator1 = false ∧
    (Close s).m_pVideoProcessor = false ∧ (Close s).m_superResolutionEnabled = false ∧
    (Close s).capabilities = s.capabilities ∧ (Close s).m_width = s.m_width ∧
    (Close s).m_height = s.m_height :=
  ⟨rfl, rfl, rfl, rfl, rfl, rfl, rfl, rfl, rfl⟩

/-- A successful probe holds context, device and enumerator. -/
theorem InitProcessor_true_handles (backend : Backend) (s : CProcessorHD)
    (h : (InitProcessor backend s).1 = true) :
    (InitProcessor backend s).2.m_pVideoContext = true ∧
    (InitProcessor backend s).2.m_pVideoDevice = true ∧
    (InitProcessor backend s).2.m_pEnumerator = true := by
  obtain ⟨h1, h2, h3, h4, _⟩ := InitProcessor_frame backend s
  rw [h1] at h
  rw [h2, h3, h4]
  revert h
  cases FAILED backend.videoContext <;> cases FAILED backend.videoDevice <;>
    cases FAILED (backend.CreateVideoProcessorEnumerator s.m_width s.m_height) <;>
    cases FAILED backend.GetVideoProcessorCaps.1 <;> simp

/-- `Open` is `Close`, the probe, the check of the output format and `OpenProcessor`
without a second probe. -/
theorem Open_eq (backend : Backend) (s : CProcessorHD) (width height : Nat) :
    Open backend s width height =
      if (InitProcessor backend (setSize (Close s) width height)).1 = true ∧
          CheckFormats backend = true then
        OpenProcessor backend (InitProcessor backend (setSize (Close s) width height)).2
      else
        (false, (InitProcessor backend (setSize (Close s) width height)).2) := by
  unfold Open
  by_cases h1 : (InitProcessor backend
      (setSize (Close s) width height)).1 = true
  · by_cases h2 : CheckFormats backend = true
    · simp [h1, h2]
    · simp [h1, h2]
  · simp [h1]

/-- A successful `Open` has created the processor. -/
theorem Open_true_members (backend : Backend) (s : CProcessorHD) (width height : Nat)
    (h : (Open backend s width height).1 = true) :
    (InitProcessor backend (setSize (Close s) width height)).1 = true ∧
    CheckFormats backend = true ∧
    FAILED (backend.CreateVideoProcessor
      (InitProcessor backend
        (setSize (Close s) width height)).2.m_procIndex) = false ∧
    (Open backend s width height).2 =
      { (InitProcessor backend (setSize (Close s) width height)).2 with
        m_pVideoProcessor := true
        trace := (InitProcessor backend
            (setSize (Close s) width height)).2.trace ++
          [BackendCall.VideoProcessorSetOutputBackgroundColor] } := by
  by_cases h1 : (InitProcessor backend (setSize (Close s) width height)).1 = true ∧
      CheckFormats backend = true
  · have he := (InitProcessor_true_handles backend _ h1.1).2.2
    rw [Open_eq, if_pos h1, OpenProcessor_of_enumerator backend _ he] at h ⊢
    by_cases h2 : FAILED (backend.CreateVideoProcessor
        (InitProcessor backend (setSize (Close s) width height)).2.m_procIndex) = true
    · rw [if_pos h2] at h
      simp at h
    · rw [if_neg h2]
      exact ⟨h1.1, h1.2, by simpa using h2, rfl⟩
  · rw [Open_eq, if_neg h1] at h
    simp at h

/-- C18 as stated fails: `Open` ends with `OpenProcessor`, so a successful `Open` never
leaves the processor uncreated; against an environment in which every call succeeds the
session holds the processor right after `Open`. -/
theorem Open_success_not_probed :
    ((Open goodBackend closedSession 1920 1080).1 = true ∧
      (Open goodBackend closedSession 1920 1080).2.m_pVideoProcessor = true) ∧
    ¬ ∀ (backend : Backend) (s : CProcessorHD) (width height : Nat),
        (Open backend s width height).1 = true →
        (Open backend s width height).2.m_pEnumerator = true ∧
        (Open backend s width height).2.m_pVideoProcessor = false := by
  refine ⟨by decide, fun h => ?_⟩
  have h1 := h goodBackend closedSession 1920 1080 (by decide)
  revert h1
  decide

/-- C18, amended: a successful `Open(width, height)` is `Close`, the probe, the check of
the output format and `OpenProcessor`, and leaves the session active: context, device,
enumerator and processor are held and the background colour has been set. The probed
state (enumerator held, processor not created) is what a successful `ReInit` leaves; from
such a state the next `Render` creates the processor when `CreateVideoProcessor`
succeeds, and a `Render` on a session that holds a processor leaves the members alone. -/
theorem Open_success_is_active (backend : Backend) (s : CProcessorHD) (width height : Nat)
    (hopen : (Open backend s width height).1 = true) :
    ((InitProcessor backend (setSize (Close s) width height)).1 = true ∧
      CheckFormats backend = true ∧
      OpenProcessor backend
          (InitProcessor backend (setSize (Close s) width height)).2 =
        Open backend s width height) ∧
    ((Open backend s width height).2.m_pVideoContext = true ∧
      (Open backend s width height).2.m_pVideoDevice = true ∧
      (Open backend s width height).2.m_pEnumerator = true ∧
      (Open backend s width height).2.m_pVideoProcessor = true ∧
      BackendCall.VideoProcessorSetOutputBackgroundColor ∈
        (Open backend s width height).2.trace) ∧
    (∀ (b : Backend) (t : CProcessorHD), (ReInit b t).1 = true →
      (ReInit b t).2.m_pEnumerator = true ∧ (ReInit b t).2.m_pVideoProcessor = false) ∧
    (∀ {Buf View : Type} (b : Backend) (renderBackend : RenderBackend Buf View)
        (t : CProcessorHD) (views : ViewSet Buf),
      (t.m_pEnumerator = true → t.m_pVideoProcessor = false →
        FAILED (b.CreateVideoProcessor t.m_procIndex) = false →
        (Render b renderBackend t views).1.m_pVideoProcessor = true) ∧
      (t.m_pVideoProcessor = true → (Render b renderBackend t views).1 = t)) := by
  obtain ⟨h1, h2, h3, h4⟩ := Open_true_members backend s width height hopen
  obtain ⟨hc, hd, he⟩ := InitProcessor_true_handles backend _ h1
  refine ⟨⟨h1, h2, ?_⟩, ?_, ?_, ?_⟩
  · rw [Open_eq, if_pos ⟨h1, h2⟩]
  · rw [h4]
    exact ⟨hc, hd, he, rfl, by simp⟩
  · intro b t ht
    obtain ⟨hr1, hr2⟩ := ReInit_eq b t
    rw [hr1] at ht
    have hinit : (InitProcessor b (Close t)).1 = true := by
      revert ht
      cases (InitProcessor b (Close t)).1 <;> simp
    rw [hr2]
    exact ⟨(InitProcessor_true_handles b _ hinit).2.2,
      by rw [(InitProcessor_frame b _).2.2.2.2.1]; rfl⟩
  · intro Buf View b renderBackend t views
    constructor
    · intro hen hproc hcreate
      simp [Render, hproc, OpenProcessor_of_enumerator b t hen, hcreate]
    · intro hproc
      simp [Render, hproc]

/-- Witness for the amended C18: `Open` against an environment in which every call
succeeds holds the processor, `ReInit` from there leaves the probed state, and the next
`Render` creates the processor again. -/
theorem Open_success_is_active_witness :
    (Open goodBackend closedSession 1920 1080).2.m_pVideoProcessor = true ∧
    (ReInit goodBackend (Open goodBackend closedSession 1920 1080).2).2.m_pVideoProcessor
      = false ∧
    (Render goodBackend okBackend
      (ReInit goodBackend (Open goodBackend closedSession 1920 1080).2).2
      fullViews).1.m_pVideoProcessor = true :=
  ⟨(Open_success_is_active goodBackend closedSession 1920 1080 (by decide)).2.1.2.2.2.1,
   ((Open_success_is_active goodBackend closedSession 1920 1080 (by decide)).2.2.1
      goodBackend (Open goodBackend closedSession 1920 1080).2 (by decide)).2,
   ((Open_success_is_active goodBackend closedSession 1920 1080 (by decide)).2.2.2
      goodBackend okBackend
      (ReInit goodBackend (Open goodBackend closedSession 1920 1080).2).2 fullViews).1
      (by decide) (by decide) (by decide)⟩

end CProcessorHD

namespace CProcessorHD

/-- The session-level `Render` in terms of its first statement. -/
theorem Render_eq {Buf View : Type} (backend : Backend)
    (renderBackend : RenderBackend Buf View) (s : CProcessorHD) (views : ViewSet Buf) :
    (s.m_pVideoProcessor = true →
      Render backend renderBackend s views =
        (s, DXVA.Render true s.m_rateCaps renderBackend views)) ∧
    (s.m_pVideoProcessor = false →
      Render backend renderBackend s views =
        ((OpenProcessor backend s).2,
          DXVA.Render (OpenProcessor backend s).1 (OpenProcessor backend s).2.m_rateCaps
            renderBackend views)) := by
  constructor <;> intro h <;> simp [Render, h]

/-- The outcome of `DXVA.Render`: the result is `true` exactly when the blit was issued
and did not fail, and a blit is issued only with an available processor, a present
current frame, a complete window and a created output view. -/
theorem Render_outcome {Buf View : Type} (processor : Bool)
    (m_rateCaps : D3D11_VIDEO_PROCESSOR_RATE_CONVERSION_CAPS)
    (renderBackend : RenderBackend Buf View) (views : ViewSet Buf) :
    ∃ out, DXVA.Render processor m_rateCaps renderBackend views = some out ∧
      (out.result = true ↔
        ∃ stream_data, out.blt = some stream_data ∧
          FAILED (renderBackend.VideoProcessorBlt stream_data) = false) ∧
      (∀ stream_data, out.blt = some stream_data →
        processor = true ∧ (views 2).isSome = true ∧
        (∃ st, assembleWindow renderBackend.GetInputView m_rateCaps views = some st ∧
          st.count =
            (pastFrames m_rateCaps views : Nat) + (futureFrames m_rateCaps views : Nat) + 1) ∧
        SUCCEEDED renderBackend.CreateVideoProcessorOutputView = true) ∧
      (processor = false → out = { result := false, blt := none }) := by
  obtain ⟨st, hst, _⟩ := assembleWindow_spec renderBackend.GetInputView m_rateCaps views
  refine ⟨_, Render_of_assembleWindow processor m_rateCaps renderBackend views st hst, ?_⟩
  by_cases hp : processor = false
  · simp [hp]
  · rw [if_neg hp]
    by_cases hv : (views 2).isNone = true
    · simp [hv, hp]
    · rw [if_neg hv]
      have hv2 : (views 2).isSome = true := by
        cases h : views 2 with
        | none => simp [h] at hv
        | some b => rfl
      by_cases hc : st.count ≠
          (pastFrames m_rateCaps views : Nat) + (futureFrames m_rateCaps views : Nat) + 1
      · simp [hc, hp]
      · rw [if_neg hc]
        have hc2 := not_not.mp hc
        have hp2 : processor = true := by
          cases processor
          · exact absurd rfl hp
          · rfl
        by_cases ho : SUCCEEDED renderBackend.CreateVideoProcessorOutputView = true
        · rw [if_pos ho]
          refine ⟨?_, ?_, fun h => absurd h hp⟩
          · simp
          · intro stream_data _
            exact ⟨hp2, hv2, ⟨st, hst, hc2⟩, ho⟩
        · rw [if_neg ho]
          have hfail : FAILED renderBackend.CreateVideoProcessorOutputView = true := by
            unfold SUCCEEDED at ho
            unfold FAILED
            simp only [decide_eq_true_eq, not_le] at ho ⊢
            exact ho
          simp [hfail, hp]

/-- `OpenProcessor` never changes the capability snapshot by itself: the snapshot after
it is the one of the session it creates the processor on (the session itself, or the
re-probed one when the enumerator was lost), and a failed re-probe makes it fail. -/
theorem OpenProcessor_reprobe (backend : Backend) (s : CProcessorHD) :
    (s.m_pEnumerator = true → (OpenProcessor backend s).2.capabilities = s.capabilities) ∧
    (s.m_pEnumerator = false →
      (OpenProcessor backend s).2.capabilities = (ReInit backend s).2.capabilities ∧
      ((ReInit backend s).1 = false →
        OpenProcessor backend s = (false, (ReInit backend s).2))) := by
  constructor
  · intro h
    rw [OpenProcessor_of_enumerator backend s h]
    split_ifs <;> rfl
  · intro h
    constructor
    · unfold OpenProcessor
      simp only [h, Bool.not_false, if_true]
      split_ifs <;> rfl
    · intro hre
      simp [OpenProcessor, h, hre]

/-- C19: `Render` reports success as "the execute call did not fail". For every call,
`Render` returns `true` exactly when `VideoProcessorBlt` was issued and its result is not
a failure code. The blit is issued only when the processor is present or was re-created
by `OpenProcessor`, the current frame `views[2]` is present, the reference window is
complete and the output view was created. A present processor leaves the session alone; a
missing one triggers `OpenProcessor` once, which re-probes (`ReInit`) when the enumerator
is lost, and `Render` returns `false` without a blit when that fails. -/
theorem Render_reports_blt_result {Buf View : Type} (backend : Backend)
    (renderBackend : RenderBackend Buf View) (s : CProcessorHD) (views : ViewSet Buf) :
    ∃ out, (Render backend renderBackend s views).2 = some out ∧
      (out.result = true ↔
        ∃ stream_data, out.blt = some stream_data ∧
          FAILED (renderBackend.VideoProcessorBlt stream_data) = false) ∧
      (∀ stream_data, out.blt = some stream_data →
        (s.m_pVideoProcessor = true ∨
          (s.m_pVideoProcessor = false ∧ (OpenProcessor backend s).1 = true)) ∧
        (views 2).isSome = true ∧
        (∃ st, assembleWindow renderBackend.GetInputView
            (Render backend renderBackend s views).1.m_rateCaps views = some st ∧
          st.count =
            (pastFrames (Render backend renderBackend s views).1.m_rateCaps views : Nat) +
              (futureFrames (Render backend renderBackend s views).1.m_rateCaps views : Nat)
              + 1) ∧
        SUCCEEDED renderBackend.CreateVideoProcessorOutputView = true) ∧
      (s.m_pVideoProcessor = true → (Render backend renderBackend s views).1 = s) ∧
      (s.m_pVideoProcessor = false →
        (Render backend renderBackend s views).1 = (OpenProcessor backend s).2 ∧
        ((OpenProcessor backend s).1 = false → out = { result := false, blt := none })) ∧
      (s.m_pEnumerator = true → (OpenProcessor backend s).2.capabilities = s.capabilities) ∧
      (s.m_pEnumerator = false →
        (OpenProcessor backend s).2.capabilities = (ReInit backend s).2.capabilities ∧
        ((ReInit backend s).1 = false →
          OpenProcessor backend s = (false, (ReInit backend s).2))) := by
  obtain ⟨hpresent, hlost⟩ := Render_eq backend renderBackend s views
  obtain ⟨hre1, hre2⟩ := OpenProcessor_reprobe backend s
  cases hproc : s.m_pVideoProcessor with
  | true =>
    rw [hpresent hproc]
    obtain ⟨out, hout, hres, hblt, _⟩ :=
      Render_outcome true s.m_rateCaps renderBackend views
    refine ⟨out, hout, hres, ?_, fun _ => rfl, fun h => absurd h (by simp), hre1, hre2⟩
    intro stream_data hsd
    obtain ⟨_, h2, h3, h4⟩ := hblt stream_data hsd
    exact ⟨Or.inl rfl, h2, h3, h4⟩
  | false =>
    rw [hlost hproc]
    obtain ⟨out, hout, hres, hblt, hnone⟩ :=
      Render_outcome (OpenProcessor backend s).1 (OpenProcessor backend s).2.m_rateCaps
        renderBackend views
    refine ⟨out, hout, hres, ?_, fun h => absurd h (by simp), fun _ => ⟨rfl, hnone⟩,
      hre1, hre2⟩
    intro stream_data hsd
    obtain ⟨h1, h2, h3, h4⟩ := hblt stream_data hsd
    exact ⟨Or.inr ⟨rfl, h1⟩, h2, h3, h4⟩

/-- Witness for C19: a session that lost everything renders a complete window against an
environment in which every call succeeds: the processor is re-opened after a re-probe,
the blit is issued and `Render` returns `true`; without a video device the re-probe fails
and `Render` returns `false` without a blit. -/
theorem Render_reports_blt_result_witness :
    (∃ out stream_data, (Render goodBackend okBackend closedSession fullViews).2 = some out ∧
      out.blt = some stream_data ∧ out.result = true ∧
      (OpenProcessor goodBackend closedSession).1 = true) ∧
    (Render noDeviceBackend okBackend closedSession fullViews).2 =
      some { result := false, blt := none } := by
  obtain ⟨out, hout, hres, hblt, _, hlost, _⟩ :=
    Render_reports_blt_result goodBackend okBackend closedSession fullViews
  obtain ⟨out2, hout2, _, _, _, hlost2, _⟩ :=
    Render_reports_blt_result noDeviceBackend okBackend closedSession fullViews
  have heval : (Render goodBackend okBackend closedSession fullViews).2 =
      some ⟨true, some ⟨2, 1, some 102, [some 104, some 103], [some 101]⟩⟩ := by decide
  have ho := hout
  rw [heval] at ho
  cases ho
  refine ⟨⟨_, _, hout, rfl, hres.mpr ⟨_, rfl, by decide⟩, ?_⟩, ?_⟩
  · rcases (hblt _ rfl).1 with h | ⟨_, h⟩
    · exact absurd h (by decide)
    · exact h
  · rw [hout2, (hlost2 rfl).2 (by decide)]

end CProcessorHD

/-! ## The super-resolution flag -/

namespace CProcessorHD

/-- `TryEnableVideoSuperResolution` never touches the handles, and turns the flag on only
with context and processor present and a fully successful negotiation of the adapter's
vendor. -/
theorem TryEnableVideoSuperResolution_spec (backend : Backend) (s : CProcessorHD) :
    (TryEnableVideoSuperResolution backend s).m_pVideoContext = s.m_pVideoContext ∧
    (TryEnableVideoSuperResolution backend s).m_pVideoProcessor = s.m_pVideoProcessor ∧
    (s.m_superResolutionEnabled = false →
      (TryEnableVideoSuperResolution backend s).m_superResolutionEnabled = true →
      s.m_pVideoContext = true ∧ s.m_pVideoProcessor = true ∧
      ((backend.VendorId = PCIV_Intel ∧
          ∀ w, w ∈ intelWrites → FAILED (backend.SetExtension w) = false) ∨
        (backend.VendorId = PCIV_NVIDIA ∧
          ∀ w, w ∈ nvidiaWrites → FAILED (backend.SetExtension w) = false))) := by
  unfold TryEnableVideoSuperResolution
  by_cases hguard : (!s.m_pVideoContext || !s.m_pVideoProcessor) = true
  · rw [if_pos hguard]
    refine ⟨rfl, rfl, ?_⟩
    intro h1 h2
    rw [h1] at h2
    cases h2
  · rw [if_neg hguard]
    have hctx : s.m_pVideoContext = true ∧ s.m_pVideoProcessor = true := by
      revert hguard
      cases s.m_pVideoContext <;> cases s.m_pVideoProcessor <;> simp
    have hall : ∀ ws : List ExtensionCall,
        (ws.all fun w => !FAILED (backend.SetExtension w)) = true ↔
          ∀ w, w ∈ ws → FAILED (backend.SetExtension w) = false := by
      intro ws
      simp [List.all_eq_true]
    by_cases hi : backend.VendorId = PCIV_Intel
    · rw [if_pos hi]
      obtain ⟨_, h2, h3, h4⟩ := EnableIntelVideoSuperResolution_spec backend
        (if backend.backBufferFormat = DXGI_FORMAT_R10G10B10A2_UNORM then
          { s with
            trace := s.trace ++ [BackendCall.ApplyDisplaySettings true]
            m_forced8bit := true }
        else s)
      rw [h2, h3, h4]
      refine ⟨by split_ifs <;> rfl, by split_ifs <;> rfl, ?_⟩
      intro hs hflag
      have hs2 : (if backend.backBufferFormat = DXGI_FORMAT_R10G10B10A2_UNORM then
          ({ s with
            trace := s.trace ++ [BackendCall.ApplyDisplaySettings true]
            m_forced8bit := true } : CProcessorHD)
        else s).m_superResolutionEnabled = false := by
        split_ifs <;> exact hs
      rw [hs2, Bool.false_or] at hflag
      exact ⟨hctx.1, hctx.2, Or.inl ⟨hi, (hall _).mp hflag⟩⟩
    · rw [if_neg hi]
      by_cases hn : backend.VendorId = PCIV_NVIDIA
      · rw [if_pos hn]
        obtain ⟨_, h2, h3, h4⟩ := EnableNvidiaRTXVideoSuperResolution_spec backend
          (if backend.backBufferFormat = DXGI_FORMAT_R10G10B10A2_UNORM then
            { s with
              trace := s.trace ++ [BackendCall.ApplyDisplaySettings true]
              m_forced8bit := true }
          else s)
        rw [h2, h3, h4]
        refine ⟨by split_ifs <;> rfl, by split_ifs <;> rfl, ?_⟩
        intro hs hflag
        have hs2 : (if backend.backBufferFormat = DXGI_FORMAT_R10G10B10A2_UNORM then
            ({ s with
              trace := s.trace ++ [BackendCall.ApplyDisplaySettings true]
              m_forced8bit := true } : CProcessorHD)
          else s).m_superResolutionEnabled = false := by
          split_ifs <;> exact hs
        rw [hs2, Bool.false_or] at hflag
        exact ⟨hctx.1, hctx.2, Or.inr ⟨hn, (hall _).mp hflag⟩⟩
      · rw [if_neg hn]
        refine ⟨by split_ifs <;> rfl, by split_ifs <;> rfl, ?_⟩
        intro hs hflag
        have hs2 : (if backend.backBufferFormat = DXGI_FORMAT_R10G10B10A2_UNORM then
            ({ s with
              trace := s.trace ++ [BackendCall.ApplyDisplaySettings true]
              m_forced8bit := true } : CProcessorHD)
          else s).m_superResolutionEnabled = false := by
          split_ifs <;> exact hs
        rw [hs2] at hflag
        cases hflag

/-- `ReInit` leaves the flag cleared and no processor. -/
theorem ReInit_flag (backend : Backend) (s : CProcessorHD) :
    (ReInit backend s).2.m_superResolutionEnabled = false ∧
    (ReInit backend s).2.m_pVideoProcessor = false := by
  rw [(ReInit_eq backend s).2, (InitProcessor_frame backend _).2.2.2.2.1,
    (InitProcessor_frame backend _).2.2.2.2.2.1]
  exact ⟨rfl, rfl⟩

/-- `OpenProcessor` never turns the flag on. -/
theorem OpenProcessor_flag (backend : Backend) (s : CProcessorHD)
    (h : (OpenProcessor backend s).2.m_superResolutionEnabled = true) :
    s.m_superResolutionEnabled = true := by
  unfold OpenProcessor at h
  by_cases he : s.m_pEnumerator = true
  · simp only [he, Bool.not_true, Bool.false_eq_true, if_false] at h
    split_ifs at h <;> exact h
  · simp only [he, Bool.not_false, if_true, Bool.not_eq_true] at h
    have hf := (ReInit_flag backend s).1
    split_ifs at h <;> simp_all

/-- `Open` leaves the flag cleared. -/
theorem Open_flag (backend : Backend) (s : CProcessorHD) (width height : Nat) :
    (Open backend s width height).2.m_superResolutionEnabled = false := by
  have hinit : (InitProcessor backend (setSize (Close s) width height)).2.m_superResolutionEnabled
      = false := by
    rw [(InitProcessor_frame backend _).2.2.2.2.2.1]
    rfl
  rw [Open_eq]
  split_ifs
  · cases hres : (OpenProcessor backend
        (InitProcessor backend (setSize (Close s) width height)).2).2.m_superResolutionEnabled with
    | false => rfl
    | true =>
      have := OpenProcessor_flag backend _ hres
      rw [hinit] at this
      cases this
  · exact hinit

/-- A call turns the flag on only if it is `TryEnableVideoSuperResolution` on a session
with context and processor, with a fully successful negotiation. -/
theorem call_flag {Buf View : Type} (s : CProcessorHD) (c : Call Buf View)
    (hoff : s.m_superResolutionEnabled = false)
    (hon : (s.call c).m_superResolutionEnabled = true) :
    ∃ backend, c = Call.TryEnableVideoSuperResolution backend ∧
      s.m_pVideoContext = true ∧ s.m_pVideoProcessor = true ∧
      ((backend.VendorId = PCIV_Intel ∧
          ∀ w, w ∈ intelWrites → FAILED (backend.SetExtension w) = false) ∨
        (backend.VendorId = PCIV_NVIDIA ∧
          ∀ w, w ∈ nvidiaWrites → FAILED (backend.SetExtension w) = false)) := by
  cases c with
  | Open backend width height =>
    simp only [call] at hon
    rw [Open_flag] at hon
    cases hon
  | Close =>
    simp only [call, Close] at hon
    cases hon
  | ReInit backend =>
    simp only [call] at hon
    rw [(ReInit_flag backend s).1] at hon
    cases hon
  | Render backend renderBackend views =>
    simp only [call] at hon
    obtain ⟨hpresent, hlost⟩ := Render_eq backend renderBackend s views
    cases hproc : s.m_pVideoProcessor with
    | true =>
      rw [hpresent hproc, hoff] at hon
      cases hon
    | false =>
      rw [hlost hproc] at hon
      have := OpenProcessor_flag backend s hon
      rw [hoff] at this
      cases this
  | TryEnableVideoSuperResolution backend =>
    simp only [call] at hon
    obtain ⟨h1, h2, h3⟩ := (TryEnableVideoSuperResolution_spec backend s).2.2 hoff hon
    exact ⟨backend, rfl, h1, h2, h3⟩

/-- The flag implies context and processor, and every call preserves this. -/
theorem call_invariant {Buf View : Type} (s : CProcessorHD) (c : Call Buf View)
    (hinv : s.m_superResolutionEnabled = true →
      s.m_pVideoContext = true ∧ s.m_pVideoProcessor = true)
    (hon : (s.call c).m_superResolutionEnabled = true) :
    (s.call c).m_pVideoContext = true ∧ (s.call c).m_pVideoProcessor = true := by
  cases hflag : s.m_superResolutionEnabled with
  | false =>
    obtain ⟨backend, hc, h1, h2, _⟩ := call_flag s c hflag hon
    subst hc
    simp only [call]
    rw [(TryEnableVideoSuperResolution_spec backend s).1,
      (TryEnableVideoSuperResolution_spec backend s).2.1]
    exact ⟨h1, h2⟩
  | true =>
    obtain ⟨hctx, hproc⟩ := hinv hflag
    cases c with
    | Open backend width height =>
      simp only [call] at hon
      rw [Open_flag] at hon
      cases hon
    | Close =>
      simp only [call, Close] at hon
      cases hon
    | ReInit backend =>
      simp only [call] at hon
      rw [(ReInit_flag backend s).1] at hon
      cases hon
    | Render backend renderBackend views =>
      simp only [call]
      rw [(Render_eq backend renderBackend s views).1 hproc]
      exact ⟨hctx, hproc⟩
    | TryEnableVideoSuperResolution backend =>
      simp only [call]
      rw [(TryEnableVideoSuperResolution_spec backend s).1,
        (TryEnableVideoSuperResolution_spec backend s).2.1]
      exact ⟨hctx, hproc⟩

/-- The invariant along a sequence of calls. -/
theorem run_invariant {Buf View : Type} (calls : List (Call Buf View)) :
    ∀ s : CProcessorHD,
      (s.m_superResolutionEnabled = true →
        s.m_pVideoContext = true ∧ s.m_pVideoProcessor = true) →
      (s.run calls).m_superResolutionEnabled = true →
      (s.run calls).m_pVideoContext = true ∧ (s.run calls).m_pVideoProcessor = true := by
  induction calls with
  | nil =>
    intro s hinv hon
    exact hinv hon
  | cons c rest ih =>
    intro s hinv hon
    exact ih (s.call c) (call_invariant s c hinv) hon

/-- C15 as stated fails on both counts. The flag does not need a successful capability
probe: against `noCapsBackend` every probe fails and `Open` returns `false`, but the
context, the device and the enumerator acquired before the failing step are kept, so
`Render` creates the processor without probing again and `TryEnableVideoSuperResolution`
turns the flag on. And the session never looks at a picture when it negotiates: after
`Open`, `TryEnableVideoSuperResolution` on an NVIDIA adapter and a `Render` of a
3840-wide interlaced BT.2020 PQ picture, the flag is `true` although the suitability
pre-check rejects that picture for every output width. -/
theorem superResolution_enabled_for_unsuitable_picture :
    ((∀ s : CProcessorHD, (InitProcessor noCapsBackend s).1 = false) ∧
      (Open noCapsBackend closedSession.Close 1920 1080).1 = false ∧
      (ReInit noCapsBackend (Open noCapsBackend closedSession.Close 1920 1080).2).1 = false ∧
      (closedSession.Close.run
        [Call.Open noCapsBackend 1920 1080,
          Call.Render noCapsBackend pictureBackend uhdViews,
          Call.TryEnableVideoSuperResolution noCapsBackend]).m_superResolutionEnabled = true) ∧
    ((closedSession.Close.run
        [Call.Open goodBackend 3840 2160, Call.TryEnableVideoSuperResolution goodBackend,
          Call.Render goodBackend pictureBackend uhdViews]).m_superResolutionEnabled = true ∧
      uhdViews 2 = some uhdPicture ∧
      ∀ outputWidth : Nat, IsSuperResolutionSuitable 0x8 outputWidth uhdPicture = false) ∧
    ¬ ∀ (s0 : CProcessorHD) (calls : List (Call VideoPicture Nat)) (backend : Backend)
        (renderBackend : RenderBackend VideoPicture Nat) (views : ViewSet VideoPicture)
        (picture : VideoPicture) (DVP_FLAG_INTERLACED outputWidth : Nat),
        views 2 = some picture →
        IsSuperResolutionSuitable DVP_FLAG_INTERLACED outputWidth picture = false →
        (s0.Close.run (calls ++ [Call.Render backend renderBackend views])).m_superResolutionEnabled
          = false := by
  refine ⟨⟨fun _ => rfl, by decide, by decide, by decide⟩, ⟨by decide, rfl, fun _ => rfl⟩,
    fun h => ?_⟩
  have h1 := h closedSession
    [Call.Open goodBackend 3840 2160, Call.TryEnableVideoSuperResolution goodBackend]
    goodBackend pictureBackend uhdViews uhdPicture 0x8 3840 rfl rfl
  revert h1
  decide

/-- C15, amended: in every state reachable from a closed session through `Open`, `Close`,
`ReInit`, `Render` and `TryEnableVideoSuperResolution`, the enabled flag is never `true`
while the session holds no video context or no processor, the two handles that
`TryEnableVideoSuperResolution` tests; a call changes the flag to `true` only if it is
`TryEnableVideoSuperResolution` with context and processor present and every write of the
vendor's negotiation successful; and `Close` resets the flag. Neither a successful
capability probe nor the suitability pre-check is implied by the flag: a failed probe
keeps the handles it had acquired, and no operation of the session receives the picture. -/
theorem superResolution_invariant {Buf View : Type} (s0 : CProcessorHD)
    (calls : List (Call Buf View)) :
    ((s0.Close.run calls).m_superResolutionEnabled = true →
      (s0.Close.run calls).m_pVideoContext = true ∧
      (s0.Close.run calls).m_pVideoProcessor = true) ∧
    (∀ (s : CProcessorHD) (c : Call Buf View), s.m_superResolutionEnabled = false →
      (s.call c).m_superResolutionEnabled = true →
      ∃ backend, c = Call.TryEnableVideoSuperResolution backend ∧
        s.m_pVideoContext = true ∧ s.m_pVideoProcessor = true ∧
        ((backend.VendorId = PCIV_Intel ∧
            ∀ w, w ∈ intelWrites → FAILED (backend.SetExtension w) = false) ∨
          (backend.VendorId = PCIV_NVIDIA ∧
            ∀ w, w ∈ nvidiaWrites → FAILED (backend.SetExtension w) = false))) ∧
    (∀ s : CProcessorHD, (Close s).m_superResolutionEnabled = false) := by
  refine ⟨?_, fun s c => call_flag s c, fun _ => rfl⟩
  apply run_invariant calls
  intro h
  cases h

/-- Witness for the amended C15: after `Open` and a successful negotiation on an NVIDIA
adapter the flag is on and context and processor are held. -/
theorem superResolution_invariant_witness :
    (closedSession.Close.run
      ([Call.Open goodBackend 1920 1080, Call.TryEnableVideoSuperResolution goodBackend] :
        List (Call Nat Nat))).m_superResolutionEnabled = true ∧
    (closedSession.Close.run
      ([Call.Open goodBackend 1920 1080, Call.TryEnableVideoSuperResolution goodBackend] :
        List (Call Nat Nat))).m_pVideoContext = true ∧
    (closedSession.Close.run
      ([Call.Open goodBackend 1920 1080, Call.TryEnableVideoSuperResolution goodBackend] :
        List (Call Nat Nat))).m_pVideoProcessor = true :=
  ⟨by decide,
   (superResolution_invariant closedSession
      ([Call.Open goodBackend 1920 1080, Call.TryEnableVideoSuperResolution goodBackend] :
        List (Call Nat Nat))).1 (by decide)⟩

end CProcessorHD

/-! ## Re-probe -/

namespace CProcessorHD

/-- Probing the filters twice against the same answers gives the same filters. -/
theorem probeFilters_idem (backend : Backend) (m_vcaps : D3D11_VIDEO_PROCESSOR_CAPS)
    (m_Filters : List FilterState) :
    probeFilters backend m_vcaps (probeFilters backend m_vcaps m_Filters) =
      probeFilters backend m_vcaps m_Filters := by
  simp only [probeFilters, NUM_FILTERS, PROCAMP_FILTERS, List.length_cons, List.length_nil]
  simp only [List.range, List.range.loop, List.map_cons, List.map_nil, List.getD_cons_zero,
    List.getD_cons_succ]
  split_ifs <;> simp_all

/-- The snapshot after a successful probe. -/
theorem InitProcessor_capabilities (backend : Backend) (s : CProcessorHD)
    (h : (InitProcessor backend s).1 = true) :
    (InitProcessor backend s).2.capabilities = probedCapabilities backend s.capabilities := by
  have hframe := (InitProcessor_frame backend s).1
  rw [h] at hframe
  have h1 : FAILED backend.videoContext = false := by
    revert hframe; cases FAILED backend.videoContext <;> simp
  have h2 : FAILED backend.videoDevice = false := by
    revert hframe; cases FAILED backend.videoDevice <;> simp
  have h3 : FAILED (backend.CreateVideoProcessorEnumerator s.m_width s.m_height) = false := by
    revert hframe
    cases FAILED (backend.CreateVideoProcessorEnumerator s.m_width s.m_height) <;> simp
  have h4 : FAILED backend.GetVideoProcessorCaps.1 = false := by
    revert hframe; cases FAILED backend.GetVideoProcessorCaps.1 <;> simp
  unfold InitProcessor
  simp only [h1, h2, h3, h4, Bool.false_eq_true, if_false]
  cases he : SUCCEEDED backend.enumerator1 <;>
    simp [capabilities, probedCapabilities, he, selectProcessor]

/-- Probing twice against the same answers gives the same snapshot. -/
theorem probedCapabilities_idem (backend : Backend) (old : ProcessingCapabilities) :
    probedCapabilities backend (probedCapabilities backend old) =
      probedCapabilities backend old := by
  unfold probedCapabilities
  simp only [probeFilters_idem, selectProcessor]
  cases SUCCEEDED backend.enumerator1 <;> split_ifs <;> simp_all

/-- The value returned by the probe depends on the session only through the size. -/
theorem InitProcessor_result_congr (backend : Backend) (s t : CProcessorHD)
    (hw : t.m_width = s.m_width) (hh : t.m_height = s.m_height) :
    (InitProcessor backend t).1 = (InitProcessor backend s).1 := by
  rw [(InitProcessor_frame backend t).1, (InitProcessor_frame backend s).1, hw, hh]

/-- The snapshot after a successful `Open` is the probed one. -/
theorem Open_capabilities (backend : Backend) (s : CProcessorHD) (width height : Nat)
    (hopen : (Open backend s width height).1 = true) :
    (Open backend s width height).2.capabilities =
      probedCapabilities backend s.capabilities := by
  obtain ⟨h1, _, _, h4⟩ := Open_true_members backend s width height hopen
  have hcaps := InitProcessor_capabilities backend _ h1
  rw [h4]
  exact hcaps

/-- `Open` succeeds exactly when the probe on the closed session succeeds, the output
format is supported and the processor can be created. -/
theorem Open_true_iff (backend : Backend) (s : CProcessorHD) (width height : Nat) :
    (Open backend s width height).1 = true ↔
      (InitProcessor backend (setSize (Close s) width height)).1 = true ∧
      CheckFormats backend = true ∧
      FAILED (backend.CreateVideoProcessor
        (InitProcessor backend (setSize (Close s) width height)).2.m_procIndex) = false := by
  constructor
  · intro h
    obtain ⟨h1, h2, h3, _⟩ := Open_true_members backend s width height h
    exact ⟨h1, h2, h3⟩
  · rintro ⟨h1, h2, h3⟩
    have he := (InitProcessor_true_handles backend _ h1).2.2
    rw [Open_eq, if_pos ⟨h1, h2⟩, OpenProcessor_of_enumerator backend _ he]
    simp [h3]

/-- C20: re-probe round trip. For a session reached by a successful `Open(w, h)`,
`Close()` followed by `Open(w, h)` against an environment that gives the same answers
succeeds again and reproduces an equal capability snapshot (selected processor index,
rate capabilities and reference limits, per-filter supported flag and range, and the HLG,
HDR10-limited and BT.2020 top-left flags). -/
theorem Open_Close_Open_capabilities (backend : Backend) (s0 : CProcessorHD)
    (width height : Nat) (hopen : (Open backend s0 width height).1 = true) :
    (Open backend (Close (Open backend s0 width height).2) width height).1 = true ∧
    (Open backend (Close (Open backend s0 width height).2) width height).2.capabilities =
      (Open backend s0 width height).2.capabilities := by
  have hcaps1 := Open_capabilities backend s0 width height hopen
  obtain ⟨h1, h2, h3⟩ := (Open_true_iff backend s0 width height).mp hopen
  have hidx1 : (InitProcessor backend (setSize (Close s0) width height)).2.m_procIndex =
      (probedCapabilities backend s0.capabilities).m_procIndex := by
    have := InitProcessor_capabilities backend _ h1
    exact congrArg ProcessingCapabilities.m_procIndex this
  have hinit2 : (InitProcessor backend
      (setSize (Close (Close (Open backend s0 width height).2)) width height)).1 = true := by
    exact (InitProcessor_result_congr backend (setSize (Close s0) width height)
      (setSize (Close (Close (Open backend s0 width height).2)) width height) rfl rfl).trans h1
  have hcaps2 := InitProcessor_capabilities backend _ hinit2
  have hold : (setSize (Close (Close (Open backend s0 width height).2)) width
      height).capabilities = probedCapabilities backend s0.capabilities := by
    rw [← hcaps1]
    rfl
  rw [hold, probedCapabilities_idem] at hcaps2
  have hidx2 : (InitProcessor backend
      (setSize (Close (Close (Open backend s0 width height).2)) width height)).2.m_procIndex =
      (probedCapabilities backend s0.capabilities).m_procIndex :=
    congrArg ProcessingCapabilities.m_procIndex hcaps2
  have hopen2 : (Open backend (Close (Open backend s0 width height).2) width height).1
      = true := by
    rw [Open_true_iff]
    refine ⟨hinit2, h2, ?_⟩
    rw [hidx2, ← hidx1]
    exact h3
  refine ⟨hopen2, ?_⟩
  rw [Open_capabilities backend _ width height hopen2, hcaps1]
  have : (Close (Open backend s0 width height).2).capabilities =
      (Open backend s0 width height).2.capabilities := rfl
  rw [this, hcaps1, probedCapabilities_idem]

/-- Witness for C20: `Open`, `Close`, `Open` against an environment in which every call
succeeds. -/
theorem Open_Close_Open_capabilities_witness :
    (Open goodBackend (Close (Open goodBackend closedSession 1920 1080).2) 1920 1080).1
      = true ∧
    (Open goodBackend (Close (Open goodBackend closedSession 1920 1080).2)
      1920 1080).2.capabilities = (Open goodBackend closedSession 1920 1080).2.capabilities :=
  Open_Close_Open_capabilities goodBackend closedSession 1920 1080 (by decide)

end CProcessorHD

/-! ## Bounds of the window assembly -/

/-- C21: the assembly of the reference window never leaves its arrays. Whatever
`PastFrames` and `FutureFrames` the driver reports, `futureFrames ≤ 2` and
`pastFrames ≤ 5`; every index `i` from `start = 2 - futureFrames` to
`end = 2 + pastFrames` satisfies `0 ≤ i ≤ 7`, the write `pastViews[2 + pastFrames - i]`
(for `i > 2`) has its index in `[0, pastFrames)` and the write `futureViews[1 - i]` (for
`i < 2`) has its index in `[0, futureFrames)`. In the embedding, where a read or write
outside an array yields `none` (and only then), every iteration, the whole loop and
`Render` yield a value. -/
theorem Render_window_in_bounds {Buf View : Type} (processor : Bool)
    (m_rateCaps : D3D11_VIDEO_PROCESSOR_RATE_CONVERSION_CAPS)
    (backend : RenderBackend Buf View) (views : ViewSet Buf) :
    futureFrames m_rateCaps views ≤ 2 ∧ pastFrames m_rateCaps views ≤ 5 ∧
    (∀ i : Int, 2 - (futureFrames m_rateCaps views : Int) ≤ i →
      i ≤ 2 + (pastFrames m_rateCaps views : Int) →
      0 ≤ i ∧ i ≤ 7 ∧
      (i > 2 → 0 ≤ 2 + (pastFrames m_rateCaps views : Int) - i ∧
        2 + (pastFrames m_rateCaps views : Int) - i < (pastFrames m_rateCaps views : Int)) ∧
      (i < 2 → 0 ≤ 1 - i ∧ 1 - i < (futureFrames m_rateCaps views : Int)) ∧
      (∃ slot, viewAt views i = some slot) ∧
      ∀ st : WindowState View, st.pastViews.length = pastFrames m_rateCaps views →
        st.futureViews.length = futureFrames m_rateCaps views →
        ∃ st1, assembleStep backend.GetInputView views (pastFrames m_rateCaps views : Nat) i st
            = some st1 ∧
          st1.pastViews.length = pastFrames m_rateCaps views ∧
          st1.futureViews.length = futureFrames m_rateCaps views) ∧
    (∃ st, assembleWindow backend.GetInputView m_rateCaps views = some st ∧
      st.pastViews.length = pastFrames m_rateCaps views ∧
      st.futureViews.length = futureFrames m_rateCaps views) ∧
    (∃ out, Render processor m_rateCaps backend views = some out) ∧
    (∀ i : Int, viewAt views i = none ↔ ¬ (0 ≤ i ∧ i ≤ 7)) ∧
    (∀ (v : List (Option View)) (idx : Int) (x : Option View),
      vectorWrite v idx x = none ↔ ¬ (0 ≤ idx ∧ idx < (v.length : Int))) := by
  have hp5 := pastFrames_le m_rateCaps views
  have hf2 := futureFrames_le m_rateCaps views
  refine ⟨hf2, hp5, ?_, ?_, Render_total processor m_rateCaps backend views, ?_, ?_⟩
  · intro i hlo hhi
    refine ⟨by omega, by omega, fun _ => by omega, fun _ => by omega,
      viewAt_of_bounds views i (by omega) (by omega), ?_⟩
    intro st hlp hlf
    obtain ⟨st1, hst1, h1, h2, _⟩ :=
      assembleStep_spec backend.GetInputView views (pastFrames m_rateCaps views)
        (futureFrames m_rateCaps views) i st hlp hlf hlo hhi (by omega) (by omega)
    exact ⟨st1, hst1, h1, h2⟩
  · obtain ⟨st, hst, h1, h2, _⟩ := assembleWindow_spec backend.GetInputView m_rateCaps views
    exact ⟨st, hst, h1, h2⟩
  · intro i
    unfold viewAt
    by_cases h : 0 ≤ i ∧ i < 8
    · rw [dif_pos h]
      simp only [reduceCtorEq, false_iff, not_not]
      omega
    · rw [dif_neg h]
      simp only [true_iff]
      omega
  · intro v idx x
    unfold vectorWrite
    by_cases h : 0 ≤ idx ∧ idx < (v.length : Int)
    · rw [if_pos h]
      simp [h]
    · rw [if_neg h]
      simp [h]

/-- Witness for C21: a driver reporting `4294967295` past and future frames and a view
set with all slots present: 5 past and 2 future frames are used, the loop runs over
`0 .. 7` and `Render` yields a value, while a read at index 8 would not. -/
theorem Render_window_in_bounds_witness :
    pastFrames ⟨4294967295, 4294967295, 0⟩ fullViews = 5 ∧
    futureFrames ⟨4294967295, 4294967295, 0⟩ fullViews = 2 ∧
    (0 ≤ (7 : Int) ∧ (7 : Int) ≤ 7 ∧
      0 ≤ 2 + ((pastFrames ⟨4294967295, 4294967295, 0⟩ fullViews : Nat) : Int) - 7) ∧
    (∃ out, Render true ⟨4294967295, 4294967295, 0⟩ okBackend fullViews = some out) ∧
    viewAt fullViews 8 = none := by
  obtain ⟨_, _, hidx, _, hrender, hread, _⟩ :=
    Render_window_in_bounds true ⟨4294967295, 4294967295, 0⟩ okBackend fullViews
  obtain ⟨h0, h7, hpast, _⟩ := hidx 7 (by decide) (by decide)
  exact ⟨by decide, by decide, ⟨h0, h7, (hpast (by decide)).1⟩, hrender,
    (hread 8).mpr (by decide)⟩

/-! ## Range of the filter mapping -/

/-- A representable value is kept as it is. -/
theorem wrapInt_of_fitsInt (x : Int) (h : fitsInt x) : wrapInt x = x := by
  unfold wrapInt
  unfold fitsInt at h
  omega

/-- Truncating division of a scaled non-negative distance: the result lies between `0`
and the distance. -/
theorem tdiv_scale_nonneg (a v m : Int) (ha : 0 ≤ a) (hv : 0 < v) (hvm : v ≤ m) :
    0 ≤ (a * v).tdiv m ∧ (a * v).tdiv m ≤ a := by
  have hm : 0 < m := lt_of_lt_of_le hv hvm
  rw [Int.tdiv_eq_ediv (mul_nonneg ha hv.le) hm.le]
  exact ⟨Int.ediv_nonneg (mul_nonneg ha hv.le) hm.le,
    Int.ediv_le_of_le_mul hm (mul_le_mul_of_nonneg_left hvm ha)⟩

/-- Truncating division of a scaled non-positive distance by a negative scale: the result
lies between the distance and `0`. -/
theorem tdiv_scale_nonpos (a v m : Int) (ha : a ≤ 0) (hv : v < 0) (hmv : m ≤ v) :
    a ≤ (a * v).tdiv m ∧ (a * v).tdiv m ≤ 0 := by
  have h := tdiv_scale_nonneg (-a) (-v) (-m) (by omega) (by omega) (by omega)
  have hmul : -a * -v = a * v := by ring
  have hneg : (a * v).tdiv m = -((a * v).tdiv (-m)) := by
    rw [← Int.tdiv_neg, neg_neg]
  rw [hmul] at h
  rw [hneg]
  omega

/-- The exact mapping of `ApplyFilterExact` stays inside the range. -/
theorem ApplyFilter_level_in_range (range : D3D11_VIDEO_PROCESSOR_FILTER_RANGE)
    (value min max def_ : Int)
    (hlow : range.Minimum ≤ range.Default) (hhigh : range.Default ≤ range.Maximum)
    (hlo : min ≤ value) (hhi : value ≤ max) :
    (value > def_ →
      0 ≤ ((range.Maximum - range.Default) * (value - def_)).tdiv (max - def_) ∧
      ((range.Maximum - range.Default) * (value - def_)).tdiv (max - def_) ≤
        range.Maximum - range.Default) ∧
    (value < def_ →
      range.Minimum - range.Default ≤
        ((range.Minimum - range.Default) * (value - def_)).tdiv (min - def_) ∧
      ((range.Minimum - range.Default) * (value - def_)).tdiv (min - def_) ≤ 0) := by
  constructor
  · intro h
    exact tdiv_scale_nonneg _ _ _ (by omega) (by omega) (by omega)
  · intro h
    exact tdiv_scale_nonpos _ _ _ (by omega) (by omega) (by omega)

/-- C13: for a supported filter with range `{Minimum, Maximum, Default}` and a user scale
with `min < def < max`, the mapping of `ApplyFilter` sends `value = def` to exactly
`Default`, `value = max` to exactly `Maximum` and `value = min` to exactly `Minimum`.
"Taking the arithmetic as exact integers" is what makes this hold, and it is stated in
both forms: the formula over the mathematical integers (`ApplyFilterExact`) reaches the
three anchor points without any proviso, and the 32-bit computation (`ApplyFilter32`)
reaches `Default` always, and `Maximum` and `Minimum` whenever the intermediate results of
the branch taken (the two differences and their product) and the range bound itself are
representable as `int`, which is when the machine arithmetic is exact. -/
theorem ApplyFilter32_anchor_points (m_Filters : List FilterState) (filter : Nat)
    (range : D3D11_VIDEO_PROCESSOR_FILTER_RANGE) (min max def_ : Int)
    (hfilter : filter < NUM_FILTERS)
    (hsupported : m_Filters.getD filter ⟨false, ⟨0, 0, 0⟩⟩ = ⟨true, range⟩)
    (hmin : min < def_) (hmax : def_ < max) :
    ApplyFilter32 m_Filters filter def_ min max def_ = some ⟨filter, false, range.Default⟩ ∧
    (fitsInt range.Maximum → fitsInt (range.Maximum - range.Default) → fitsInt (max - def_) →
      fitsInt ((range.Maximum - range.Default) * (max - def_)) →
      ApplyFilter32 m_Filters filter max min max def_ =
        some ⟨filter, range.Maximum != range.Default, range.Maximum⟩) ∧
    (fitsInt range.Minimum → fitsInt (range.Minimum - range.Default) → fitsInt (min - def_) →
      fitsInt ((range.Minimum - range.Default) * (min - def_)) →
      ApplyFilter32 m_Filters filter min min max def_ =
        some ⟨filter, range.Minimum != range.Default, range.Minimum⟩) ∧
    ApplyFilterExact m_Filters filter def_ min max def_ = some ⟨filter, false, range.Default⟩ ∧
    ApplyFilterExact m_Filters filter max min max def_ =
      some ⟨filter, range.Maximum != range.Default, range.Maximum⟩ ∧
    ApplyFilterExact m_Filters filter min min max def_ =
      some ⟨filter, range.Minimum != range.Default, range.Minimum⟩ := by
  have h1 : ¬ filter ≥ NUM_FILTERS := by omega
  have hmaxne : max - def_ ≠ 0 := by omega
  have hminne : min - def_ ≠ 0 := by omega
  have hirr : ¬ def_ > def_ := lt_irrefl _
  have hirr2 : ¬ def_ < def_ := lt_irrefl _
  have hgt : max > def_ := hmax
  have hngt : ¬ min > def_ := by omega
  have hsumMax : range.Default + (range.Maximum - range.Default) = range.Maximum := by omega
  have hsumMin : range.Default + (range.Minimum - range.Default) = range.Minimum := by omega
  refine ⟨?_, ?_, ?_, ?_, ?_, ?_⟩
  · simp only [ApplyFilter32, if_neg h1, hsupported, Bool.not_true, Bool.false_eq_true,
      if_false, if_neg hirr, if_neg hirr2, bne_self_eq_false]
  · intro hfM hfa hfm hfprod
    simp only [ApplyFilter32, if_neg h1, hsupported, Bool.not_true, Bool.false_eq_true,
      if_false, if_pos hgt, wrapInt_of_fitsInt _ hfa, wrapInt_of_fitsInt _ hfm,
      wrapInt_of_fitsInt _ hfprod, Int.mul_tdiv_cancel _ hmaxne, hsumMax,
      wrapInt_of_fitsInt _ hfM]
  · intro hfM hfa hfm hfprod
    simp only [ApplyFilter32, if_neg h1, hsupported, Bool.not_true, Bool.false_eq_true,
      if_false, if_neg hngt, if_pos hmin, wrapInt_of_fitsInt _ hfa, wrapInt_of_fitsInt _ hfm,
      wrapInt_of_fitsInt _ hfprod, Int.mul_tdiv_cancel _ hminne, hsumMin,
      wrapInt_of_fitsInt _ hfM]
  · simp only [ApplyFilterExact, if_neg h1, hsupported, Bool.not_true, Bool.false_eq_true,
      if_false, if_neg hirr, if_neg hirr2, bne_self_eq_false]
  · simp only [ApplyFilterExact, if_neg h1, hsupported, Bool.not_true, Bool.false_eq_true,
      if_false, if_pos hgt, Int.mul_tdiv_cancel _ hmaxne, hsumMax]
  · simp only [ApplyFilterExact, if_neg h1, hsupported, Bool.not_true, Bool.false_eq_true,
      if_false, if_neg hngt, if_pos hmin, Int.mul_tdiv_cancel _ hminne, hsumMin]

/-- Witness for C13: the brightness filter with range `{-100, 100, 0}` on the user scale
`0 .. 100` with default `50`, as `Render` calls it: the 32-bit computation sends `50` to
`0`, `100` to `100` and `0` to `-100`. -/
theorem ApplyFilter32_anchor_points_witness :
    ApplyFilter32 [⟨true, ⟨-100, 100, 0⟩⟩] 0 50 0 100 50 = some ⟨0, false, 0⟩ ∧
    ApplyFilter32 [⟨true, ⟨-100, 100, 0⟩⟩] 0 100 0 100 50 = some ⟨0, true, 100⟩ ∧
    ApplyFilter32 [⟨true, ⟨-100, 100, 0⟩⟩] 0 0 0 100 50 = some ⟨0, true, -100⟩ := by
  obtain ⟨hdef, hmax, hmin, _⟩ :=
    ApplyFilter32_anchor_points [⟨true, ⟨-100, 100, 0⟩⟩] 0 ⟨-100, 100, 0⟩ 0 100 50
      (by decide) rfl (by decide) (by decide)
  exact ⟨hdef, hmax (by decide) (by decide) (by decide) (by decide),
    hmin (by decide) (by decide) (by decide) (by decide)⟩

/-- C22 as stated fails on 32-bit `int`: for the range `{0, 50000000, 0}` and the scale
`0 .. 100` with default `50` that `Render` uses, the product `50000000 * 50` for
`value = 100` does not fit; it wraps to `-1794967296` and the level sent to the backend
is `-35899345`, below `Minimum`. -/
theorem ApplyFilter32_overflow_leaves_range :
    (ApplyFilter32 [⟨true, ⟨0, 50000000, 0⟩⟩] 0 100 0 100 50 = some ⟨0, true, -35899345⟩ ∧
      wrapInt ((50000000 - 0) * (100 - 50)) = -1794967296 ∧
      ¬ fitsInt ((50000000 - 0) * (100 - 50))) ∧
    ¬ ∀ (m_Filters : List FilterState) (filter : Nat) (range : D3D11_VIDEO_PROCESSOR_FILTER_RANGE)
        (value min max def_ : Int) (c : StreamFilterCall),
        filter < NUM_FILTERS →
        m_Filters.getD filter ⟨false, ⟨0, 0, 0⟩⟩ = ⟨true, range⟩ →
        fitsInt range.Minimum → fitsInt range.Maximum → fitsInt range.Default →
        fitsInt value → fitsInt min → fitsInt max → fitsInt def_ →
        range.Minimum ≤ range.Default → range.Default ≤ range.Maximum →
        min < def_ → def_ < max → min ≤ value → value ≤ max →
        ApplyFilter32 m_Filters filter value min max def_ = some c →
        range.Minimum ≤ c.Level ∧ c.Level ≤ range.Maximum := by
  refine ⟨by decide, fun h => ?_⟩
  have h1 := h [⟨true, ⟨0, 50000000, 0⟩⟩] 0 ⟨0, 50000000, 0⟩ 100 0 100 50 ⟨0, true, -35899345⟩
    (by decide) (by decide) (by decide) (by decide) (by decide) (by decide) (by decide)
    (by decide) (by decide) (by decide) (by decide) (by decide) (by decide) (by decide)
    (by decide) (by decide)
  revert h1
  decide

/-- C22, amended: for a supported filter whose range satisfies
`Minimum ≤ Default ≤ Maximum`, a user scale with `min < def < max` and a value with
`min ≤ value ≤ max`, provided the scale difference and the product computed in the branch
taken are representable as `int` (`max - def` and `(Maximum - Default) * (value - def)`
above the default, `min - def` and `(Minimum - Default) * (value - def)` below it), the
level computed with 32-bit arithmetic and truncating division is the exact one and
satisfies `Minimum ≤ val ≤ Maximum`, lying between `Default` and `Maximum` when
`value > def` and between `Minimum` and `Default` when `value < def`. -/
theorem ApplyFilter32_in_range (m_Filters : List FilterState) (filter : Nat)
    (range : D3D11_VIDEO_PROCESSOR_FILTER_RANGE) (value min max def_ : Int)
    (hfilter : filter < NUM_FILTERS)
    (hsupported : m_Filters.getD filter ⟨false, ⟨0, 0, 0⟩⟩ = ⟨true, range⟩)
    (hfmin : fitsInt range.Minimum) (hfmax : fitsInt range.Maximum)
    (hlow : range.Minimum ≤ range.Default) (hhigh : range.Default ≤ range.Maximum)
    (hmin : min < def_) (hmax : def_ < max) (hlo : min ≤ value) (hhi : value ≤ max)
    (hup : value > def_ →
      fitsInt (max - def_) ∧ fitsInt ((range.Maximum - range.Default) * (value - def_)))
    (hdown : value < def_ →
      fitsInt (min - def_) ∧ fitsInt ((range.Minimum - range.Default) * (value - def_))) :
    ∃ c, ApplyFilter32 m_Filters filter value min max def_ = some c ∧
      ApplyFilterExact m_Filters filter value min max def_ = some c ∧
      range.Minimum ≤ c.Level ∧ c.Level ≤ range.Maximum ∧
      (value > def_ → range.Default ≤ c.Level ∧ c.Level ≤ range.Maximum) ∧
      (value < def_ → range.Minimum ≤ c.Level ∧ c.Level ≤ range.Default) := by
  have h1 : ¬ filter ≥ NUM_FILTERS := by omega
  obtain ⟨hexup, hexdown⟩ :=
    ApplyFilter_level_in_range range value min max def_ hlow hhigh hlo hhi
  unfold fitsInt at hfmin hfmax
  rcases lt_trichotomy value def_ with hlt | heq | hgt
  · -- below the default
    obtain ⟨hfm, hfprod⟩ := hdown hlt
    obtain ⟨hq1, hq2⟩ := hexdown hlt
    have hngt : ¬ value > def_ := by omega
    have ha : range.Minimum - range.Default ≤ 0 := by omega
    have hv : value - def_ ≤ -1 := by omega
    have hprod : -(range.Minimum - range.Default) ≤
        (range.Minimum - range.Default) * (value - def_) := by nlinarith
    unfold fitsInt at hfm hfprod
    have e1 : wrapInt (range.Minimum - range.Default) = range.Minimum - range.Default :=
      wrapInt_of_fitsInt _ ⟨by omega, by omega⟩
    have e2 : wrapInt (value - def_) = value - def_ :=
      wrapInt_of_fitsInt _ ⟨by omega, by omega⟩
    have e3 : wrapInt ((range.Minimum - range.Default) * (value - def_)) =
        (range.Minimum - range.Default) * (value - def_) := wrapInt_of_fitsInt _ hfprod
    have e4 : wrapInt (min - def_) = min - def_ := wrapInt_of_fitsInt _ hfm
    have e5 : wrapInt (((range.Minimum - range.Default) * (value - def_)).tdiv (min - def_)) =
        ((range.Minimum - range.Default) * (value - def_)).tdiv (min - def_) :=
      wrapInt_of_fitsInt _ ⟨by omega, by omega⟩
    have e6 : wrapInt (range.Default +
        ((range.Minimum - range.Default) * (value - def_)).tdiv (min - def_)) =
        range.Default + ((range.Minimum - range.Default) * (value - def_)).tdiv (min - def_) :=
      wrapInt_of_fitsInt _ ⟨by omega, by omega⟩
    refine ⟨⟨filter,
      (range.Default + ((range.Minimum - range.Default) * (value - def_)).tdiv (min - def_)) !=
        range.Default,
      range.Default + ((range.Minimum - range.Default) * (value - def_)).tdiv (min - def_)⟩, ?_, ?_, ?_⟩
    · simp only [ApplyFilter32, if_neg h1, hsupported, Bool.not_true, Bool.false_eq_true,
        if_false, if_neg hngt, if_pos hlt, e1, e2, e3, e4, e5, e6]
    · simp only [ApplyFilterExact, if_neg h1, hsupported, Bool.not_true, Bool.false_eq_true,
        if_false, if_neg hngt, if_pos hlt]
    · refine ⟨by dsimp only; omega, by dsimp only; omega, fun h => absurd h hngt,
        fun _ => ⟨by dsimp only; omega, by dsimp only; omega⟩⟩
  · -- at the default
    have hngt : ¬ value > def_ := by omega
    have hnlt : ¬ value < def_ := by omega
    refine ⟨⟨filter, range.Default != range.Default, range.Default⟩, ?_, ?_, ?_⟩
    · simp only [ApplyFilter32, if_neg h1, hsupported, Bool.not_true, Bool.false_eq_true,
        if_false, if_neg hngt, if_neg hnlt]
    · simp only [ApplyFilterExact, if_neg h1, hsupported, Bool.not_true, Bool.false_eq_true,
        if_false, if_neg hngt, if_neg hnlt]
    · exact ⟨hlow, hhigh, fun h => absurd h hngt, fun h => absurd h hnlt⟩
  · -- above the default
    obtain ⟨hfm, hfprod⟩ := hup hgt
    obtain ⟨hq1, hq2⟩ := hexup hgt
    have hnlt : ¬ value < def_ := by omega
    have ha : 0 ≤ range.Maximum - range.Default := by omega
    have hv : 1 ≤ value - def_ := by omega
    have hprod : range.Maximum - range.Default ≤
        (range.Maximum - range.Default) * (value - def_) := by nlinarith
    unfold fitsInt at hfm hfprod
    have e1 : wrapInt (range.Maximum - range.Default) = range.Maximum - range.Default :=
      wrapInt_of_fitsInt _ ⟨by omega, by omega⟩
    have e2 : wrapInt (value - def_) = value - def_ :=
      wrapInt_of_fitsInt _ ⟨by omega, by omega⟩
    have e3 : wrapInt ((range.Maximum - range.Default) * (value - def_)) =
        (range.Maximum - range.Default) * (value - def_) := wrapInt_of_fitsInt _ hfprod
    have e4 : wrapInt (max - def_) = max - def_ := wrapInt_of_fitsInt _ hfm
    have e5 : wrapInt (((range.Maximum - range.Default) * (value - def_)).tdiv (max - def_)) =
        ((range.Maximum - range.Default) * (value - def_)).tdiv (max - def_) :=
      wrapInt_of_fitsInt _ ⟨by omega, by omega⟩
    have e6 : wrapInt (range.Default +
        ((range.Maximum - range.Default) * (value - def_)).tdiv (max - def_)) =
        range.Default + ((range.Maximum - range.Default) * (value - def_)).tdiv (max - def_) :=
      wrapInt_of_fitsInt _ ⟨by omega, by omega⟩
    refine ⟨⟨filter,
      (range.Default + ((range.Maximum - range.Default) * (value - def_)).tdiv (max - def_)) !=
        range.Default,
      range.Default + ((range.Maximum - range.Default) * (value - def_)).tdiv (max - def_)⟩, ?_, ?_, ?_⟩
    · simp only [ApplyFilter32, if_neg h1, hsupported, Bool.not_true, Bool.false_eq_true,
        if_false, if_pos hgt, e1, e2, e3, e4, e5, e6]
    · simp only [ApplyFilterExact, if_neg h1, hsupported, Bool.not_true, Bool.false_eq_true,
        if_false, if_pos hgt]
    · refine ⟨by dsimp only; omega, by dsimp only; omega,
        fun _ => ⟨by dsimp only; omega, by dsimp only; omega⟩, fun h => absurd h hnlt⟩

/-- Witness for the amended C22: the range `{-100, 100, 10}` on the scale `0 .. 100`
with default `50`, as `Render` calls it, at `value = 33`: the level is `-27`, between
`Minimum` and `Default`. -/
theorem ApplyFilter32_in_range_witness :
    ∃ c, ApplyFilter32 [⟨true, ⟨-100, 100, 10⟩⟩] 0 33 0 100 50 = some c ∧
      ApplyFilterExact [⟨true, ⟨-100, 100, 10⟩⟩] 0 33 0 100 50 = some c ∧
      (-100 : Int) ≤ c.Level ∧ c.Level ≤ 100 ∧ c.Level ≤ 10 := by
  obtain ⟨c, h1, h2, h3, h4, _, h6⟩ :=
    ApplyFilter32_in_range [⟨true, ⟨-100, 100, 10⟩⟩] 0 ⟨-100, 100, 10⟩ 33 0 100 50
      (by decide) rfl (by decide) (by decide) (by decide) (by decide) (by decide) (by decide)
      (by decide) (by decide) (fun h => absurd h (by decide)) (fun _ => by decide)
  exact ⟨c, h1, h2, h3, h4, (h6 (by decide)).2⟩

end DXVA
